import Mathlib

/-!
# Bus-communication core of the gateway (`src/main/modbusHandler.cpp`)

A shallow embedding of the address byte, the two CRC16 routines, the Modbus
read-request frame with its receive-side CRC check, the Serial3 arbiter, the
sensor and status sessions, the actuator commands, the device registry, the
push-frame ingester with the array subscripts it evaluates, the identity
pulses on D38..D43, the register read of the Modbus master and the registries
the code can produce, followed by the properties proved about them.

Conventions of the embedding
* `uint8_t` / `uint16_t` / `unsigned long` values are natural numbers; a
  truncation to the width of the destination is written `% 256`, `% 65536`
  or `% 4294967296` at the places where the C expression can leave the range.
  Theorems state the range of their inputs as hypotheses.
* A byte buffer is a `List Nat`; `buf.getD i 0` is `buf[i]`.
* Global variables are fields of a state record that every operation takes
  and returns; `millis()` is a parameter of the operation that reads it.
* Bytes that arrive while an operation waits are a parameter of the operation;
  text sent to the debug console and to the MQTT broker is left out.
-/

set_option maxRecDepth 100000

namespace AppSerial

/-! ## Combined address byte (modbusHandler.cpp, lines 19-27) -/

/-- `uint8_t makeCombinedId(uint8_t typeCode, uint8_t unoId)`:
`(typeCode & 0x1F) | ((unoId & 0x07) << 5)`, returned as a `uint8_t`. -/
def makeCombinedId (typeCode unoId : Nat) : Nat :=
  ((typeCode &&& 0x1F) ||| ((unoId &&& 0x07) <<< 5)) % 256

/-- `void splitCombinedId(uint8_t combinedId, uint8_t* typeCode, uint8_t* unoId)`:
the two out-parameters are returned as the pair `(typeCode, unoId)`. -/
def splitCombinedId (combinedId : Nat) : Nat × Nat :=
  (combinedId &&& 0x1F, (combinedId >>> 5) &&& 0x07)

/-! ## Bitwise CRC16 (modbusHandler.cpp, lines 513-532) -/

/-- Body of the inner loop of `calcCRC16`:
`if (crc & 0x0001) crc = (crc >> 1) ^ 0xA001; else crc >>= 1;`. -/
def crcShift (crc : Nat) : Nat :=
  if crc &&& 0x0001 ≠ 0 then (crc >>> 1) ^^^ 0xA001 else crc >>> 1

/-- The loop `for (uint8_t j = 0; j < 8; j++)` of `calcCRC16`, run `n` times
(`n = 8` in the source). -/
def crcShiftLoop : Nat → Nat → Nat
  | 0, crc => crc
  | n + 1, crc => crcShiftLoop n (crcShift crc)

/-- Body of the outer loop of `calcCRC16`: `crc ^= buf[i];` followed by the
eight shifts. -/
def crcByte (crc b : Nat) : Nat :=
  crcShiftLoop 8 (crc ^^^ b)

/-- `uint16_t calcCRC16(const uint8_t *buf, uint8_t len)`: the register starts
at `0xFFFF` and the bytes `buf[0] .. buf[len-1]` are folded in, in order. -/
def calcCRC16 (buf : List Nat) (len : Nat) : Nat :=
  (buf.take len).foldl crcByte 0xFFFF

/-! ## CRC-16/MODBUS as the specification words it

The reference the bitwise routine is compared with: a bit-serial register of
16 bits, reflected polynomial, message bits entering one at a time, the least
significant bit of each byte first. -/

/-- The `k` low bits of `b`, least significant first. -/
def bitsLsbFirst : Nat → Nat → List Bool
  | 0, _ => []
  | k + 1, b => (b % 2 == 1) :: bitsLsbFirst k (b / 2)

/-- One message bit enters a reflected CRC register: the register moves one
place to the right, and the polynomial is added when the bit that leaves the
register differs from the message bit. -/
def crcBitStep (poly reg : Nat) (bit : Bool) : Nat :=
  if (reg % 2 == 1) != bit then (reg / 2) ^^^ poly else reg / 2

/-- Bit-reflected CRC of a byte sequence with parameters `poly` (reflected
polynomial), `init` (initial register) and `xorOut` (final XOR). -/
def crcReflected (poly init xorOut : Nat) (msg : List Nat) : Nat :=
  ((msg.map (bitsLsbFirst 8)).flatten.foldl (crcBitStep poly) init) ^^^ xorOut

/-- CRC-16/MODBUS: reflected polynomial `0xA001`, initial value `0xFFFF`, no
final XOR. -/
def crc16Modbus (msg : List Nat) : Nat :=
  crcReflected 0xA001 0xFFFF 0 msg

/-! ## Read request and receive-side check of `sendModbusRequest`
(modbusHandler.cpp, lines 535-618) -/

/-- Arduino core `highByte(w)`: `(uint8_t)((w) >> 8)`. -/
def highByte (w : Nat) : Nat := (w >>> 8) % 256

/-- Arduino core `lowByte(w)`: `(uint8_t)((w) & 0xff)`. -/
def lowByte (w : Nat) : Nat := (w &&& 0xFF) % 256

/-- The first six bytes of `request[8]` in `sendModbusRequest`. -/
def requestHeader (slaveAddr functionCode startReg regCount : Nat) : List Nat :=
  [slaveAddr, functionCode, highByte startReg, lowByte startReg,
   highByte regCount, lowByte regCount]

/-- The array `request[8]` that `sendModbusRequest` writes to the bus:
the six header bytes, then `lowByte(crc)` and `highByte(crc)` with
`crc = calcCRC16(request, 6)`. -/
def sendModbusRequestFrame (slaveAddr functionCode startReg regCount : Nat) : List Nat :=
  let header := requestHeader slaveAddr functionCode startReg regCount
  let crc := calcCRC16 header 6
  header ++ [lowByte crc, highByte crc]

/-- The part of `sendModbusRequest` after the label `RX_DONE`: a response of
fewer than five bytes is refused, otherwise
`receivedCRC = (response[responseLen-1] << 8) | response[responseLen-2]` is
compared with `calcCRC16(response, responseLen - 2)`. -/
def sendModbusRequestCheck (response : List Nat) (responseLen : Nat) : Bool :=
  if responseLen < 5 then false
  else
    let receivedCRC :=
      ((response.getD (responseLen - 1) 0 <<< 8) ||| response.getD (responseLen - 2) 0) % 65536
    let calculatedCRC := calcCRC16 response ((responseLen - 2) % 256)
    receivedCRC == calculatedCRC

/-! ## Table-driven CRC16 (modbusHandler.cpp, lines 1309-1341 and 1470-1478) -/

/-- `const uint16_t PROGMEM crc_table[256]`. -/
def crc_table : List Nat :=
  [
   0x0000, 0xC0C1, 0xC181, 0x0140, 0xC301, 0x03C0, 0x0280, 0xC241,
   0xC601, 0x06C0, 0x0780, 0xC741, 0x0500, 0xC5C1, 0xC481, 0x0440,
   0xCC01, 0x0CC0, 0x0D80, 0xCD41, 0x0F00, 0xCFC1, 0xCE81, 0x0E40,
   0x0A00, 0xCAC1, 0xCB81, 0x0B40, 0xC901, 0x09C0, 0x0880, 0xC841,
   0xD801, 0x18C0, 0x1980, 0xD941, 0x1B00, 0xDBC1, 0xDA81, 0x1A40,
   0x1E00, 0xDEC1, 0xDF81, 0x1F40, 0xDD01, 0x1DC0, 0x1C80, 0xDC41,
   0x1400, 0xD4C1, 0xD581, 0x1540, 0xD701, 0x17C0, 0x1680, 0xD641,
   0xD201, 0x12C0, 0x1380, 0xD341, 0x1100, 0xD1C1, 0xD081, 0x1040,
   0xF001, 0x30C0, 0x3180, 0xF141, 0x3300, 0xF3C1, 0xF281, 0x3240,
   0x3600, 0xF6C1, 0xF781, 0x3740, 0xF501, 0x35C0, 0x3480, 0xF441,
   0x3C00, 0xFCC1, 0xFD81, 0x3D40, 0xFF01, 0x3FC0, 0x3E80, 0xFE41,
   0xFA01, 0x3AC0, 0x3B80, 0xFB41, 0x3900, 0xF9C1, 0xF881, 0x3840,
   0x2800, 0xE8C1, 0xE981, 0x2940, 0xEB01, 0x2BC0, 0x2A80, 0xEA41,
   0xEE01, 0x2EC0, 0x2F80, 0xEF41, 0x2D00, 0xEDC1, 0xEC81, 0x2C40,
   0xE401, 0x24C0, 0x2580, 0xE541, 0x2700, 0xE7C1, 0xE681, 0x2640,
   0x2200, 0xE2C1, 0xE381, 0x2340, 0xE101, 0x21C0, 0x2080, 0xE041,
   0xA001, 0x60C0, 0x6180, 0xA141, 0x6300, 0xA3C1, 0xA281, 0x6240,
   0x6600, 0xA6C1, 0xA781, 0x6740, 0xA501, 0x65C0, 0x6480, 0xA441,
   0x6C00, 0xACC1, 0xAD81, 0x6D40, 0xAF01, 0x6FC0, 0x6E80, 0xAE41,
   0xAA01, 0x6AC0, 0x6B80, 0xAB41, 0x6900, 0xA9C1, 0xA881, 0x6840,
   0x7800, 0xB8C1, 0xB981, 0x7940, 0xBB01, 0x7BC0, 0x7A80, 0xBA41,
   0xBE01, 0x7EC0, 0x7F80, 0xBF41, 0x7D00, 0xBDC1, 0xBC81, 0x7C40,
   0xB401, 0x74C0, 0x7580, 0xB541, 0x7700, 0xB7C1, 0xB681, 0x7640,
   0x7200, 0xB2C1, 0xB381, 0x7340, 0xB101, 0x71C0, 0x7080, 0xB041,
   0x5000, 0x90C1, 0x9181, 0x5140, 0x9301, 0x53C0, 0x5280, 0x9241,
   0x9601, 0x56C0, 0x5780, 0x9741, 0x5500, 0x95C1, 0x9481, 0x5440,
   0x9C01, 0x5CC0, 0x5D80, 0x9D41, 0x5F00, 0x9FC1, 0x9E81, 0x5E40,
   0x5A00, 0x9AC1, 0x9B81, 0x5B40, 0x9901, 0x59C0, 0x5880, 0x9841,
   0x8801, 0x48C0, 0x4980, 0x8941, 0x4B00, 0x8BC1, 0x8A81, 0x4A40,
   0x4E00, 0x8EC1, 0x8F81, 0x4F40, 0x8D01, 0x4DC0, 0x4C80, 0x8C41,
   0x4400, 0x84C1, 0x8581, 0x4540, 0x8701, 0x47C0, 0x4680, 0x8641,
   0x8201, 0x42C0, 0x4380, 0x8341, 0x4100, 0x81C1, 0x8081, 0x4040]

/-- Body of the loop of `calculateCRC16`:
`crc = (crc >> 8) ^ pgm_read_word(&crc_table[(crc ^ data[i]) & 0xFF]);`. -/
def tableStep (crc b : Nat) : Nat :=
  (crc >>> 8) ^^^ crc_table.getD ((crc ^^^ b) &&& 0xFF) 0

/-- `uint16_t calculateCRC16(uint8_t *data, uint8_t length)`. -/
def calculateCRC16 (data : List Nat) (length : Nat) : Nat :=
  (data.take length).foldl tableStep 0xFFFF

/-! ## Serial3 arbiter (modbusHandler.h, lines 251-261; modbusHandler.cpp, lines 2032-2111) -/

/-- `enum Serial3Owner`. -/
inductive Serial3Owner where
  | SERIAL3_IDLE
  | SERIAL3_UNO_CONTROL
  | SERIAL3_NPN
  | SERIAL3_UNO_SENSOR
  deriving DecidableEq

open Serial3Owner

/-- `#define PRIORITY_UNO_CONTROL 1`. -/
def PRIORITY_UNO_CONTROL : Int := 1

/-- `#define PRIORITY_NPN 2`. -/
def PRIORITY_NPN : Int := 2

/-- `#define PRIORITY_UNO_SENSOR 3`. -/
def PRIORITY_UNO_SENSOR : Int := 3

/-- `int getPriority(Serial3Owner owner)`; the `default` branch returns 999. -/
def getPriority : Serial3Owner → Int
  | SERIAL3_UNO_CONTROL => PRIORITY_UNO_CONTROL
  | SERIAL3_NPN => PRIORITY_NPN
  | SERIAL3_UNO_SENSOR => PRIORITY_UNO_SENSOR
  | SERIAL3_IDLE => 999

/-- The globals `serial3Owner`, `serial3LastUsed` and `serial3CooldownTime`. -/
structure Serial3State where
  serial3Owner : Serial3Owner
  serial3LastUsed : Nat
  serial3CooldownTime : Nat
  deriving DecidableEq

/-- Subtraction of two `unsigned long` values (32 bits on the target): the
difference modulo 2^32. -/
def ulongSub (a b : Nat) : Nat :=
  (a % 4294967296 + 4294967296 - b % 4294967296) % 4294967296

/-- The initial values of the three globals (cooldown 20 ms). -/
def serial3Initial : Serial3State :=
  { serial3Owner := SERIAL3_IDLE, serial3LastUsed := 0, serial3CooldownTime := 20 }

/-- `void initSerial3Manager()`: owner Idle, last use 0, cooldown 5 ms. -/
def initSerial3Manager (_s : Serial3State) : Serial3State :=
  { serial3Owner := SERIAL3_IDLE, serial3LastUsed := 0, serial3CooldownTime := 5 }

/-- `bool requestSerial3Access(Serial3Owner requester)` with
`currentTime = millis()`: the returned flag and the globals afterwards. -/
def requestSerial3Access (s : Serial3State) (requester : Serial3Owner) (currentTime : Nat) :
    Bool × Serial3State :=
  if ulongSub currentTime s.serial3LastUsed < s.serial3CooldownTime then
    (false, s)
  else
    let s1 : Serial3State :=
      if s.serial3Owner ≠ SERIAL3_IDLE ∧ ulongSub currentTime s.serial3LastUsed > 5000 then
        { s with serial3Owner := SERIAL3_IDLE }
      else s
    if s1.serial3Owner ≠ SERIAL3_IDLE then
      if s1.serial3Owner = requester then
        (true, { s1 with serial3LastUsed := currentTime })
      else if getPriority requester ≥ getPriority s1.serial3Owner then
        (false, s1)
      else
        (true, { s1 with serial3Owner := requester, serial3LastUsed := currentTime })
    else
      (true, { s1 with serial3Owner := requester, serial3LastUsed := currentTime })

/-- `void releaseSerial3Access()` with `now = millis()`. -/
def releaseSerial3Access (s : Serial3State) (now : Nat) : Serial3State :=
  { s with serial3Owner := SERIAL3_IDLE, serial3LastUsed := now }

/-! ## Sensor session poll (modbusHandler.h, lines 225-230; modbusHandler.cpp, lines 2238-2320) -/

/-- `enum UnoRequestState`. -/
inductive UnoRequestState where
  | UNO_IDLE
  | UNO_SENDING
  | UNO_WAITING
  | UNO_RECEIVING
  deriving DecidableEq

open UnoRequestState

/-- `#define ACK_SENSOR_DATA 0x82`. -/
def ACK_SENSOR_DATA : Nat := 0x82

/-- The fields of `unoSensorData` written by the poll, before the division
that turns them into `float`: `ph = ph_int / 100`, `ec = ec_int * 10 / 1000`,
`waterTemp = temp_int / 10`. -/
structure UnoSensorRaw where
  ph_int : Nat
  ec_int : Nat
  temp_int : Nat
  isValid : Bool
  deriving DecidableEq

/-- The globals read and written by `updateUnoSensorRequest`; `rx` holds the
bytes waiting in the receive buffer of `RS485_CONTROL_SERIAL`, oldest first. -/
structure SensorSession where
  arbiter : Serial3State
  unoRequestState : UnoRequestState
  unoRequestStartTime : Nat
  rx : List Nat
  unoSensorData : UnoSensorRaw
  deriving DecidableEq

/-- `bool updateUnoSensorRequest()`. `now` is `millis()` at the timeout test,
`relTime` is `millis()` as read inside `releaseSerial3Access()`. -/
def updateUnoSensorRequest (g : SensorSession) (now relTime : Nat) : Bool × SensorSession :=
  match g.unoRequestState with
  | UNO_IDLE => (false, g)
  | UNO_SENDING => (true, g)
  | _ =>
    if g.rx.length ≥ 8 then
      let responseCode := g.rx.getD 0 0
      if responseCode = ACK_SENSOR_DATA then
        let ph_int := ((g.rx.getD 1 0 <<< 8) ||| g.rx.getD 2 0) % 65536
        let ec_int := ((g.rx.getD 3 0 <<< 8) ||| g.rx.getD 4 0) % 65536
        let temp_int := ((g.rx.getD 5 0 <<< 8) ||| g.rx.getD 6 0) % 65536
        (false,
          { g with
            rx := g.rx.drop 8
            unoSensorData :=
              { ph_int := ph_int, ec_int := ec_int, temp_int := temp_int, isValid := true }
            unoRequestState := UNO_IDLE
            arbiter := releaseSerial3Access g.arbiter relTime })
      else
        (false,
          { g with
            rx := g.rx.drop 1
            unoRequestState := UNO_IDLE
            arbiter := releaseSerial3Access g.arbiter relTime
            unoSensorData := { g.unoSensorData with isValid := false } })
    else if ulongSub now g.unoRequestStartTime > 10000 then
      (false,
        { g with
          unoRequestState := UNO_IDLE
          arbiter := releaseSerial3Access g.arbiter relTime
          unoSensorData := { g.unoSensorData with isValid := false } })
    else
      (true, g)

/-- A sensor session that started at 50 ms holding the bus as `UNO_SENSOR`,
lost it at 100 ms to a request of `UNO_CONTROL`, and whose eight answer bytes
have arrived since. -/
def preemptedSensorSession : SensorSession :=
  { arbiter :=
      (requestSerial3Access
        { serial3Owner := SERIAL3_UNO_SENSOR, serial3LastUsed := 50, serial3CooldownTime := 5 }
        SERIAL3_UNO_CONTROL 100).2
    unoRequestState := UNO_WAITING
    unoRequestStartTime := 50
    rx := [0x82, 0x02, 0xBC, 0x00, 0x96, 0x00, 0xF0, 0x00]
    unoSensorData := { ph_int := 0, ec_int := 0, temp_int := 0, isValid := false } }


/-- The three `float` fields of `unoSensorData`, read as exact rationals:
`ph = ph_int / 100.0f`. -/
def UnoSensorRaw.ph (d : UnoSensorRaw) : ℚ := (d.ph_int : ℚ) / 100

/-- Field `ec` of `unoSensorData`: `(ec_int * 10.0f) / 1000.0f`, in dS/m. -/
def UnoSensorRaw.ec (d : UnoSensorRaw) : ℚ := ((d.ec_int : ℚ) * 10) / 1000

/-- Field `waterTemp` of `unoSensorData`: `temp_int / 10.0f`, in degrees C. -/
def UnoSensorRaw.waterTemp (d : UnoSensorRaw) : ℚ := (d.temp_int : ℚ) / 10

/-! ## The two sessions on the control bus (modbusHandler.cpp, lines 2142-2532) -/

/-- `#define CMD_SENSOR_REQUEST 0x25`. -/
def CMD_SENSOR_REQUEST : Nat := 0x25

/-- `#define CMD_STATUS_REQUEST 0x33`. -/
def CMD_STATUS_REQUEST : Nat := 0x33

/-- `#define ACK_STATUS_DATA 0x83`. -/
def ACK_STATUS_DATA : Nat := 0x83

/-- The globals around `RS485_CONTROL_SERIAL` (Serial3): the arbiter, the
receive buffer `rx` (oldest byte first), the bytes written so far `tx` (oldest
first), `unoControlPresent`, the sensor session and the status session.
Of `unoNutrientStatus` only the field `isValid` is kept: the other fields are
filled by the JSON library. -/
structure ControlBus where
  arbiter : Serial3State
  rx : List Nat
  tx : List Nat
  unoControlPresent : Bool
  unoRequestState : UnoRequestState
  unoRequestStartTime : Nat
  unoSensorData : UnoSensorRaw
  unoStatusRequestState : UnoRequestState
  unoStatusRequestStartTime : Nat
  unoNutrientStatusValid : Bool
  deriving DecidableEq

/-- The values of `millis()` read, in this order, by one call of
`startUnoSensorRequest` or `startUnoStatusRequest`: at the staleness test, in
`requestSerial3Access`, at the test of the fallback branch, at the stamp of
the fallback branch, and when the start time is recorded. -/
structure StartClock where
  atStaleCheck : Nat
  atRequest : Nat
  atFallbackCheck : Nat
  atFallbackStamp : Nat
  atStart : Nat
  deriving DecidableEq

/-- One clock value for the whole call. -/
def StartClock.const (t : Nat) : StartClock :=
  { atStaleCheck := t, atRequest := t, atFallbackCheck := t, atFallbackStamp := t, atStart := t }

/-- The part of both start functions from the call of `requestSerial3Access`
to the fallback branch (lines 2203-2215 and 2351-2363): the flag tells whether
the function goes on to transmit, the state is the arbiter afterwards. -/
def startAcquire (a : Serial3State) (c : StartClock) : Bool × Serial3State :=
  let r := requestSerial3Access a SERIAL3_UNO_SENSOR c.atRequest
  if r.1 then (true, r.2)
  else if r.2.serial3Owner = SERIAL3_IDLE ∧ ulongSub c.atFallbackCheck r.2.serial3LastUsed > 5000 then
    (true, { r.2 with serial3Owner := SERIAL3_UNO_SENSOR, serial3LastUsed := c.atFallbackStamp })
  else (false, r.2)

/-- `void startUnoSensorRequest()`. -/
def startUnoSensorRequest (b : ControlBus) (c : StartClock) : ControlBus :=
  if b.unoControlPresent = false then b
  else if b.unoRequestState ≠ UNO_IDLE ∧ ¬ (ulongSub c.atStaleCheck b.unoRequestStartTime > 10000) then b
  else
    let b1 : ControlBus :=
      if b.unoRequestState ≠ UNO_IDLE then
        { b with unoRequestState := UNO_IDLE
                 arbiter := { b.arbiter with serial3Owner := SERIAL3_IDLE } }
      else b
    let r := startAcquire b1.arbiter c
    if r.1 then
      { b1 with arbiter := r.2
                unoRequestStartTime := c.atStart
                tx := b1.tx ++ [CMD_SENSOR_REQUEST, 0x00]
                unoRequestState := UNO_WAITING }
    else { b1 with arbiter := r.2 }

/-- `void startUnoStatusRequest()`. -/
def startUnoStatusRequest (b : ControlBus) (c : StartClock) : ControlBus :=
  if b.unoControlPresent = false then b
  else if b.unoStatusRequestState ≠ UNO_IDLE ∧
      ¬ (ulongSub c.atStaleCheck b.unoStatusRequestStartTime > 10000) then b
  else
    let b1 : ControlBus :=
      if b.unoStatusRequestState ≠ UNO_IDLE then
        { b with unoStatusRequestState := UNO_IDLE
                 arbiter := { b.arbiter with serial3Owner := SERIAL3_IDLE } }
      else b
    let r := startAcquire b1.arbiter c
    if r.1 then
      { b1 with arbiter := r.2
                unoStatusRequestStartTime := c.atStart
                tx := b1.tx ++ [CMD_STATUS_REQUEST, 0x00]
                unoStatusRequestState := UNO_WAITING }
    else { b1 with arbiter := r.2 }

/-- The sensor session as `updateUnoSensorRequest` sees it. -/
def ControlBus.sensorSession (b : ControlBus) : SensorSession :=
  { arbiter := b.arbiter, unoRequestState := b.unoRequestState,
    unoRequestStartTime := b.unoRequestStartTime, rx := b.rx, unoSensorData := b.unoSensorData }

/-- `updateUnoSensorRequest` on the globals of the control bus. -/
def ControlBus.updateSensor (b : ControlBus) (now relTime : Nat) : Bool × ControlBus :=
  let r := updateUnoSensorRequest b.sensorSession now relTime
  (r.1, { b with arbiter := r.2.arbiter, unoRequestState := r.2.unoRequestState,
                 unoRequestStartTime := r.2.unoRequestStartTime, rx := r.2.rx,
                 unoSensorData := r.2.unoSensorData })

/-- `bool updateUnoStatusRequest()`. `now` is `millis()` at the timeout test,
`relTime` is `millis()` as read inside `releaseSerial3Access()`; `arriving`
holds the bytes that reach the receive buffer during the wait of at most 2 s
for the JSON text, and `jsonOk` tells whether `deserializeJson` accepts the
text received. -/
def updateUnoStatusRequest (b : ControlBus) (now relTime : Nat) (arriving : List Nat)
    (jsonOk : List Nat → Bool) : Bool × ControlBus :=
  match b.unoStatusRequestState with
  | UNO_IDLE => (false, b)
  | UNO_SENDING => (true, b)
  | _ =>
    if b.rx.length ≥ 3 then
      let responseCode := b.rx.getD 0 0
      if responseCode = ACK_STATUS_DATA then
        let jsonLen0 := ((b.rx.getD 1 0 <<< 8) ||| b.rx.getD 2 0) % 65536
        let jsonLen := if jsonLen0 > 255 then 255 else jsonLen0
        let avail := b.rx.drop 3 ++ arriving
        let jsonStr := avail.take jsonLen
        let received := jsonStr.length
        (false,
          { b with
            rx := avail.drop jsonLen
            unoNutrientStatusValid := if received = jsonLen then jsonOk jsonStr else false
            unoStatusRequestState := UNO_IDLE
            arbiter := releaseSerial3Access b.arbiter relTime })
      else
        (false,
          { b with
            rx := b.rx.drop 1
            unoStatusRequestState := UNO_IDLE
            arbiter := releaseSerial3Access b.arbiter relTime
            unoNutrientStatusValid := false })
    else if ulongSub now b.unoStatusRequestStartTime > 10000 then
      (false,
        { b with
          unoStatusRequestState := UNO_IDLE
          arbiter := releaseSerial3Access b.arbiter relTime
          unoNutrientStatusValid := false })
    else
      (true, b)

/-- The globals after `setup()`: arbiter initialised, nothing received or
sent, both sessions Idle, the control UNO detected. -/
def controlBusReady : ControlBus :=
  { arbiter := initSerial3Manager serial3Initial
    rx := []
    tx := []
    unoControlPresent := true
    unoRequestState := UNO_IDLE
    unoRequestStartTime := 0
    unoSensorData := { ph_int := 0, ec_int := 0, temp_int := 0, isValid := false }
    unoStatusRequestState := UNO_IDLE
    unoStatusRequestStartTime := 0
    unoNutrientStatusValid := false }

/-! ## Actuator commands on the control bus (modbusHandler.h, lines 35-48;
modbusHandler.cpp, lines 1544-1767, 2645-2753 and 2989-3118) -/

/-- `#define CMD_RESET 0x20`. -/
def CMD_RESET : Nat := 0x20

/-- `#define CMD_ALLOFF 0x21`. -/
def CMD_ALLOFF : Nat := 0x21

/-- `#define CMD_TOGGLE 0x22`. -/
def CMD_TOGGLE : Nat := 0x22

/-- `#define CMD_ON 0x23`. -/
def CMD_ON : Nat := 0x23

/-- `#define CMD_OFF 0x24`. -/
def CMD_OFF : Nat := 0x24

/-- `#define CMD_EC_PULSE 0x26`. -/
def CMD_EC_PULSE : Nat := 0x26

/-- `#define CMD_EC_OFF 0x28`. -/
def CMD_EC_OFF : Nat := 0x28

/-- `#define CMD_BED_ON 0x29`. -/
def CMD_BED_ON : Nat := 0x29

/-- `#define ACK_OK 0x80`. -/
def ACK_OK : Nat := 0x80

/-- `#define ACK_ERROR 0x81`. -/
def ACK_ERROR : Nat := 0x81

/-- How a wait for the acknowledgement byte ends. -/
inductive AckOutcome where
  | ok
  | error
  | timeout
  deriving DecidableEq

/-- The acknowledgement loop shared by the actuator commands
(`while (millis() - startTime < window) { if (available()) { read; ... } delay(1); }`)
run on the bytes that arrive inside the window, oldest first: the first
`ACK_OK` or `ACK_ERROR` ends the wait, any other byte is read and dropped, and
the window closes when no byte is left. The second component holds the bytes
not read. -/
def awaitAck : List Nat → AckOutcome × List Nat
  | [] => (AckOutcome.timeout, [])
  | a :: rest =>
    if a = ACK_OK then (AckOutcome.ok, rest)
    else if a = ACK_ERROR then (AckOutcome.error, rest)
    else awaitAck rest

/-- Conversion `(uint8_t)x` of an `int`. -/
def toUint8 (x : Int) : Nat := (x % 256).toNat

/-- `void unoChannelOnImmediate(uint8_t channel)`: the receive buffer is
emptied, the three bytes are written and the acknowledgement is awaited;
`arriving` holds the bytes the loop reads in its 20 ms window, the flag is
`ackReceived`, which is forwarded by
`sendUnoAckToServer("ON", channel, ackReceived)`. -/
def unoChannelOnImmediate (b : ControlBus) (channel : Nat) (arriving : List Nat) :
    Bool × ControlBus :=
  let w := awaitAck arriving
  (decide (w.1 = AckOutcome.ok), { b with rx := w.2, tx := b.tx ++ [CMD_ON, channel % 256, 0x0A] })

/-- `void unoChannelOffImmediate(uint8_t channel)`, as `unoChannelOnImmediate`. -/
def unoChannelOffImmediate (b : ControlBus) (channel : Nat) (arriving : List Nat) :
    Bool × ControlBus :=
  let w := awaitAck arriving
  (decide (w.1 = AckOutcome.ok), { b with rx := w.2, tx := b.tx ++ [CMD_OFF, channel % 256, 0x0A] })

/-- `void togglePulseImmediate(int pinIndex)`: receive buffer emptied, two
bytes written, no wait. -/
def togglePulseImmediate (b : ControlBus) (pinIndex : Int) : ControlBus :=
  { b with rx := [], tx := b.tx ++ [CMD_TOGGLE, toUint8 pinIndex] }

/-- `void togglePulseFast(int pinIndex)`. -/
def togglePulseFast (b : ControlBus) (pinIndex : Int) : ControlBus :=
  { b with rx := [], tx := b.tx ++ [CMD_TOGGLE, toUint8 pinIndex] }

/-- `void toggleECPulseFast()`. -/
def toggleECPulseFast (b : ControlBus) : ControlBus :=
  { b with rx := [], tx := b.tx ++ [CMD_EC_PULSE, 0x00] }

/-- `void ecOffFast()`. -/
def ecOffFast (b : ControlBus) : ControlBus :=
  { b with rx := [], tx := b.tx ++ [CMD_EC_OFF, 0x00] }

/-- `void bedOnFast(uint8_t bedMask)`. -/
def bedOnFast (b : ControlBus) (bedMask : Nat) : ControlBus :=
  { b with rx := [], tx := b.tx ++ [CMD_BED_ON, bedMask % 256] }

/-- `void resetUnoImmediate()`: the receive buffer is not emptied. -/
def resetUnoImmediate (b : ControlBus) : ControlBus :=
  { b with tx := b.tx ++ [CMD_RESET, 0x00] }

/-- `void allOffUnoImmediate()`. -/
def allOffUnoImmediate (b : ControlBus) : ControlBus :=
  { b with tx := b.tx ++ [CMD_ALLOFF, 0x00] }

/-- The upper-cased `action` of `handleMultiRelayCommand` as the function
tells it apart: "ON", "OFF", anything else. -/
inductive MultiAction where
  | ON
  | OFF
  | other
  deriving DecidableEq

/-- The loop that builds `uint8_t bitmask` in `handleMultiRelayCommand`:
`if (channel < 10) bitmask |= (1 << channel);`, channels as `uint8_t`. -/
def multiRelayBitmask (channels : List Nat) : Nat :=
  channels.foldl
    (fun bitmask channel => if channel < 10 then (bitmask ||| (1 <<< channel)) % 256 else bitmask)
    0

/-- `bool handleMultiRelayCommand(action, channels, response)`: the receive
buffer is emptied before the action is looked at; `arriving` holds the bytes
the acknowledgement loop reads in its 50 ms window. The text `response` is not
modelled. -/
def handleMultiRelayCommand (b : ControlBus) (action : MultiAction) (channels : List Nat)
    (arriving : List Nat) : Bool × ControlBus :=
  let bitmask := multiRelayBitmask channels
  match action with
  | MultiAction.ON =>
    let w := awaitAck arriving
    (decide (w.1 = AckOutcome.ok), { b with rx := w.2, tx := b.tx ++ [0x30, bitmask, 0x0A] })
  | MultiAction.OFF =>
    let w := awaitAck arriving
    (decide (w.1 = AckOutcome.ok), { b with rx := w.2, tx := b.tx ++ [0x31, bitmask, 0x0A] })
  | MultiAction.other => (false, { b with rx := [] })

/-- The bytes written by one attempt of `sendNutrientConfigToUno`: `0x32`, the
length `jsonLen = min(strlen(jsonConfig), 256)` high byte first, and the first
`jsonLen` characters. -/
def nutrientFrame (jsonConfig : List Nat) : List Nat :=
  let jsonLen := if jsonConfig.length > 256 then 256 else jsonConfig.length
  [0x32, (jsonLen >>> 8) &&& 0xFF, jsonLen &&& 0xFF] ++ jsonConfig.take jsonLen

/-- The loop `for (retry = 0; retry < maxRetries; retry++)` of
`sendNutrientConfigToUno` with `n` iterations left: every attempt empties the
receive buffer, writes the frame and awaits the acknowledgement; `replies`
holds, for each attempt still to come, the bytes its loop reads in the 500 ms
window. The flag is the local `success`. -/
def nutrientAttempts (frame : List Nat) (isStopCommand : Bool) :
    Nat → List (List Nat) → ControlBus → Bool × ControlBus
  | 0, _, b => (false, b)
  | n + 1, replies, b =>
    let w := awaitAck (replies.headD [])
    let b1 : ControlBus := { b with rx := w.2, tx := b.tx ++ frame }
    match w.1 with
    | AckOutcome.ok => (true, b1)
    | AckOutcome.error =>
      if isStopCommand then nutrientAttempts frame isStopCommand n replies.tail b1
      else (false, b1)
    | AckOutcome.timeout => nutrientAttempts frame isStopCommand n replies.tail b1

/-- `void sendNutrientConfigToUno(const char* jsonConfig)`. `isStopCommand` is
what lines 2649-2657 compute with the JSON library: the text parses and its
"cmd", upper-cased, is "STOP". -/
def sendNutrientConfigToUno (b : ControlBus) (jsonConfig : List Nat) (isStopCommand : Bool)
    (replies : List (List Nat)) : Bool × ControlBus :=
  let maxRetries := if isStopCommand then 3 else 1
  nutrientAttempts (nutrientFrame jsonConfig) isStopCommand maxRetries replies b

/-- The control bus while a sensor session started at 100 ms is waiting. -/
def busHeldBySensor : ControlBus :=
  startUnoSensorRequest controlBusReady (StartClock.const 100)

/-! ## Device registry (modbusHandler.h, lines 28, 54-73 and 104-118;
modbusHandler.cpp, lines 32-33 and 728-749) -/

/-- `#define MAX_MODBUS_SLAVES 10`. -/
def MAX_MODBUS_SLAVES : Nat := 10

/-- `enum modbusSensorType`, value `MODBUS_WIND_DIRECTION = 16`. -/
def MODBUS_WIND_DIRECTION : Nat := 16

/-- `MODBUS_WIND_SPEED = 17`. -/
def MODBUS_WIND_SPEED : Nat := 17

/-- `MODBUS_RAIN_SNOW = 18`. -/
def MODBUS_RAIN_SNOW : Nat := 18

/-- `MODBUS_SOIL_SENSOR = 19`. -/
def MODBUS_SOIL_SENSOR : Nat := 19

/-- `MODBUS_SHT20 = 21`. -/
def MODBUS_SHT20 : Nat := 21

/-- `MODBUS_SCD41 = 22`. -/
def MODBUS_SCD41 : Nat := 22

/-- `MODBUS_TSL2591 = 23`. -/
def MODBUS_TSL2591 : Nat := 23

/-- `MODBUS_BH1750 = 24`. -/
def MODBUS_BH1750 : Nat := 24

/-- `MODBUS_ADS1115 = 25`. -/
def MODBUS_ADS1115 : Nat := 25

/-- `MODBUS_DS18B20 = 26`. -/
def MODBUS_DS18B20 : Nat := 26

/-- The text stored in `ModbusSlave::name`, kept as the parts it is built
from: `String(typeName) + "_T" + String(typeCode) + "_U" + String(unoId)` in
`addDiscoveredSensor`, `String("SHT20_") + String(slaveAddr)` in
`debugPollSHT20FromUno`, and the empty text of a slot never written. -/
inductive SensorName where
  | unset
  | typed (typeName : String) (typeCode unoId : Nat)
  | sht20 (slaveAddr : Nat)
  deriving DecidableEq

/-- `struct ModbusSlave`; `type` holds the value of the enumerator and
`registers` the ten elements of `uint16_t registers[10]`. -/
structure ModbusSlave where
  slaveId : Nat
  type : Nat
  active : Bool
  registers : List Nat
  lastRead : Nat
  name : SensorName
  isOnline : Bool
  lastResponse : Nat
  consecutiveFailures : Nat
  lastHealthCheck : Nat
  deriving DecidableEq

/-- A slot of the zero-initialised global array. -/
def ModbusSlave.zero : ModbusSlave :=
  { slaveId := 0, type := 0, active := false, registers := List.replicate 10 0, lastRead := 0,
    name := SensorName.unset, isOnline := false, lastResponse := 0, consecutiveFailures := 0,
    lastHealthCheck := 0 }

/-- The globals `modbusSensors[MAX_MODBUS_SLAVES]` (all ten slots, used or
not), `modbusSlaveCount` and `modbusSensorsReady`. -/
structure Registry where
  modbusSensors : List ModbusSlave
  modbusSlaveCount : Nat
  modbusSensorsReady : Bool
  deriving DecidableEq

/-- The registry at start-up: ten zero slots, no record. -/
def Registry.empty : Registry :=
  { modbusSensors := List.replicate 10 ModbusSlave.zero, modbusSlaveCount := 0,
    modbusSensorsReady := false }

/-- The sizes fixed by the declarations: ten slots of ten registers, and a
count that does not exceed the slots. -/
def Registry.sized (r : Registry) : Prop :=
  r.modbusSensors.length = 10 ∧ (∀ s ∈ r.modbusSensors, s.registers.length = 10) ∧
  r.modbusSlaveCount ≤ 10

/-- The `slaveId` keys of the first `modbusSlaveCount` records are pairwise
distinct. -/
def Registry.distinctKeys (r : Registry) : Prop :=
  ∀ i j, i < r.modbusSlaveCount → j < r.modbusSlaveCount →
    (r.modbusSensors.getD i ModbusSlave.zero).slaveId
      = (r.modbusSensors.getD j ModbusSlave.zero).slaveId → i = j

/-- The loop `for (i = 0; i < modbusSlaveCount; i++) if (modbusSensors[i].slaveId == id)`:
the first index whose key is `id`. -/
def findSlave (r : Registry) (id : Nat) : Option Nat :=
  (List.range r.modbusSlaveCount).find?
    (fun i => (r.modbusSensors.getD i ModbusSlave.zero).slaveId == id)

/-- `static void addDiscoveredSensor(uint8_t combinedId, modbusSensorType type, const char* typeName)`
with `now = millis()`. -/
def addDiscoveredSensor (r : Registry) (combinedId type : Nat) (typeName : String) (now : Nat) :
    Registry :=
  if r.modbusSlaveCount ≥ MAX_MODBUS_SLAVES then r
  else if (findSlave r combinedId).isSome then r
  else
    let slot := r.modbusSensors.getD r.modbusSlaveCount ModbusSlave.zero
    { r with
      modbusSensors := r.modbusSensors.set r.modbusSlaveCount
        { slot with
          slaveId := combinedId
          type := type
          active := true
          lastRead := 0
          name := SensorName.typed typeName (splitCombinedId combinedId).1
            (splitCombinedId combinedId).2
          isOnline := true
          lastResponse := now
          consecutiveFailures := 0 }
      modbusSlaveCount := r.modbusSlaveCount + 1 }

/-! ## Push-frame ingester (modbusHandler.cpp, lines 851-1071) -/

/-- The `switch (typeCode)` of `pollUnoPushFrames` with the initial values
`t = MODBUS_SHT20`, `name = "UNKNOWN"` that the `default` branch leaves. -/
def pushTypeOf (typeCode : Nat) : Nat × String :=
  if typeCode = 21 then (MODBUS_SHT20, "SHT20")
  else if typeCode = 22 then (MODBUS_SCD41, "SCD41")
  else if typeCode = 23 then (MODBUS_TSL2591, "TSL2591")
  else if typeCode = 24 then (MODBUS_BH1750, "BH1750")
  else if typeCode = 25 then (MODBUS_ADS1115, "ADS1115")
  else if typeCode = 26 then (MODBUS_DS18B20, "DS18B20")
  else if typeCode = 19 then (MODBUS_SOIL_SENSOR, "SOIL")
  else if typeCode = 16 then (MODBUS_WIND_DIRECTION, "WIND_DIR")
  else if typeCode = 17 then (MODBUS_WIND_SPEED, "WIND_SPD")
  else if typeCode = 18 then (MODBUS_RAIN_SNOW, "RAIN")
  else (MODBUS_SHT20, "UNKNOWN")

/-- The loop `for (k = 0; k < regCount && k < 10; k++)
registers[k] = (buf[3 + k * 2] << 8) | buf[4 + k * 2];`. -/
def copyRegisters (registers buf : List Nat) (regCount : Nat) : List Nat :=
  (List.range (min regCount 10)).foldl
    (fun regs k => regs.set k (((buf.getD (3 + k * 2) 0 <<< 8) ||| buf.getD (4 + k * 2) 0) % 65536))
    registers

/-- The branch `if (fc == 0x03)` of `pollUnoPushFrames` (lines 894-1036) on
the buffer `buf` holding a frame with `byteCount = buf[2]`; `now` is
`millis()`. -/
def pushFrame (r : Registry) (buf : List Nat) (byteCount now : Nat) : Registry :=
  let addr := buf.getD 0 0
  let typeCode := (splitCombinedId addr).1
  let t := (pushTypeOf typeCode).1
  let name := (pushTypeOf typeCode).2
  let found := findSlave r addr
  let r1 :=
    if found = none ∧ r.modbusSlaveCount < MAX_MODBUS_SLAVES then
      addDiscoveredSensor r addr t name now
    else r
  let idx : Option Nat :=
    match found with
    | some i => some i
    | none => if r.modbusSlaveCount < MAX_MODBUS_SLAVES then some (r1.modbusSlaveCount - 1) else none
  match idx with
  | none => r1
  | some i =>
    let slot := r1.modbusSensors.getD i ModbusSlave.zero
    { r1 with
      modbusSensors := r1.modbusSensors.set i
        { slot with
          registers := copyRegisters slot.registers buf ((byteCount / 2) % 256)
          isOnline := true
          lastResponse := now }
      modbusSensorsReady := decide (r1.modbusSlaveCount > 0) }

/-- The static variables of `pollUnoPushFrames` with the registry: `buf`
holds the `len` bytes `buf[0] .. buf[len-1]` of the rolling buffer (the
function reads no other element of the array), `lastByte` is the time of the
last byte taken in. -/
structure PushIngester where
  buf : List Nat
  lastByte : Nat
  reg : Registry
  deriving DecidableEq

/-- The loop `while (len >= 3)` of `pollUnoPushFrames` (lines 878-1065), with
at most `fuel` iterations; every iteration that does not leave the loop removes
at least five bytes, so `fuel = len` iterations are never exhausted. -/
def processFrames : Nat → PushIngester → Nat → PushIngester
  | 0, s, _ => s
  | fuel + 1, s, now =>
    if s.buf.length ≥ 3 then
      let byteCount := s.buf.getD 2 0
      let frameLen := byteCount + 5
      if s.buf.length < frameLen then s
      else
        let rxCrc := ((s.buf.getD (frameLen - 1) 0 <<< 8) ||| s.buf.getD (frameLen - 2) 0) % 65536
        let calcCrc := calcCRC16 s.buf ((frameLen - 2) % 256)
        let reg1 :=
          if rxCrc = calcCrc ∧ frameLen ≥ 5 then
            if s.buf.getD 1 0 = 0x03 then pushFrame s.reg s.buf byteCount now else s.reg
          else s.reg
        let frameLen2 := if frameLen > s.buf.length then s.buf.length else frameLen
        let remain := (s.buf.length - frameLen2) % 256
        processFrames fuel { s with reg := reg1, buf := (s.buf.drop frameLen2).take remain } now
    else s

/-- One iteration of the loop `while (RS485_SENSING_SERIAL.available())`: the
byte is stored at `buf[len++]` with the 8-bit counter `len` wrapping at 256,
`lastByte` is stamped, and the complete frames are processed. -/
def pushByte (s : PushIngester) (byte now : Nat) : PushIngester :=
  if s.buf.length < 256 then
    let len1 := (s.buf.length + 1) % 256
    let s1 : PushIngester := { s with buf := (s.buf ++ [byte]).take len1, lastByte := now }
    processFrames s1.buf.length s1 now
  else { s with buf := [] }

/-- `void pollUnoPushFrames()`: `input` holds the bytes available on
`RS485_SENSING_SERIAL` during the call, `now` is `millis()` while they are
taken in and processed, `endNow` is `millis()` at the staleness test that
ends the call. -/
def pollUnoPushFrames (s : PushIngester) (input : List Nat) (now endNow : Nat) : PushIngester :=
  let s1 := input.foldl (fun st byte => pushByte st byte now) s
  if s1.buf.length > 0 ∧ ulongSub endNow s1.lastByte > 20 then { s1 with buf := [] } else s1

/-- A read-response frame `addr, fc, byteCount, payload, crcLo, crcHi` with the
CRC that `calcCRC16` gives for the bytes before it. -/
def pushFrameBytes (addr fc : Nat) (payload : List Nat) : List Nat :=
  let body := addr :: fc :: payload.length :: payload
  body ++ [lowByte (calcCRC16 body body.length), highByte (calcCRC16 body body.length)]

/-- `void debugPollSHT20FromUno(uint8_t slaveAddr)`: `lastPoll` is the static
variable, `now` the first `millis()`, `read` the outcome of
`readModbusRegisters(slaveAddr, 0, 2, regs)` (the two registers when it
returns true) and `respTime` the `millis()` stored in `lastResponse`. The
second component is `lastPoll` afterwards. -/
def debugPollSHT20FromUno (r : Registry) (lastPoll slaveAddr now : Nat)
    (read : Option (Nat × Nat)) (respTime : Nat) : Registry × Nat :=
  if ulongSub now lastPoll < 5000 then (r, lastPoll)
  else
    match read with
    | none => (r, now)
    | some regs =>
      let hit := (List.range r.modbusSlaveCount).find?
        (fun i => (r.modbusSensors.getD i ModbusSlave.zero).slaveId == slaveAddr
          && (r.modbusSensors.getD i ModbusSlave.zero).type == MODBUS_SHT20)
      let r1 : Registry :=
        match hit with
        | some i =>
          let slot := r.modbusSensors.getD i ModbusSlave.zero
          { r with
            modbusSensors := r.modbusSensors.set i
              { slot with
                registers := (slot.registers.set 0 regs.1).set 1 regs.2
                active := true
                isOnline := true
                lastResponse := respTime } }
        | none =>
          if r.modbusSlaveCount < MAX_MODBUS_SLAVES then
            let slot := r.modbusSensors.getD r.modbusSlaveCount ModbusSlave.zero
            { r with
              modbusSensors := r.modbusSensors.set r.modbusSlaveCount
                { slot with
                  slaveId := slaveAddr
                  type := MODBUS_SHT20
                  active := true
                  registers := (slot.registers.set 0 regs.1).set 1 regs.2
                  name := SensorName.sht20 slaveAddr
                  isOnline := true
                  lastResponse := respTime }
              modbusSlaveCount := r.modbusSlaveCount + 1 }
          else r
      ({ r1 with modbusSensorsReady := decide (r1.modbusSlaveCount > 0) }, now)

/-- The ingester at start-up: empty rolling buffer, empty registry. -/
def ingesterEmpty : PushIngester :=
  { buf := [], lastByte := 0, reg := Registry.empty }

/-- The registry after the push frame `16 03 04 01 02 03 04 crc` (combined
address 22: type code 22, instance 0) has been ingested at 100 ms. -/
def registryWithScd41 : Registry :=
  (pollUnoPushFrames ingesterEmpty (pushFrameBytes 22 0x03 [0x01, 0x02, 0x03, 0x04]) 100 100).reg

/-- The registry `registryWithScd41` after `debugPollSHT20FromUno(22)` at
6000 ms with a successful read of the registers 2500 and 6000. -/
def registryAfterDebugPoll : Registry :=
  (debugPollSHT20FromUno registryWithScd41 0 22 6000 (some (2500, 6000)) 6001).1

/-! ## Identity pulses on D38..D43 (modbusHandler.cpp, lines 109-302) -/

/-- The second argument of `pinMode`. -/
inductive PinDirection where
  | INPUT
  | OUTPUT
  deriving DecidableEq

/-- The second argument of `digitalWrite`. -/
inductive PinLevel where
  | LOW
  | HIGH
  deriving DecidableEq

/-- What `assignUnoIdsByPulses` does to the outside, in program order: calls
of `pinMode`, of `digitalWrite` and of `delay` (milliseconds). The text sent to
the debug console is left out. -/
inductive PinEvent where
  | pinMode (pin : Nat) (mode : PinDirection)
  | digitalWrite (pin : Nat) (level : PinLevel)
  | delay (ms : Nat)
  deriving DecidableEq

/-- `#define ENROLL_PIN_38 38`. -/
def ENROLL_PIN_38 : Nat := 38

/-- `#define ENROLL_PIN_39 39`. -/
def ENROLL_PIN_39 : Nat := 39

/-- `#define ENROLL_PIN_40 40`. -/
def ENROLL_PIN_40 : Nat := 40

/-- `#define ENROLL_PIN_41 41`. -/
def ENROLL_PIN_41 : Nat := 41

/-- `#define ENROLL_PIN_42 42`. -/
def ENROLL_PIN_42 : Nat := 42

/-- `#define ENROLL_PIN_43 43`. -/
def ENROLL_PIN_43 : Nat := 43

/-- `#define PULSE_HIGH_MS 150`. -/
def PULSE_HIGH_MS : Nat := 150

/-- `#define PULSE_LOW_MS 150`. -/
def PULSE_LOW_MS : Nat := 150

/-- `#define PIN_INTERVAL_MS 500`. -/
def PIN_INTERVAL_MS : Nat := 500

/-- `#define ROUNDS 1`. -/
def ROUNDS : Nat := 1

/-- `static void enrollPinsPrepOutputLow()`. -/
def enrollPinsPrepOutputLow : List PinEvent :=
  [ PinEvent.pinMode ENROLL_PIN_38 PinDirection.OUTPUT,
    PinEvent.pinMode ENROLL_PIN_39 PinDirection.OUTPUT,
    PinEvent.pinMode ENROLL_PIN_40 PinDirection.OUTPUT,
    PinEvent.pinMode ENROLL_PIN_41 PinDirection.OUTPUT,
    PinEvent.pinMode ENROLL_PIN_42 PinDirection.OUTPUT,
    PinEvent.pinMode ENROLL_PIN_43 PinDirection.OUTPUT,
    PinEvent.digitalWrite ENROLL_PIN_38 PinLevel.LOW,
    PinEvent.digitalWrite ENROLL_PIN_39 PinLevel.LOW,
    PinEvent.digitalWrite ENROLL_PIN_40 PinLevel.LOW,
    PinEvent.digitalWrite ENROLL_PIN_41 PinLevel.LOW,
    PinEvent.digitalWrite ENROLL_PIN_42 PinLevel.LOW,
    PinEvent.digitalWrite ENROLL_PIN_43 PinLevel.LOW ]

/-- `static void enrollPinsReleaseInput()`. -/
def enrollPinsReleaseInput : List PinEvent :=
  [ PinEvent.pinMode ENROLL_PIN_38 PinDirection.INPUT,
    PinEvent.pinMode ENROLL_PIN_39 PinDirection.INPUT,
    PinEvent.pinMode ENROLL_PIN_40 PinDirection.INPUT,
    PinEvent.pinMode ENROLL_PIN_41 PinDirection.INPUT,
    PinEvent.pinMode ENROLL_PIN_42 PinDirection.INPUT,
    PinEvent.pinMode ENROLL_PIN_43 PinDirection.INPUT ]

/-- The loop `for (i = 0; i < unoId; i++)` of `sendPulsesToPin` with `n`
iterations left. -/
def sendPulsesLoop (pin : Nat) : Nat → List PinEvent
  | 0 => []
  | n + 1 =>
    [ PinEvent.digitalWrite pin PinLevel.HIGH, PinEvent.delay PULSE_HIGH_MS,
      PinEvent.digitalWrite pin PinLevel.LOW, PinEvent.delay PULSE_LOW_MS ]
      ++ sendPulsesLoop pin n

/-- `static void sendPulsesToPin(uint8_t pin, uint8_t unoId)`. -/
def sendPulsesToPin (pin unoId : Nat) : List PinEvent :=
  sendPulsesLoop pin unoId

/-- The loop `for (pin = ENROLL_PIN_38; pin <= ENROLL_PIN_43; pin++)` from the
line `pin` on, with at most `n` iterations left: `unoId = pin - ENROLL_PIN_38 + 1`
as a `uint8_t`, the pulses, and the pause between lines after every line but
the last. -/
def enrollPinsLoop : Nat → Nat → List PinEvent
  | 0, _ => []
  | n + 1, pin =>
    if pin ≤ ENROLL_PIN_43 then
      sendPulsesToPin pin ((pin - ENROLL_PIN_38 + 1) % 256)
        ++ (if pin < ENROLL_PIN_43 then [PinEvent.delay PIN_INTERVAL_MS] else [])
        ++ enrollPinsLoop n (pin + 1)
    else []

/-- The loop `for (round = 0; round < ROUNDS; round++)` from the round `round`
on, with at most `n` iterations left. -/
def enrollRoundsLoop : Nat → Nat → List PinEvent
  | 0, _ => []
  | n + 1, round =>
    if round < ROUNDS then
      enrollPinsLoop (ENROLL_PIN_43 + 1 - ENROLL_PIN_38) ENROLL_PIN_38
        ++ (if round < ROUNDS - 1 then [PinEvent.delay 200] else [])
        ++ enrollRoundsLoop n (round + 1)
    else []

/-- `void assignUnoIdsByPulses()`. -/
def assignUnoIdsByPulses : List PinEvent :=
  enrollPinsPrepOutputLow ++ [PinEvent.delay 100] ++ enrollRoundsLoop ROUNDS 0
    ++ enrollPinsReleaseInput

/-- One pulse on a line as the specification words it: HIGH for 150 ms, then
LOW for 150 ms. -/
def pulseOn (pin : Nat) : List PinEvent :=
  [ PinEvent.digitalWrite pin PinLevel.HIGH, PinEvent.delay 150,
    PinEvent.digitalWrite pin PinLevel.LOW, PinEvent.delay 150 ]

/-- The specification's `k` pulses on the line D(37+k). -/
def pulseTrain (k : Nat) : List PinEvent :=
  (List.replicate k (pulseOn (37 + k))).flatten

/-- The line an event acts on, if any. -/
def PinEvent.line : PinEvent → Option Nat
  | PinEvent.pinMode pin _ => some pin
  | PinEvent.digitalWrite pin _ => some pin
  | PinEvent.delay _ => none

/-- The number of rising writes (`digitalWrite(pin, HIGH)`) in a trace. -/
def countPulses (trace : List PinEvent) : Nat :=
  trace.countP (fun e => match e with
    | PinEvent.digitalWrite _ PinLevel.HIGH => true
    | _ => false)

/-! ## Reading registers as a Modbus master (modbusHandler.cpp, lines 574-638) -/

/-- The receive loop of `sendModbusRequest` (lines 575-595): `incoming` holds
the bytes that arrive within the timeout, `response` the bytes stored so far
(`responseLen` is its length) and `expectedLen` the local of that name. The
loop ends when the announced length is reached, at 250 bytes, or when nothing
more arrives. -/
def receiveResponse : List Nat → List Nat → Nat → List Nat
  | [], response, _ => response
  | byte :: rest, response, expectedLen =>
    let response1 := response ++ [byte]
    let responseLen := response1.length
    let expectedLen1 :=
      if responseLen = 3 then (response1.getD 2 0 + 5) % 256 else expectedLen
    if expectedLen1 ≠ 0 ∧ responseLen ≥ expectedLen1 then response1
    else if responseLen ≥ 250 then response1
    else receiveResponse rest response1 expectedLen1

/-- `bool sendModbusRequest(slaveAddr, functionCode, startReg, regCount,
response, responseLen, timeout)`: the request written, the returned flag, and
the bytes `response[0 .. responseLen-1]`. -/
def sendModbusRequest (slaveAddr functionCode startReg regCount : Nat) (incoming : List Nat) :
    List Nat × Bool × List Nat :=
  let response := receiveResponse incoming [] 0
  (sendModbusRequestFrame slaveAddr functionCode startReg regCount,
   sendModbusRequestCheck response response.length, response)

/-- `bool readModbusRegisters(slaveAddr, startAddr, count, data)`: the returned
flag and `data` afterwards. `stale` is what the local array `response[50]`
holds before the call; the elements from `respLen` on keep that content. The
loop `for (i = 0; i < count && i < 10; i++) data[i] = (response[3 + i * 2] << 8)
| response[4 + i * 2];` is the loop of `copyRegisters`. -/
def readModbusRegisters (slaveAddr startAddr count : Nat) (data stale incoming : List Nat) :
    Bool × List Nat :=
  let r := sendModbusRequest slaveAddr 0x03 startAddr count incoming
  if r.2.1 then
    let respLen := r.2.2.length
    let response := r.2.2 ++ stale.drop respLen
    if respLen < 5 then (false, data)
    else if response.getD 0 0 ≠ slaveAddr then (false, data)
    else if response.getD 1 0 &&& 0x80 ≠ 0 then (false, data)
    else (true, copyRegisters data response count)
  else (false, data)

/-- The answer `01 03 02 12 34 crc` of slave 1: one register, 0x1234. -/
def oneRegisterAnswer : List Nat :=
  pushFrameBytes 1 0x03 [0x12, 0x34]

/-! ## Array accesses of the push-frame ingester (modbusHandler.cpp, lines
728-749 and 851-1071) -/

/-- One array subscript evaluated by `pollUnoPushFrames` or by the
`addDiscoveredSensor` it calls: a read of `buf[index]` while `len` bytes are
buffered, a write of `buf[index]`, a subscript `registers[k]`, a subscript
`modbusSensors[idx]` while `modbusSlaveCount` is `count`, and the subscript
`modbusSensors[modbusSlaveCount]` of the slot that `addDiscoveredSensor` fills
before it increments the count. -/
inductive Access where
  | bufRead (index len : Nat)
  | bufWrite (index : Nat)
  | regsIndex (k : Nat)
  | registryIndex (idx count : Nat)
  | newSlot (idx : Nat)
  deriving DecidableEq

/-- The subscript stays inside: a read of `buf` below the buffered length, a
write of `buf` below `sizeof(buf) = 256`, `registers[k]` below 10,
`modbusSensors[idx]` below `modbusSlaveCount`, itself at most 10, and the new
slot below `MAX_MODBUS_SLAVES = 10`. -/
def Access.inBounds : Access → Bool
  | Access.bufRead index len => decide (index < len)
  | Access.bufWrite index => decide (index < 256)
  | Access.regsIndex k => decide (k < 10)
  | Access.registryIndex idx count => decide (idx < count ∧ count ≤ 10)
  | Access.newSlot idx => decide (idx < 10)

/-- The reads of `calcCRC16(buf, n)` on a buffer of `len` bytes: `buf[0]` to
`buf[n-1]`. -/
def calcCRC16Accesses (len n : Nat) : List Access :=
  (List.range n).map (fun i => Access.bufRead i len)

/-- The subscripts of the loop `for (i = 0; i < modbusSlaveCount; i++)
if (modbusSensors[i].slaveId == id)`: every index up to the first match, or
every index below the count. -/
def findSlaveAccesses (r : Registry) (id : Nat) : List Access :=
  match findSlave r id with
  | some i => (List.range (i + 1)).map (fun j => Access.registryIndex j r.modbusSlaveCount)
  | none =>
    (List.range r.modbusSlaveCount).map (fun j => Access.registryIndex j r.modbusSlaveCount)

/-- The subscripts of `addDiscoveredSensor` (lines 730-748). -/
def addDiscoveredSensorAccesses (r : Registry) (combinedId : Nat) : List Access :=
  if r.modbusSlaveCount ≥ MAX_MODBUS_SLAVES then []
  else
    findSlaveAccesses r combinedId
      ++ (if (findSlave r combinedId).isSome then [] else [Access.newSlot r.modbusSlaveCount])

/-- The subscripts of the loop `for (k = 0; k < regCount && k < 10; k++)
modbusSensors[idx].registers[k] = (buf[3 + k * 2] << 8) | buf[4 + k * 2];`
(lines 941-943). -/
def copyRegistersAccesses (len idx count regCount : Nat) : List Access :=
  ((List.range (min regCount 10)).map (fun k =>
    [Access.bufRead (3 + k * 2) len, Access.bufRead (4 + k * 2) len,
     Access.registryIndex idx count, Access.regsIndex k])).flatten

/-- The reads of the loop `for (i = 0; i < frameLen && i < 20; i++)` that
prints `buf[i]` (lines 961-966 and 1050-1055). -/
def rawDumpAccesses (len frameLen : Nat) : List Access :=
  (List.range (min frameLen 20)).map (fun i => Access.bufRead i len)

/-- The elements of `registers` printed by the `switch (t)` of lines 970-1034. -/
def printedRegisters (t regCount : Nat) : List Nat :=
  if t = MODBUS_SHT20 then (if regCount ≥ 2 then [0, 1] else [])
  else if t = MODBUS_SCD41 then (if regCount ≥ 1 then [0] else [])
  else if t = MODBUS_TSL2591 ∨ t = MODBUS_BH1750 then (if regCount ≥ 1 then [0] else [])
  else if t = MODBUS_ADS1115 then (if regCount ≥ 3 then [0, 1, 2] else [])
  else if t = MODBUS_DS18B20 then (if regCount ≥ 1 then [0] else [])
  else if t = MODBUS_SOIL_SENSOR then
    (if regCount ≥ 4 then [0, 1, 2, 3] else [0] ++ (if regCount ≥ 2 then [1] else []))
  else [0] ++ (if regCount ≥ 2 then [1] else [])

/-- The subscripts of the branch `if (fc == 0x03)` (lines 894-1036), along
`pushFrame`: the lookup, the registration, the copy of the registers, the two
stamps, the dump of the frame and the values printed. -/
def pushFrameAccesses (r : Registry) (buf : List Nat) (byteCount now : Nat) : List Access :=
  let addr := buf.getD 0 0
  let typeCode := (splitCombinedId addr).1
  let t := (pushTypeOf typeCode).1
  let name := (pushTypeOf typeCode).2
  let found := findSlave r addr
  let r1 :=
    if found = none ∧ r.modbusSlaveCount < MAX_MODBUS_SLAVES then
      addDiscoveredSensor r addr t name now
    else r
  let idx : Option Nat :=
    match found with
    | some i => some i
    | none => if r.modbusSlaveCount < MAX_MODBUS_SLAVES then some (r1.modbusSlaveCount - 1) else none
  findSlaveAccesses r addr
    ++ (if found = none ∧ r.modbusSlaveCount < MAX_MODBUS_SLAVES then
          addDiscoveredSensorAccesses r addr
        else [])
    ++ (match idx with
        | none => []
        | some i =>
          copyRegistersAccesses buf.length i r1.modbusSlaveCount ((byteCount / 2) % 256)
            ++ [Access.registryIndex i r1.modbusSlaveCount,
                Access.registryIndex i r1.modbusSlaveCount]
            ++ rawDumpAccesses buf.length (byteCount + 5)
            ++ ((printedRegisters t ((byteCount / 2) % 256)).map (fun k =>
                  [Access.registryIndex i r1.modbusSlaveCount, Access.regsIndex k])).flatten)

/-- The subscripts of the loop `while (len >= 3)` (lines 878-1065), along
`processFrames`: `buf[2]`, the two CRC bytes, the bytes under the CRC, then
either `buf[0]`, `buf[1]` and the branch of function code 3, or `buf[0]` and
the dump of the frame that failed the CRC, and the `memmove` of the bytes that
remain. -/
def processFramesAccesses : Nat → PushIngester → Nat → List Access
  | 0, _, _ => []
  | fuel + 1, s, now =>
    if s.buf.length ≥ 3 then
      let len := s.buf.length
      let byteCount := s.buf.getD 2 0
      let frameLen := byteCount + 5
      if len < frameLen then [Access.bufRead 2 len]
      else
        let rxCrc := ((s.buf.getD (frameLen - 1) 0 <<< 8) ||| s.buf.getD (frameLen - 2) 0) % 65536
        let calcCrc := calcCRC16 s.buf ((frameLen - 2) % 256)
        let reg1 :=
          if rxCrc = calcCrc ∧ frameLen ≥ 5 then
            if s.buf.getD 1 0 = 0x03 then pushFrame s.reg s.buf byteCount now else s.reg
          else s.reg
        let frameLen2 := if frameLen > len then len else frameLen
        let remain := (len - frameLen2) % 256
        [Access.bufRead 2 len, Access.bufRead (frameLen - 1) len, Access.bufRead (frameLen - 2) len]
          ++ calcCRC16Accesses len ((frameLen - 2) % 256)
          ++ (if rxCrc = calcCrc ∧ frameLen ≥ 5 then
                [Access.bufRead 0 len, Access.bufRead 1 len]
                  ++ (if s.buf.getD 1 0 = 0x03 then pushFrameAccesses s.reg s.buf byteCount now
                      else [])
              else Access.bufRead 0 len :: rawDumpAccesses len frameLen)
          ++ ((List.range remain).map (fun j =>
                [Access.bufRead (frameLen2 + j) len, Access.bufWrite j])).flatten
          ++ processFramesAccesses fuel
               { s with reg := reg1, buf := (s.buf.drop frameLen2).take remain } now
    else []

/-- The subscripts of one iteration of the intake loop, along `pushByte`:
the write `buf[len++] = byte`, then the loop over the complete frames. -/
def pushByteAccesses (s : PushIngester) (byte now : Nat) : List Access :=
  if s.buf.length < 256 then
    let len1 := (s.buf.length + 1) % 256
    let s1 : PushIngester := { s with buf := (s.buf ++ [byte]).take len1, lastByte := now }
    Access.bufWrite s.buf.length :: processFramesAccesses s1.buf.length s1 now
  else []

/-- The subscripts of one call of `pollUnoPushFrames` on the bytes `input`,
in program order. -/
def pollUnoPushFramesAccesses : PushIngester → List Nat → Nat → List Access
  | _, [], _ => []
  | s, byte :: rest, now =>
    pushByteAccesses s byte now ++ pollUnoPushFramesAccesses (pushByte s byte now) rest now

/-! ## Instances used by the properties of the sessions and of the ingester -/

/-- The control bus after `setup()` while `UNO_CONTROL` holds the arbiter
since 100 ms. -/
def busHeldByControl : ControlBus :=
  { controlBusReady with
    arbiter := { serial3Owner := SERIAL3_UNO_CONTROL, serial3LastUsed := 100,
                 serial3CooldownTime := 5 } }

/-- The characters of the text `\x7b"cmd":"STOP"\x7d`. -/
def stopJson : List Nat :=
  [0x7B, 0x22, 0x63, 0x6D, 0x64, 0x22, 0x3A, 0x22, 0x53, 0x54, 0x4F, 0x50, 0x22, 0x7D]

/-- A sensor session waiting since 100 ms on the bus it holds, with the single
byte `ACK_ERROR` in the receive buffer. -/
def sensorSessionOneErrorByte : SensorSession :=
  { arbiter := { serial3Owner := SERIAL3_UNO_SENSOR, serial3LastUsed := 100,
                 serial3CooldownTime := 5 }
    unoRequestState := UNO_WAITING
    unoRequestStartTime := 100
    rx := [0x81]
    unoSensorData := { ph_int := 0, ec_int := 0, temp_int := 0, isValid := false } }

/-- A status session waiting since 100 ms on the bus it holds, with the single
byte `ACK_ERROR` in the receive buffer. -/
def statusSessionOneErrorByte : ControlBus :=
  { (startUnoStatusRequest controlBusReady (StartClock.const 100)) with rx := [0x81] }

/-- A sensor session in flight whose receive buffer holds eight bytes that
start with `ACK_ERROR`. -/
def sensorSessionErrorFrame : SensorSession :=
  { sensorSessionOneErrorByte with rx := [0x81, 0x00, 0x00, 0x00, 0x00, 0x00, 0x00, 0x00] }

/-- A status session in flight whose receive buffer holds three bytes that
start with `ACK_ERROR`. -/
def statusSessionErrorFrame : ControlBus :=
  { statusSessionOneErrorByte with rx := [0x81, 0x00, 0x00] }

/-- The push frame `16 03 04 00 05 00 06 crc` from the combined address 22. -/
def scd41Frame : List Nat :=
  pushFrameBytes 22 0x03 [0x00, 0x05, 0x00, 0x06]

/-- The ingester after the first two bytes of `scd41Frame` were taken in at
0 ms by a call that ended at 0 ms. -/
def ingesterWithTwoBytes : PushIngester :=
  pollUnoPushFrames ingesterEmpty [22, 0x03] 0 0

/-- A status session that started at 50 ms holding the bus as `UNO_SENSOR`,
lost it at 100 ms to a request of `UNO_CONTROL`, and whose answer `83 00 02`
with the two JSON characters has arrived since. -/
def preemptedStatusBus : ControlBus :=
  { (startUnoStatusRequest controlBusReady (StartClock.const 50)) with
    arbiter :=
      (requestSerial3Access
        (startUnoStatusRequest controlBusReady (StartClock.const 50)).arbiter
        SERIAL3_UNO_CONTROL 100).2
    rx := [0x83, 0x00, 0x02, 0x7B, 0x7D] }

/-! ## Registries the code can produce -/

/-- Claim C1. makeCombinedId and splitCombinedId are mutually inverse: for
every typeCode in 0..31 and every unoId in 0..7, splitting the combined byte
gives back exactly (typeCode, unoId); and for every byte b in 0..255, combining
the pair obtained by splitting b gives back b. -/
theorem combinedId_roundtrip :
    (∀ typeCode unoId : Nat, typeCode ≤ 31 → unoId ≤ 7 →
      splitCombinedId (makeCombinedId typeCode unoId) = (typeCode, unoId)) ∧
    (∀ b : Nat, b ≤ 255 →
      makeCombinedId (splitCombinedId b).1 (splitCombinedId b).2 = b) := by
  constructor
  · intro typeCode unoId ht hu
    have h : ∀ t < 32, ∀ u < 8, splitCombinedId (makeCombinedId t u) = (t, u) := by decide
    exact h typeCode (by omega) unoId (by omega)
  · intro b hb
    have h : ∀ b < 256, makeCombinedId (splitCombinedId b).1 (splitCombinedId b).2 = b := by
      decide
    exact h b (by omega)

/-- Instance of the round trip at type code 19, instance 5 and at byte 0xB3. -/
theorem combinedId_roundtrip_witness :
    splitCombinedId (makeCombinedId 19 5) = (19, 5) ∧
    makeCombinedId (splitCombinedId 0xB3).1 (splitCombinedId 0xB3).2 = 0xB3 :=
  ⟨combinedId_roundtrip.1 19 5 (by decide) (by decide),
   combinedId_roundtrip.2 0xB3 (by decide)⟩

/-! ## Lemmas on the shift register -/

theorem crcShift_eq (c : Nat) :
    crcShift c = if c % 2 = 1 then (c / 2) ^^^ 0xA001 else c / 2 := by
  unfold crcShift
  rw [Nat.and_one_is_mod, Nat.shiftRight_one]
  rcases Nat.mod_two_eq_zero_or_one c with h | h <;> simp [h]

theorem crcShift_xor (t b : Nat) :
    crcShift (t ^^^ b) = crcBitStep 0xA001 t (b % 2 == 1) ^^^ (b / 2) := by
  rw [crcShift_eq, Nat.xor_div_two, Nat.xor_mod_two_eq]
  unfold crcBitStep
  have hx : ∀ x y z : Nat, x ^^^ y ^^^ z = x ^^^ z ^^^ y := by
    intro x y z
    rw [Nat.xor_assoc, Nat.xor_comm y z, ← Nat.xor_assoc]
  rcases Nat.mod_two_eq_zero_or_one t with ht | ht <;>
    rcases Nat.mod_two_eq_zero_or_one b with hb | hb <;>
    have hs : (t + b) % 2 = (t % 2 + b % 2) % 2 := by omega
  all_goals simp [hs, ht, hb, hx]

theorem crcShiftLoop_xor (k : Nat) : ∀ t b : Nat,
    crcShiftLoop k (t ^^^ b) = ((bitsLsbFirst k b).foldl (crcBitStep 0xA001) t) ^^^ (b / 2 ^ k) := by
  induction k with
  | zero => intro t b; simp [crcShiftLoop, bitsLsbFirst]
  | succ k ih =>
    intro t b
    simp only [crcShiftLoop, bitsLsbFirst, List.foldl_cons]
    rw [crcShift_xor, ih, Nat.div_div_eq_div_mul, Nat.pow_succ, Nat.mul_comm]

theorem crcByte_eq_bits (t b : Nat) (hb : b < 256) :
    crcByte t b = (bitsLsbFirst 8 b).foldl (crcBitStep 0xA001) t := by
  unfold crcByte
  rw [crcShiftLoop_xor]
  have : b / 2 ^ 8 = 0 := by
    apply Nat.div_eq_of_lt
    simpa using hb
  rw [this, Nat.xor_zero]

theorem foldl_crcByte_eq_bits (buf : List Nat) : ∀ t : Nat, (∀ b ∈ buf, b < 256) →
    buf.foldl crcByte t = (buf.map (bitsLsbFirst 8)).flatten.foldl (crcBitStep 0xA001) t := by
  induction buf with
  | nil => intro t _; rfl
  | cons a buf ih =>
    intro t h
    simp only [List.foldl_cons, List.map_cons, List.flatten_cons, List.foldl_append]
    rw [crcByte_eq_bits t a (h a (List.mem_cons_self a buf))]
    exact ih _ (fun b hb => h b (List.mem_cons_of_mem a hb))

/-- Claim C2. For every byte buffer of length 0..255, calcCRC16 returns the
CRC-16/MODBUS checksum of the buffer (bit-reflected, polynomial 0xA001, initial
value 0xFFFF, least significant bit first, no final XOR); the empty buffer
gives 0xFFFF and the ASCII bytes of "123456789" give 0x4B37. -/
theorem calcCRC16_is_crc16Modbus :
    (∀ buf : List Nat, buf.length ≤ 255 → (∀ b ∈ buf, b < 256) →
        calcCRC16 buf buf.length = crc16Modbus buf) ∧
    calcCRC16 [] 0 = 0xFFFF ∧
    calcCRC16 [0x31, 0x32, 0x33, 0x34, 0x35, 0x36, 0x37, 0x38, 0x39] 9 = 0x4B37 := by
  refine ⟨?_, by decide, by decide⟩
  intro buf _ hb
  unfold calcCRC16 crc16Modbus crcReflected
  rw [List.take_length, foldl_crcByte_eq_bits buf _ hb, Nat.xor_zero]

/-- Instance: the nine ASCII bytes of "123456789". -/
theorem calcCRC16_is_crc16Modbus_witness :
    calcCRC16 [0x31, 0x32, 0x33, 0x34, 0x35, 0x36, 0x37, 0x38, 0x39] 9
      = crc16Modbus [0x31, 0x32, 0x33, 0x34, 0x35, 0x36, 0x37, 0x38, 0x39] :=
  calcCRC16_is_crc16Modbus.1 [0x31, 0x32, 0x33, 0x34, 0x35, 0x36, 0x37, 0x38, 0x39]
    (by decide) (by decide)

theorem crcShift_lt (c : Nat) (h : c < 65536) : crcShift c < 65536 := by
  rw [crcShift_eq]
  have h2 : c / 2 < 2 ^ 16 := by omega
  split
  · exact Nat.xor_lt_two_pow h2 (by decide)
  · omega

theorem crcShiftLoop_lt (n : Nat) : ∀ c : Nat, c < 65536 → crcShiftLoop n c < 65536 := by
  induction n with
  | zero => intro c h; exact h
  | succ n ih => intro c h; exact ih _ (crcShift_lt c h)

theorem xor_byte_lt (c b : Nat) (hc : c < 65536) (hb : b < 256) : c ^^^ b < 65536 := by
  have h1 : c < 2 ^ 16 := by omega
  have h2 : b < 2 ^ 16 := by omega
  exact Nat.xor_lt_two_pow h1 h2

theorem crcByte_lt (c b : Nat) (hc : c < 65536) (hb : b < 256) : crcByte c b < 65536 :=
  crcShiftLoop_lt 8 _ (xor_byte_lt c b hc hb)

theorem foldl_crcByte_lt (buf : List Nat) : ∀ c : Nat, c < 65536 → (∀ b ∈ buf, b < 256) →
    buf.foldl crcByte c < 65536 := by
  induction buf with
  | nil => intro c hc _; exact hc
  | cons a buf ih =>
    intro c hc h
    exact ih _ (crcByte_lt c a hc (h a (List.mem_cons_self a buf)))
      (fun b hb => h b (List.mem_cons_of_mem a hb))

theorem calcCRC16_lt (buf : List Nat) (len : Nat) (h : ∀ b ∈ buf, b < 256) :
    calcCRC16 buf len < 65536 :=
  foldl_crcByte_lt _ _ (by decide) (fun b hb => h b (List.mem_of_mem_take hb))

/-- With the top bit of the polynomial set, the bit shifted out can be read
back from bit 15 of the result. -/
theorem xor_poly_ge (q : Nat) (hq : q < 32768) : 32768 ≤ q ^^^ 0xA001 := by
  have hbit : (q ^^^ 0xA001).testBit 15 = true := by
    rw [Nat.testBit_xor, Nat.testBit_lt_two_pow (by simpa using hq)]
    decide
  have := Nat.testBit_implies_ge hbit
  simpa using this

theorem crcShift_injective (a b : Nat) (ha : a < 65536) (hb : b < 65536)
    (h : crcShift a = crcShift b) : a = b := by
  rw [crcShift_eq, crcShift_eq] at h
  have hqa : a / 2 < 32768 := by omega
  have hqb : b / 2 < 32768 := by omega
  have ga := xor_poly_ge (a / 2) hqa
  have gb := xor_poly_ge (b / 2) hqb
  rcases Nat.mod_two_eq_zero_or_one a with pa | pa <;>
    rcases Nat.mod_two_eq_zero_or_one b with pb | pb <;>
    simp only [pa, pb, if_true, if_false, Nat.zero_ne_one] at h
  · omega
  · omega
  · omega
  · have := Nat.xor_left_inj.mp h
    omega

theorem crcShiftLoop_injective (n : Nat) : ∀ a b : Nat, a < 65536 → b < 65536 →
    crcShiftLoop n a = crcShiftLoop n b → a = b := by
  induction n with
  | zero => intro a b _ _ h; exact h
  | succ n ih =>
    intro a b ha hb h
    exact crcShift_injective a b ha hb (ih _ _ (crcShift_lt a ha) (crcShift_lt b hb) h)

theorem crcByte_injective_left (a b x : Nat) (ha : a < 65536) (hb : b < 65536) (hx : x < 256)
    (h : crcByte a x = crcByte b x) : a = b :=
  Nat.xor_left_inj.mp
    (crcShiftLoop_injective 8 _ _ (xor_byte_lt a x ha hx) (xor_byte_lt b x hb hx) h)

theorem crcByte_injective_right (c x y : Nat) (hc : c < 65536) (hx : x < 256) (hy : y < 256)
    (h : crcByte c x = crcByte c y) : x = y :=
  Nat.xor_right_inj.mp
    (crcShiftLoop_injective 8 _ _ (xor_byte_lt c x hc hx) (xor_byte_lt c y hc hy) h)

theorem foldl_crcByte_injective (buf : List Nat) : ∀ a b : Nat, a < 65536 → b < 65536 →
    (∀ x ∈ buf, x < 256) → buf.foldl crcByte a = buf.foldl crcByte b → a = b := by
  induction buf with
  | nil => intro a b _ _ _ h; exact h
  | cons x buf ih =>
    intro a b ha hb hbuf h
    have hx := hbuf x (List.mem_cons_self x buf)
    have hrest : ∀ y ∈ buf, y < 256 := fun y hy => hbuf y (List.mem_cons_of_mem x hy)
    exact crcByte_injective_left a b x ha hb hx
      (ih _ _ (crcByte_lt a x ha hx) (crcByte_lt b x hb hx) hrest h)

/-- Replacing one byte of the buffer by a different byte changes the register. -/
theorem foldl_crcByte_set_ne (buf : List Nat) : ∀ (c i y : Nat), c < 65536 →
    (∀ x ∈ buf, x < 256) → i < buf.length → y < 256 → y ≠ buf.getD i 0 →
    (buf.set i y).foldl crcByte c ≠ buf.foldl crcByte c := by
  induction buf with
  | nil => intro c i y _ _ hi; simp at hi
  | cons x buf ih =>
    intro c i y hc hbuf hi hy hne
    have hx := hbuf x (List.mem_cons_self x buf)
    have hrest : ∀ z ∈ buf, z < 256 := fun z hz => hbuf z (List.mem_cons_of_mem x hz)
    cases i with
    | zero =>
      simp only [List.set_cons_zero, List.foldl_cons]
      intro h
      have h1 := foldl_crcByte_injective buf _ _ (crcByte_lt c y hc hy) (crcByte_lt c x hc hx) hrest h
      exact hne (crcByte_injective_right c y x hc hy hx h1)
    | succ i =>
      simp only [List.set_cons_succ, List.foldl_cons]
      apply ih _ i y (crcByte_lt c x hc hx) hrest (by simpa using hi) hy
      simpa using hne

theorem flip_bit_ne (x k : Nat) : x ^^^ (1 <<< k) ≠ x := by
  intro h
  have h0 : x ^^^ (1 <<< k) = x ^^^ 0 := by rw [Nat.xor_zero]; exact h
  have := Nat.xor_right_inj.mp h0
  have hp : 0 < 2 ^ k := Nat.pos_pow_of_pos k (by decide)
  rw [Nat.one_shiftLeft] at this
  omega

theorem flip_bit_lt (x k : Nat) (hx : x < 256) (hk : k < 8) : x ^^^ (1 <<< k) < 256 := by
  have h1 : x < 2 ^ 8 := by omega
  have h2 : 1 <<< k < 2 ^ 8 := by
    rw [Nat.one_shiftLeft]
    exact Nat.pow_lt_pow_right (by decide) hk
  exact Nat.xor_lt_two_pow h1 h2

theorem word_of_bytes (c : Nat) (hc : c < 65536) :
    ((highByte c <<< 8) ||| lowByte c) % 65536 = c := by
  have hlo : lowByte c = c % 256 := by
    unfold lowByte
    have := Nat.and_pow_two_sub_one_eq_mod c 8
    simp only [Nat.reducePow, Nat.add_one_sub_one] at this
    rw [this]
    omega
  have hhi : highByte c = c / 256 := by
    unfold highByte
    rw [Nat.shiftRight_eq_div_pow]
    omega
  have hor : 2 ^ 8 * (c / 256) + c % 256 = 2 ^ 8 * (c / 256) ||| c % 256 :=
    Nat.mul_add_lt_is_or (by omega) _
  rw [hlo, hhi, Nat.shiftLeft_eq, Nat.mul_comm, ← hor]
  omega

theorem check_append_crc (body : List Nat) (crc : Nat) (hlen : body.length ≤ 253)
    (h5 : 5 ≤ body.length + 2) (hc : crc < 65536) :
    sendModbusRequestCheck (body ++ [lowByte crc, highByte crc]) (body.length + 2)
      = (crc == calcCRC16 body body.length) := by
  unfold sendModbusRequestCheck
  have h1 : ¬ body.length + 2 < 5 := by omega
  have e1 : (body ++ [lowByte crc, highByte crc]).getD (body.length + 2 - 1) 0 = highByte crc := by
    rw [List.getD_append_right _ _ _ _ (by omega)]
    have : body.length + 2 - 1 - body.length = 1 := by omega
    rw [this]; rfl
  have e2 : (body ++ [lowByte crc, highByte crc]).getD (body.length + 2 - 2) 0 = lowByte crc := by
    rw [List.getD_append_right _ _ _ _ (by omega)]
    have : body.length + 2 - 2 - body.length = 0 := by omega
    rw [this]; rfl
  have e3 : (body.length + 2 - 2) % 256 = body.length := by omega
  have e4 : calcCRC16 (body ++ [lowByte crc, highByte crc]) body.length
      = calcCRC16 body body.length := by
    unfold calcCRC16
    rw [List.take_left, List.take_length]
  simp only [h1, if_false, e1, e2, e3, e4, word_of_bytes crc hc]

/-- Claim C3. Single-bit error detection: for a non-empty byte sequence d of
length at most 253 and the sequence obtained from d by flipping bit k of byte
i, calcCRC16 differs from calcCRC16 of d; hence the flipped sequence followed
by the two CRC bytes of d (low byte first) fails the receive-side CRC check. -/
theorem calcCRC16_detects_single_bit_flip (d : List Nat) (i k : Nat)
    (hlen : d.length ≤ 253) (hbytes : ∀ b ∈ d, b < 256) (hi : i < d.length) (hk : k < 8) :
    calcCRC16 (d.set i (d.getD i 0 ^^^ (1 <<< k))) d.length ≠ calcCRC16 d d.length ∧
    sendModbusRequestCheck
      (d.set i (d.getD i 0 ^^^ (1 <<< k))
        ++ [lowByte (calcCRC16 d d.length), highByte (calcCRC16 d d.length)])
      (d.length + 2) = false := by
  have hx : d.getD i 0 < 256 := by
    rw [List.getD_eq_getElem _ _ hi]
    exact hbytes _ (List.getElem_mem hi)
  have hne : calcCRC16 (d.set i (d.getD i 0 ^^^ (1 <<< k))) d.length ≠ calcCRC16 d d.length := by
    unfold calcCRC16
    have hl : (d.set i (d.getD i 0 ^^^ (1 <<< k))).length = d.length := List.length_set _ _ _
    rw [List.take_length]
    nth_rewrite 1 [← hl]
    rw [List.take_length]
    exact foldl_crcByte_set_ne d _ i _ (by decide) hbytes hi
      (flip_bit_lt _ k hx hk) (flip_bit_ne _ k)
  refine ⟨hne, ?_⟩
  by_cases h5 : 5 ≤ d.length + 2
  · have hl : (d.set i (d.getD i 0 ^^^ (1 <<< k))).length = d.length := List.length_set _ _ _
    have := check_append_crc (d.set i (d.getD i 0 ^^^ (1 <<< k))) (calcCRC16 d d.length)
      (by omega) (by omega) (calcCRC16_lt d _ hbytes)
    rw [hl] at this
    rw [this]
    simp only [beq_eq_false_iff_ne, ne_eq]
    exact fun h => hne h.symm
  · unfold sendModbusRequestCheck
    simp only [show d.length + 2 < 5 by omega, if_true]

/-- Instance: bit 4 of byte 3 of the header 01 03 00 00 00 02 is flipped. -/
theorem calcCRC16_detects_single_bit_flip_witness :
    calcCRC16 [1, 3, 0, 16, 0, 2] 6 ≠ calcCRC16 [1, 3, 0, 0, 0, 2] 6 ∧
    sendModbusRequestCheck [1, 3, 0, 16, 0, 2, 0xC4, 0x0B] 8 = false :=
  calcCRC16_detects_single_bit_flip [1, 3, 0, 0, 0, 2] 3 4 (by decide) (by decide) (by decide)
    (by decide)

/-- Claim C4. For every slave address, start register and register count, the
read request built with function code 0x03 is exactly the eight bytes
address, 0x03, startReg high, startReg low, count high, count low, crc low,
crc high, with crc the calcCRC16 of the first six; and this frame passes the
receive-side CRC check. -/
theorem sendModbusRequestFrame_read (slaveAddr startReg regCount : Nat)
    (ha : slaveAddr < 256) (hs : startReg < 65536) (hc : regCount < 65536) :
    sendModbusRequestFrame slaveAddr 0x03 startReg regCount =
      [slaveAddr, 0x03, startReg / 256, startReg % 256, regCount / 256, regCount % 256,
       calcCRC16 [slaveAddr, 0x03, startReg / 256, startReg % 256,
                  regCount / 256, regCount % 256] 6 % 256,
       calcCRC16 [slaveAddr, 0x03, startReg / 256, startReg % 256,
                  regCount / 256, regCount % 256] 6 / 256] ∧
    sendModbusRequestCheck (sendModbusRequestFrame slaveAddr 0x03 startReg regCount) 8 = true := by
  have hlo : ∀ w : Nat, lowByte w = w % 256 := by
    intro w
    unfold lowByte
    have := Nat.and_pow_two_sub_one_eq_mod w 8
    simp only [Nat.reducePow, Nat.add_one_sub_one] at this
    rw [this]
    omega
  have hhi : ∀ w : Nat, w < 65536 → highByte w = w / 256 := by
    intro w hw
    unfold highByte
    rw [Nat.shiftRight_eq_div_pow]
    omega
  have hbytes : ∀ b ∈ requestHeader slaveAddr 0x03 startReg regCount, b < 256 := by
    intro b hb
    simp only [requestHeader, List.mem_cons, List.mem_singleton, List.not_mem_nil, or_false] at hb
    rcases hb with h | h | h | h | h | h <;> subst h
    · exact ha
    · decide
    · unfold highByte; omega
    · unfold lowByte; omega
    · unfold highByte; omega
    · unfold lowByte; omega
  have hcrc := calcCRC16_lt (requestHeader slaveAddr 0x03 startReg regCount) 6 hbytes
  constructor
  · unfold sendModbusRequestFrame
    simp only [requestHeader, hlo, hhi _ hs, hhi _ hc] at hcrc ⊢
    rw [hhi _ hcrc]
    rfl
  · have h := check_append_crc (requestHeader slaveAddr 0x03 startReg regCount)
      (calcCRC16 (requestHeader slaveAddr 0x03 startReg regCount) 6)
      (by simp [requestHeader]) (by simp [requestHeader]) hcrc
    have hl : (requestHeader slaveAddr 0x03 startReg regCount).length = 6 := rfl
    rw [hl] at h
    unfold sendModbusRequestFrame
    simp only [h, beq_self_eq_true]

/-- Instance: address 1, start register 0, two registers. -/
theorem sendModbusRequestFrame_read_witness :
    sendModbusRequestFrame 1 0x03 0 2 = [1, 0x03, 0, 0, 0, 2, 0xC4, 0x0B] ∧
    sendModbusRequestCheck (sendModbusRequestFrame 1 0x03 0 2) 8 = true :=
  sendModbusRequestFrame_read 1 0 2 (by decide) (by decide) (by decide)

/-! ## The table-driven routine against the bitwise one -/

theorem bitsLsbFirst_mod (k : Nat) : ∀ x : Nat,
    bitsLsbFirst k (x % 2 ^ k) = bitsLsbFirst k x := by
  induction k with
  | zero => intro x; rfl
  | succ k ih =>
    intro x
    simp only [bitsLsbFirst]
    have h1 : x % 2 ^ (k + 1) % 2 = x % 2 := by
      rw [Nat.pow_succ, Nat.mul_comm]
      exact Nat.mod_mul_right_mod x 2 (2 ^ k)
    have h2 : x % 2 ^ (k + 1) / 2 = x / 2 % 2 ^ k := by
      rw [Nat.pow_succ, Nat.mul_comm]
      exact Nat.mod_mul_right_div_self x 2 (2 ^ k)
    rw [h1, h2, ih]

/-- The `k` shifts act on the low `k` bits only; the bits above them come
down unchanged. -/
theorem crcShiftLoop_split (k x : Nat) :
    crcShiftLoop k x = crcShiftLoop k (x % 2 ^ k) ^^^ (x / 2 ^ k) := by
  have h1 := crcShiftLoop_xor k 0 x
  have h2 := crcShiftLoop_xor k 0 (x % 2 ^ k)
  rw [Nat.zero_xor] at h1 h2
  have h3 : x % 2 ^ k / 2 ^ k = 0 := Nat.div_eq_of_lt (Nat.mod_lt _ (Nat.pos_pow_of_pos k (by decide)))
  rw [h3, Nat.xor_zero, bitsLsbFirst_mod] at h2
  rw [h1, h2]

theorem xor_div_two_pow (k : Nat) : ∀ a b : Nat,
    (a ^^^ b) / 2 ^ k = (a / 2 ^ k) ^^^ (b / 2 ^ k) := by
  induction k with
  | zero => intro a b; simp
  | succ k ih =>
    intro a b
    rw [Nat.pow_succ, ← Nat.div_div_eq_div_mul, ← Nat.div_div_eq_div_mul,
      ← Nat.div_div_eq_div_mul, ih, Nat.xor_div_two]

theorem crc_table_entry : ∀ i < 256, crc_table.getD i 0 = crcShiftLoop 8 i := by
  decide

theorem tableStep_eq_crcByte (c b : Nat) (hb : b < 256) : tableStep c b = crcByte c b := by
  unfold tableStep crcByte
  have hand : (c ^^^ b) &&& 0xFF = (c ^^^ b) % 2 ^ 8 := by
    have := Nat.and_pow_two_sub_one_eq_mod (c ^^^ b) 8
    simpa using this
  have hlt : (c ^^^ b) % 2 ^ 8 < 256 := Nat.mod_lt _ (by decide)
  have hhi : (c ^^^ b) / 2 ^ 8 = c >>> 8 := by
    rw [xor_div_two_pow, Nat.shiftRight_eq_div_pow]
    have : b / 2 ^ 8 = 0 := Nat.div_eq_of_lt (by simpa using hb)
    rw [this, Nat.xor_zero]
  rw [crcShiftLoop_split 8 (c ^^^ b), hand, crc_table_entry _ hlt, hhi, Nat.xor_comm]

theorem foldl_tableStep_eq (buf : List Nat) : ∀ c : Nat, (∀ b ∈ buf, b < 256) →
    buf.foldl tableStep c = buf.foldl crcByte c := by
  induction buf with
  | nil => intro c _; rfl
  | cons a buf ih =>
    intro c h
    simp only [List.foldl_cons]
    rw [tableStep_eq_crcByte c a (h a (List.mem_cons_self a buf))]
    exact ih _ (fun b hb => h b (List.mem_cons_of_mem a hb))

/-- Claim C5. The two CRC16 routines compute the same value: for every byte
buffer of length 0..255 the table-driven calculateCRC16 returns what the
bitwise calcCRC16 returns. -/
theorem calculateCRC16_eq_calcCRC16 (buf : List Nat) (_hlen : buf.length ≤ 255)
    (hbytes : ∀ b ∈ buf, b < 256) :
    calculateCRC16 buf buf.length = calcCRC16 buf buf.length := by
  unfold calculateCRC16 calcCRC16
  exact foldl_tableStep_eq _ _ (fun b hb => hbytes b (List.mem_of_mem_take hb))

/-- Instance: the six header bytes of an NPN write-single-register frame. -/
theorem calculateCRC16_eq_calcCRC16_witness :
    calculateCRC16 [0x01, 0x06, 0x00, 0x03, 0x01, 0x00] ([0x01, 0x06, 0x00, 0x03, 0x01, 0x00] : List Nat).length
      = calcCRC16 [0x01, 0x06, 0x00, 0x03, 0x01, 0x00] ([0x01, 0x06, 0x00, 0x03, 0x01, 0x00] : List Nat).length :=
  calculateCRC16_eq_calcCRC16 [0x01, 0x06, 0x00, 0x03, 0x01, 0x00] (by decide) (by decide)

/-! ## Serial3 arbiter -/

theorem ulongSub_of_le (a b : Nat) (hab : b ≤ a) (ha : a < 4294967296) :
    ulongSub a b = a - b := by
  unfold ulongSub
  omega

/-- Counterexample to claim C6 as stated: with the cooldown at 5 ms, a release
at 0 ms and a granted request of UNO_SENSOR at 5 ms, the request of the
higher-priority UNO_CONTROL at 7 ms is denied and the owner stays UNO_SENSOR,
because the grant at 5 ms restarted the cooldown window. -/
theorem requestSerial3Access_preempt_in_cooldown :
    getPriority SERIAL3_UNO_CONTROL < getPriority SERIAL3_UNO_SENSOR ∧
    (initSerial3Manager serial3Initial).serial3CooldownTime ≤ 5 - 0 ∧
    (requestSerial3Access (releaseSerial3Access (initSerial3Manager serial3Initial) 0)
      SERIAL3_UNO_SENSOR 5).1 = true ∧
    5 ≤ 7 ∧
    requestSerial3Access
      (requestSerial3Access (releaseSerial3Access (initSerial3Manager serial3Initial) 0)
        SERIAL3_UNO_SENSOR 5).2
      SERIAL3_UNO_CONTROL 7
      = (false, { serial3Owner := SERIAL3_UNO_SENSOR, serial3LastUsed := 5,
                  serial3CooldownTime := 5 }) := by
  decide

/-- Claim C6, amended. Priority preemption outside the cooldown window: for
classes A and B with getPriority(A) < getPriority(B), after a release at t0 and
a request of B at t1 with t1 - t0 >= cooldown (which is granted), a request of
A at a time t2 with t2 - t1 >= cooldown is granted and leaves serial3Owner == A
and serial3LastUsed == t2. -/
theorem requestSerial3Access_preempts (s0 : Serial3State) (A B : Serial3Owner) (t0 t1 t2 : Nat)
    (hprio : getPriority A < getPriority B)
    (h01 : t0 ≤ t1) (h12 : t1 ≤ t2) (ht2 : t2 < 4294967296)
    (hcd1 : s0.serial3CooldownTime ≤ t1 - t0) (hcd2 : s0.serial3CooldownTime ≤ t2 - t1) :
    requestSerial3Access (releaseSerial3Access s0 t0) B t1
      = (true, { serial3Owner := B, serial3LastUsed := t1,
                 serial3CooldownTime := s0.serial3CooldownTime }) ∧
    requestSerial3Access (requestSerial3Access (releaseSerial3Access s0 t0) B t1).2 A t2
      = (true, { serial3Owner := A, serial3LastUsed := t2,
                 serial3CooldownTime := s0.serial3CooldownTime }) := by
  have e1 : ulongSub t1 t0 = t1 - t0 := ulongSub_of_le t1 t0 h01 (by omega)
  have e2 : ulongSub t2 t1 = t2 - t1 := ulongSub_of_le t2 t1 h12 ht2
  have r1 : requestSerial3Access (releaseSerial3Access s0 t0) B t1
      = (true, { serial3Owner := B, serial3LastUsed := t1,
                 serial3CooldownTime := s0.serial3CooldownTime }) := by
    simp [requestSerial3Access, releaseSerial3Access, e1, Nat.not_lt.mpr hcd1]
  refine ⟨r1, ?_⟩
  rw [r1]
  have hn : ¬ (t2 - t1 < s0.serial3CooldownTime) := Nat.not_lt.mpr hcd2
  cases A <;> cases B <;>
    simp [getPriority, PRIORITY_UNO_CONTROL, PRIORITY_NPN, PRIORITY_UNO_SENSOR] at hprio <;>
    by_cases hw : 5000 < t2 - t1 <;>
    simp [requestSerial3Access, e2, hn, hw, getPriority, PRIORITY_UNO_CONTROL, PRIORITY_NPN,
      PRIORITY_UNO_SENSOR]

/-- Instance: release at 100 ms, UNO_SENSOR at 120 ms, UNO_CONTROL at 140 ms, cooldown 20 ms. -/
theorem requestSerial3Access_preempts_witness :
    requestSerial3Access (releaseSerial3Access serial3Initial 100) SERIAL3_UNO_SENSOR 120
      = (true, { serial3Owner := SERIAL3_UNO_SENSOR, serial3LastUsed := 120,
                 serial3CooldownTime := serial3Initial.serial3CooldownTime }) ∧
    requestSerial3Access
      (requestSerial3Access (releaseSerial3Access serial3Initial 100) SERIAL3_UNO_SENSOR 120).2
      SERIAL3_UNO_CONTROL 140
      = (true, { serial3Owner := SERIAL3_UNO_CONTROL, serial3LastUsed := 140,
                 serial3CooldownTime := serial3Initial.serial3CooldownTime }) :=
  requestSerial3Access_preempts serial3Initial SERIAL3_UNO_CONTROL SERIAL3_UNO_SENSOR 100 120 140
    (by decide) (by decide) (by decide) (by decide) (by decide) (by decide)

/-- Claim C7. Mutual exclusion against lower-priority requesters: when the bus
is owned by a class B other than Idle, the hold is not older than 5000 ms, and
a different class A with getPriority(A) > getPriority(B) requests access, the
request is denied and serial3Owner and serial3LastUsed are unchanged. -/
theorem requestSerial3Access_denies_lower_priority (s : Serial3State) (A : Serial3Owner)
    (now : Nat)
    (hown : s.serial3Owner ≠ SERIAL3_IDLE)
    (hhold : ulongSub now s.serial3LastUsed ≤ 5000)
    (hne : A ≠ s.serial3Owner)
    (hprio : getPriority A > getPriority s.serial3Owner) :
    requestSerial3Access s A now = (false, s) := by
  unfold requestSerial3Access
  have hw : ¬ (ulongSub now s.serial3LastUsed > 5000) := by omega
  by_cases hcd : ulongSub now s.serial3LastUsed < s.serial3CooldownTime
  · simp [hcd]
  · have hge : getPriority A ≥ getPriority s.serial3Owner := le_of_lt hprio
    simp [hcd, hw, hown, Ne.symm hne, hge]

/-- Instance: UNO_CONTROL holds the bus since 1000 ms, UNO_SENSOR asks at 1500 ms. -/
theorem requestSerial3Access_denies_lower_priority_witness :
    requestSerial3Access
      { serial3Owner := SERIAL3_UNO_CONTROL, serial3LastUsed := 1000, serial3CooldownTime := 5 }
      SERIAL3_UNO_SENSOR 1500
      = (false,
          { serial3Owner := SERIAL3_UNO_CONTROL, serial3LastUsed := 1000,
            serial3CooldownTime := 5 }) :=
  requestSerial3Access_denies_lower_priority
    { serial3Owner := SERIAL3_UNO_CONTROL, serial3LastUsed := 1000, serial3CooldownTime := 5 }
    SERIAL3_UNO_SENSOR 1500 (by decide) (by decide) (by decide) (by decide)

/-- Claim C8. Cooldown after release: after releaseSerial3Access at time t, a
request of any class r at a time t2 >= t is denied (state unchanged) when
t2 - t < serial3CooldownTime, and is granted with serial3Owner == r when
t2 - t >= serial3CooldownTime. -/
theorem requestSerial3Access_cooldown_after_release (s : Serial3State) (r : Serial3Owner)
    (t t' : Nat) (htt : t ≤ t') (ht' : t' < 4294967296) :
    (t' - t < s.serial3CooldownTime →
      requestSerial3Access (releaseSerial3Access s t) r t' = (false, releaseSerial3Access s t)) ∧
    (s.serial3CooldownTime ≤ t' - t →
      requestSerial3Access (releaseSerial3Access s t) r t'
        = (true, { serial3Owner := r, serial3LastUsed := t',
                   serial3CooldownTime := s.serial3CooldownTime })) := by
  have e : ulongSub t' t = t' - t := ulongSub_of_le t' t htt ht'
  constructor
  · intro h
    simp [requestSerial3Access, releaseSerial3Access, e, h]
  · intro h
    simp [requestSerial3Access, releaseSerial3Access, e, Nat.not_lt.mpr h]

/-- Instance: release at 1000 ms, UNO_CONTROL asks at 1003 ms, cooldown 5 ms. -/
theorem requestSerial3Access_cooldown_after_release_witness :
    (1003 - 1000 < (initSerial3Manager serial3Initial).serial3CooldownTime →
      requestSerial3Access (releaseSerial3Access (initSerial3Manager serial3Initial) 1000)
        SERIAL3_UNO_CONTROL 1003
        = (false, releaseSerial3Access (initSerial3Manager serial3Initial) 1000)) ∧
    ((initSerial3Manager serial3Initial).serial3CooldownTime ≤ 1003 - 1000 →
      requestSerial3Access (releaseSerial3Access (initSerial3Manager serial3Initial) 1000)
        SERIAL3_UNO_CONTROL 1003
        = (true, { serial3Owner := SERIAL3_UNO_CONTROL, serial3LastUsed := 1003,
                   serial3CooldownTime :=
                     (initSerial3Manager serial3Initial).serial3CooldownTime })) :=
  requestSerial3Access_cooldown_after_release (initSerial3Manager serial3Initial)
    SERIAL3_UNO_CONTROL 1000 1003 (by decide) (by decide)

/-- Claim C10. Stuck-owner watchdog: when serial3Owner is not Idle and
now - serial3LastUsed > 5000 ms, with the cooldown at 5 or 20 ms, a request of
any class r is granted, whatever the priority of the stuck owner, and
afterwards serial3Owner == r and serial3LastUsed == now. -/
theorem requestSerial3Access_watchdog (s : Serial3State) (r : Serial3Owner) (now : Nat)
    (hown : s.serial3Owner ≠ SERIAL3_IDLE)
    (hstuck : ulongSub now s.serial3LastUsed > 5000)
    (hcd : s.serial3CooldownTime = 5 ∨ s.serial3CooldownTime = 20) :
    requestSerial3Access s r now
      = (true, { serial3Owner := r, serial3LastUsed := now,
                 serial3CooldownTime := s.serial3CooldownTime }) := by
  unfold requestSerial3Access
  have hn : ¬ (ulongSub now s.serial3LastUsed < s.serial3CooldownTime) := by omega
  simp [hn, hown, hstuck]

/-- Instance: UNO_CONTROL stuck since 1000 ms, UNO_SENSOR asks at 6001 ms. -/
theorem requestSerial3Access_watchdog_witness :
    requestSerial3Access
      { serial3Owner := SERIAL3_UNO_CONTROL, serial3LastUsed := 1000, serial3CooldownTime := 5 }
      SERIAL3_UNO_SENSOR 6001
      = (true, { serial3Owner := SERIAL3_UNO_SENSOR, serial3LastUsed := 6001,
                 serial3CooldownTime := 5 }) :=
  requestSerial3Access_watchdog
    { serial3Owner := SERIAL3_UNO_CONTROL, serial3LastUsed := 1000, serial3CooldownTime := 5 }
    SERIAL3_UNO_SENSOR 6001 (by decide) (by decide) (by decide)

/-- Counterexample to claim C9 as stated: a sensor session preempted by
UNO_CONTROL (the owner is UNO_CONTROL, not UNO_SENSOR) ends through its data
path at 200 ms; the release it performs sets the owner to Idle and the last-use
time to 200, so the arbiter state is changed by a release of a non-owner. -/
theorem releaseSerial3Access_by_non_owner :
    preemptedSensorSession.arbiter.serial3Owner = SERIAL3_UNO_CONTROL ∧
    preemptedSensorSession.arbiter.serial3Owner ≠ SERIAL3_UNO_SENSOR ∧
    (updateUnoSensorRequest preemptedSensorSession 200 200).2.arbiter
      = { serial3Owner := SERIAL3_IDLE, serial3LastUsed := 200, serial3CooldownTime := 5 } ∧
    (updateUnoSensorRequest preemptedSensorSession 200 200).2.arbiter
      ≠ preemptedSensorSession.arbiter := by
  decide

/-- Claim C9, amended. Release is unconditional: releaseSerial3Access takes no
class and always leaves serial3Owner == Idle and serial3LastUsed == now,
whoever the owner was; and every poll of a non-Idle sensor session that
reports the end of the request (data, protocol-error or timeout path) has
performed that release, whether or not the session still owned the bus. -/
theorem releaseSerial3Access_unconditional (s : Serial3State) (now : Nat)
    (g : SensorSession) (t relTime : Nat) :
    releaseSerial3Access s now
      = { serial3Owner := SERIAL3_IDLE, serial3LastUsed := now,
          serial3CooldownTime := s.serial3CooldownTime } ∧
    (g.unoRequestState ≠ UNO_IDLE → (updateUnoSensorRequest g t relTime).1 = false →
      (updateUnoSensorRequest g t relTime).2.unoRequestState = UNO_IDLE ∧
      (updateUnoSensorRequest g t relTime).2.arbiter
        = { serial3Owner := SERIAL3_IDLE, serial3LastUsed := relTime,
            serial3CooldownTime := g.arbiter.serial3CooldownTime }) := by
  refine ⟨rfl, ?_⟩
  intro hst hret
  unfold updateUnoSensorRequest at hret ⊢
  cases hs : g.unoRequestState with
  | UNO_IDLE => exact absurd hs hst
  | UNO_SENDING => simp [hs] at hret
  | UNO_WAITING =>
    simp only [hs] at hret ⊢
    split_ifs at hret ⊢ <;> simp_all [releaseSerial3Access]
  | UNO_RECEIVING =>
    simp only [hs] at hret ⊢
    split_ifs at hret ⊢ <;> simp_all [releaseSerial3Access]

/-- Instance: the preempted sensor session polled at 200 ms. -/
theorem releaseSerial3Access_unconditional_witness :
    releaseSerial3Access preemptedSensorSession.arbiter 200
      = { serial3Owner := SERIAL3_IDLE, serial3LastUsed := 200,
          serial3CooldownTime := preemptedSensorSession.arbiter.serial3CooldownTime } ∧
    (updateUnoSensorRequest preemptedSensorSession 200 201).2.unoRequestState = UNO_IDLE ∧
    (updateUnoSensorRequest preemptedSensorSession 200 201).2.arbiter
      = { serial3Owner := SERIAL3_IDLE, serial3LastUsed := 201,
          serial3CooldownTime := preemptedSensorSession.arbiter.serial3CooldownTime } :=
  ⟨(releaseSerial3Access_unconditional preemptedSensorSession.arbiter 200
      preemptedSensorSession 200 201).1,
   (releaseSerial3Access_unconditional preemptedSensorSession.arbiter 200
      preemptedSensorSession 200 201).2 (by decide) (by decide)⟩


/-! ## The two sessions -/

/-- Counterexample to claim C11 as stated: the sensor session preempted by
UNO_CONTROL polls at 200 ms. With its eight answer bytes waiting it consumes
all eight; with nothing waiting it answers that the request is still in
progress and stays in the waiting phase. -/
theorem updateUnoSensorRequest_preempted_goes_on :
    preemptedSensorSession.arbiter.serial3Owner = SERIAL3_UNO_CONTROL ∧
    preemptedSensorSession.unoRequestState = UNO_WAITING ∧
    preemptedSensorSession.rx.length = 8 ∧
    (updateUnoSensorRequest preemptedSensorSession 200 200).2.rx = [] ∧
    updateUnoSensorRequest { preemptedSensorSession with rx := [] } 200 200
      = (true, { preemptedSensorSession with rx := [] }) := by
  decide

/-- The polls do not consult the arbiter. For every state and every owner
written into the arbiter, the poll of the sensor session and the poll of the
status session return the same value, leave the same phase, consume the same
bytes and store the same validity flag as with the original owner. -/
theorem update_requests_ignore_owner (g : SensorSession) (b : ControlBus) (o : Serial3Owner)
    (now relTime : Nat) (arriving : List Nat) (jsonOk : List Nat → Bool) :
    ((updateUnoSensorRequest
        { g with arbiter := { g.arbiter with serial3Owner := o } } now relTime).1
      = (updateUnoSensorRequest g now relTime).1 ∧
     (updateUnoSensorRequest
        { g with arbiter := { g.arbiter with serial3Owner := o } } now relTime).2.unoRequestState
      = (updateUnoSensorRequest g now relTime).2.unoRequestState ∧
     (updateUnoSensorRequest
        { g with arbiter := { g.arbiter with serial3Owner := o } } now relTime).2.rx
      = (updateUnoSensorRequest g now relTime).2.rx ∧
     (updateUnoSensorRequest
        { g with arbiter := { g.arbiter with serial3Owner := o } } now relTime).2.unoSensorData
      = (updateUnoSensorRequest g now relTime).2.unoSensorData) ∧
    ((updateUnoStatusRequest
        { b with arbiter := { b.arbiter with serial3Owner := o } } now relTime arriving jsonOk).1
      = (updateUnoStatusRequest b now relTime arriving jsonOk).1 ∧
     (updateUnoStatusRequest
        { b with arbiter := { b.arbiter with serial3Owner := o } } now relTime arriving
          jsonOk).2.unoStatusRequestState
      = (updateUnoStatusRequest b now relTime arriving jsonOk).2.unoStatusRequestState ∧
     (updateUnoStatusRequest
        { b with arbiter := { b.arbiter with serial3Owner := o } } now relTime arriving
          jsonOk).2.rx
      = (updateUnoStatusRequest b now relTime arriving jsonOk).2.rx ∧
     (updateUnoStatusRequest
        { b with arbiter := { b.arbiter with serial3Owner := o } } now relTime arriving
          jsonOk).2.unoNutrientStatusValid
      = (updateUnoStatusRequest b now relTime arriving jsonOk).2.unoNutrientStatusValid) := by
  constructor
  · unfold updateUnoSensorRequest
    cases hs : g.unoRequestState <;> simp only [hs] <;>
      (try split_ifs) <;> simp [hs]
  · unfold updateUnoStatusRequest
    cases hs : b.unoStatusRequestState <;> simp only [hs] <;>
      (try split_ifs) <;> simp [hs]

/-- Claim C11, amended. A preempted session does not observe the loss of the
bus on its next poll: if a sensor (or status) session is in the waiting phase
and the arbiter's owner has since been changed to a higher-priority class by a
granted request, then the session's next poll (updateUnoSensorRequest /
updateUnoStatusRequest) goes on as if the session still held the bus. While
fewer than 8 (resp. 3) bytes are available and no more than 10000 ms have
passed since the start, it consumes no bytes, changes nothing (the session
stays in the waiting phase, the new owner stays in place) and reports that the
request is still in progress. Once 8 bytes led by 0x82 (resp. 3 bytes led by
0x83) are available, it consumes them (resp. them and the announced JSON
bytes), ends the session with phase Idle, reports that the request is no
longer in progress and sets the owner to Idle, taking the bus from the class
that had preempted it. -/
theorem preempted_session_polls_on (g : SensorSession) (b : ControlBus) (a0 : Serial3State)
    (A : Serial3Owner) (t now relTime : Nat) (arriving : List Nat) (jsonOk : List Nat → Bool)
    (hheld : a0.serial3Owner = SERIAL3_UNO_SENSOR)
    (hprio : getPriority A < getPriority SERIAL3_UNO_SENSOR)
    (hgrant : (requestSerial3Access a0 A t).1 = true) :
    (requestSerial3Access a0 A t).2.serial3Owner = A ∧
    (g.arbiter = (requestSerial3Access a0 A t).2 → g.unoRequestState = UNO_WAITING →
      (g.rx.length < 8 → ulongSub now g.unoRequestStartTime ≤ 10000 →
        updateUnoSensorRequest g now relTime = (true, g)) ∧
      (8 ≤ g.rx.length → g.rx.getD 0 0 = 0x82 →
        updateUnoSensorRequest g now relTime
          = (false,
             { g with
               rx := g.rx.drop 8
               unoSensorData :=
                 { ph_int := ((g.rx.getD 1 0 <<< 8) ||| g.rx.getD 2 0) % 65536
                   ec_int := ((g.rx.getD 3 0 <<< 8) ||| g.rx.getD 4 0) % 65536
                   temp_int := ((g.rx.getD 5 0 <<< 8) ||| g.rx.getD 6 0) % 65536
                   isValid := true }
               unoRequestState := UNO_IDLE
               arbiter := { serial3Owner := SERIAL3_IDLE, serial3LastUsed := relTime,
                            serial3CooldownTime := g.arbiter.serial3CooldownTime } }))) ∧
    (b.arbiter = (requestSerial3Access a0 A t).2 → b.unoStatusRequestState = UNO_WAITING →
      (b.rx.length < 3 → ulongSub now b.unoStatusRequestStartTime ≤ 10000 →
        updateUnoStatusRequest b now relTime arriving jsonOk = (true, b)) ∧
      (3 ≤ b.rx.length → b.rx.getD 0 0 = 0x83 →
        (updateUnoStatusRequest b now relTime arriving jsonOk).1 = false ∧
        (updateUnoStatusRequest b now relTime arriving jsonOk).2.unoStatusRequestState
          = UNO_IDLE ∧
        (updateUnoStatusRequest b now relTime arriving jsonOk).2.arbiter
          = { serial3Owner := SERIAL3_IDLE, serial3LastUsed := relTime,
              serial3CooldownTime := b.arbiter.serial3CooldownTime } ∧
        (updateUnoStatusRequest b now relTime arriving jsonOk).2.rx
          = (b.rx.drop 3 ++ arriving).drop
              (if ((b.rx.getD 1 0 <<< 8) ||| b.rx.getD 2 0) % 65536 > 255 then 255
               else ((b.rx.getD 1 0 <<< 8) ||| b.rx.getD 2 0) % 65536))) := by
  refine ⟨?_, ?_, ?_⟩
  · cases A with
    | SERIAL3_IDLE => exact absurd hprio (by decide)
    | SERIAL3_UNO_SENSOR => exact absurd hprio (by decide)
    | SERIAL3_UNO_CONTROL =>
      unfold requestSerial3Access at hgrant ⊢
      simp only [hheld] at hgrant ⊢
      split_ifs at hgrant ⊢ <;>
        first
          | rfl
          | exact absurd hgrant (by decide)
          | simp_all
    | SERIAL3_NPN =>
      unfold requestSerial3Access at hgrant ⊢
      simp only [hheld] at hgrant ⊢
      split_ifs at hgrant ⊢ <;>
        first
          | rfl
          | exact absurd hgrant (by decide)
          | simp_all
  · intro _ hwait
    constructor
    · intro hlt hto
      have h8 : ¬ g.rx.length ≥ 8 := by omega
      have h10 : ¬ ulongSub now g.unoRequestStartTime > 10000 := by omega
      unfold updateUnoSensorRequest
      simp only [hwait, h8, h10, if_false]
    · intro h8 hcode
      have h8' : g.rx.length ≥ 8 := h8
      have hc : g.rx.getD 0 0 = ACK_SENSOR_DATA := hcode
      unfold updateUnoSensorRequest
      simp only [hwait, h8', hc, if_true, releaseSerial3Access]
  · intro _ hwait
    constructor
    · intro hlt hto
      have h3 : ¬ b.rx.length ≥ 3 := by omega
      have h10 : ¬ ulongSub now b.unoStatusRequestStartTime > 10000 := by omega
      unfold updateUnoStatusRequest
      simp only [hwait, h3, h10, if_false]
    · intro h3 hcode
      have h3' : b.rx.length ≥ 3 := h3
      have hc : b.rx.getD 0 0 = ACK_STATUS_DATA := hcode
      unfold updateUnoStatusRequest
      simp only [hwait, h3', hc, if_true, releaseSerial3Access, and_self]

/-- Instance: the sensor session and the status session that lost the bus to
UNO_CONTROL at 100 ms, polled at 200 ms: with nothing received the sensor
session is still in progress and unchanged; with its answer received each
session consumes it, ends, and sets the owner to Idle. -/
theorem preempted_session_polls_on_witness :
    preemptedSensorSession.arbiter.serial3Owner = SERIAL3_UNO_CONTROL ∧
    updateUnoSensorRequest { preemptedSensorSession with rx := [] } 200 201
      = (true, { preemptedSensorSession with rx := [] }) ∧
    (updateUnoSensorRequest preemptedSensorSession 200 201).1 = false ∧
    (updateUnoSensorRequest preemptedSensorSession 200 201).2.rx = [] ∧
    (updateUnoSensorRequest preemptedSensorSession 200 201).2.unoRequestState = UNO_IDLE ∧
    (updateUnoSensorRequest preemptedSensorSession 200 201).2.arbiter.serial3Owner
      = SERIAL3_IDLE ∧
    (updateUnoStatusRequest preemptedStatusBus 200 201 [] (fun _ => true)).1 = false ∧
    (updateUnoStatusRequest preemptedStatusBus 200 201 [] (fun _ => true)).2.unoStatusRequestState
      = UNO_IDLE ∧
    (updateUnoStatusRequest preemptedStatusBus 200 201 [] (fun _ => true)).2.rx = [] := by
  have hs := preempted_session_polls_on preemptedSensorSession preemptedStatusBus
    { serial3Owner := SERIAL3_UNO_SENSOR, serial3LastUsed := 50, serial3CooldownTime := 5 }
    SERIAL3_UNO_CONTROL 100 200 201 [] (fun _ => true) rfl (by decide) (by decide)
  have hs0 := preempted_session_polls_on { preemptedSensorSession with rx := [] }
    preemptedStatusBus
    { serial3Owner := SERIAL3_UNO_SENSOR, serial3LastUsed := 50, serial3CooldownTime := 5 }
    SERIAL3_UNO_CONTROL 100 200 201 [] (fun _ => true) rfl (by decide) (by decide)
  have hdata := (hs.2.1 rfl rfl).2 (by decide) (by decide)
  have hstat := (hs.2.2 (by decide) (by decide)).2 (by decide) (by decide)
  refine ⟨hs.1, (hs0.2.1 rfl rfl).1 (by decide) (by decide), ?_, ?_, ?_, ?_, hstat.1,
    hstat.2.1, ?_⟩
  · rw [hdata]
  · rw [hdata]; rfl
  · rw [hdata]
  · rw [hdata]
  · rw [hstat.2.2.2]; decide

/-- Counterexample to claim C12 as stated: from the state after `setup()`, the
sensor session starts at 100 ms and is granted the bus as UNO_SENSOR; the
status session starts at 200 ms, is granted the bus by the re-entrant branch
of the arbiter because it asks under the same class, and transmits its two
command bytes: both sessions are in the waiting phase. -/
theorem sessions_both_in_flight :
    (startUnoSensorRequest controlBusReady (StartClock.const 100)).unoRequestState
      = UNO_WAITING ∧
    (startUnoSensorRequest controlBusReady (StartClock.const 100)).arbiter.serial3Owner
      = SERIAL3_UNO_SENSOR ∧
    (startUnoSensorRequest controlBusReady (StartClock.const 100)).unoStatusRequestState
      = UNO_IDLE ∧
    (startUnoStatusRequest (startUnoSensorRequest controlBusReady (StartClock.const 100))
      (StartClock.const 200)).unoRequestState = UNO_WAITING ∧
    (startUnoStatusRequest (startUnoSensorRequest controlBusReady (StartClock.const 100))
      (StartClock.const 200)).unoStatusRequestState = UNO_WAITING ∧
    (startUnoStatusRequest (startUnoSensorRequest controlBusReady (StartClock.const 100))
      (StartClock.const 200)).tx = [0x25, 0x00, 0x33, 0x00] := by
  decide

theorem startAcquire_by_owner (a : Serial3State) (c : StartClock)
    (hown : a.serial3Owner = SERIAL3_UNO_SENSOR) :
    (ulongSub c.atRequest a.serial3LastUsed < a.serial3CooldownTime →
      startAcquire a c = (false, a)) ∧
    (¬ ulongSub c.atRequest a.serial3LastUsed < a.serial3CooldownTime →
      startAcquire a c
        = (true, { serial3Owner := SERIAL3_UNO_SENSOR, serial3LastUsed := c.atRequest,
                   serial3CooldownTime := a.serial3CooldownTime })) := by
  constructor
  · intro h
    simp [startAcquire, requestSerial3Access, h, hown]
  · intro h
    by_cases hw : ulongSub c.atRequest a.serial3LastUsed > 5000
    · simp [startAcquire, requestSerial3Access, h, hown, hw]
    · simp [startAcquire, requestSerial3Access, h, hown, hw]

/-- Claim C12, amended. The arbiter does not keep the two sessions apart, both
ask under UNO_SENSOR. When the control UNO is present, the bus is held as
UNO_SENSOR (by the waiting sensor session) and the status session is Idle,
startUnoStatusRequest transmits nothing and changes nothing exactly when it
asks inside the cooldown window (request time - serial3LastUsed < cooldown);
outside that window it is granted the bus, transmits 0x33 0x00 and enters the
waiting phase while the sensor session keeps its phase. The same holds with
the roles of the two sessions exchanged (command 0x25 0x00). -/
theorem start_while_other_session_holds (b : ControlBus) (c : StartClock)
    (hpresent : b.unoControlPresent = true)
    (hown : b.arbiter.serial3Owner = SERIAL3_UNO_SENSOR) :
    (b.unoStatusRequestState = UNO_IDLE →
      (ulongSub c.atRequest b.arbiter.serial3LastUsed < b.arbiter.serial3CooldownTime →
        startUnoStatusRequest b c = b) ∧
      (¬ ulongSub c.atRequest b.arbiter.serial3LastUsed < b.arbiter.serial3CooldownTime →
        startUnoStatusRequest b c
          = { b with arbiter := { serial3Owner := SERIAL3_UNO_SENSOR,
                                  serial3LastUsed := c.atRequest,
                                  serial3CooldownTime := b.arbiter.serial3CooldownTime }
                     unoStatusRequestStartTime := c.atStart
                     tx := b.tx ++ [0x33, 0x00]
                     unoStatusRequestState := UNO_WAITING })) ∧
    (b.unoRequestState = UNO_IDLE →
      (ulongSub c.atRequest b.arbiter.serial3LastUsed < b.arbiter.serial3CooldownTime →
        startUnoSensorRequest b c = b) ∧
      (¬ ulongSub c.atRequest b.arbiter.serial3LastUsed < b.arbiter.serial3CooldownTime →
        startUnoSensorRequest b c
          = { b with arbiter := { serial3Owner := SERIAL3_UNO_SENSOR,
                                  serial3LastUsed := c.atRequest,
                                  serial3CooldownTime := b.arbiter.serial3CooldownTime }
                     unoRequestStartTime := c.atStart
                     tx := b.tx ++ [0x25, 0x00]
                     unoRequestState := UNO_WAITING })) := by
  have hacq := startAcquire_by_owner b.arbiter c hown
  refine ⟨fun hidle => ⟨fun h => ?_, fun h => ?_⟩, fun hidle => ⟨fun h => ?_, fun h => ?_⟩⟩
  · simp only [startUnoStatusRequest, hpresent, hidle, hacq.1 h]
    cases b
    simp_all
  · simp [startUnoStatusRequest, hpresent, hidle, hacq.2 h, CMD_STATUS_REQUEST]
  · simp only [startUnoSensorRequest, hpresent, hidle, hacq.1 h]
    cases b
    simp_all
  · simp [startUnoSensorRequest, hpresent, hidle, hacq.2 h, CMD_SENSOR_REQUEST]

/-- Instance: the status session starts at 103 ms (inside the cooldown of
5 ms) and at 200 ms (outside) while the sensor session started at 100 ms
waits. -/
theorem start_while_other_session_holds_witness :
    startUnoStatusRequest (startUnoSensorRequest controlBusReady (StartClock.const 100))
        (StartClock.const 103)
      = startUnoSensorRequest controlBusReady (StartClock.const 100) ∧
    (startUnoStatusRequest (startUnoSensorRequest controlBusReady (StartClock.const 100))
        (StartClock.const 200)).unoStatusRequestState = UNO_WAITING :=
  ⟨((start_while_other_session_holds
        (startUnoSensorRequest controlBusReady (StartClock.const 100)) (StartClock.const 103)
        (by decide) (by decide)).1 (by decide)).1 (by decide),
   by
    have h := ((start_while_other_session_holds
        (startUnoSensorRequest controlBusReady (StartClock.const 100)) (StartClock.const 200)
        (by decide) (by decide)).1 (by decide)).2 (by decide)
    rw [h]⟩

/-- Counterexample to claim C13 as stated: a sensor session that started at
0 ms polls at exactly 10000 ms with nothing received. The timeout test is
`millis() - unoRequestStartTime > 10000`, so the poll still answers "pending"
and changes nothing; the same holds for the status session. -/
theorem update_requests_pending_at_10000 :
    updateUnoSensorRequest
        { arbiter := { serial3Owner := SERIAL3_UNO_SENSOR, serial3LastUsed := 0,
                       serial3CooldownTime := 5 }
          unoRequestState := UNO_WAITING, unoRequestStartTime := 0, rx := []
          unoSensorData := { ph_int := 0, ec_int := 0, temp_int := 0, isValid := true } }
        10000 10000
      = (true,
        { arbiter := { serial3Owner := SERIAL3_UNO_SENSOR, serial3LastUsed := 0,
                       serial3CooldownTime := 5 }
          unoRequestState := UNO_WAITING, unoRequestStartTime := 0, rx := []
          unoSensorData := { ph_int := 0, ec_int := 0, temp_int := 0, isValid := true } }) ∧
    updateUnoStatusRequest
        { controlBusReady with
          arbiter := { serial3Owner := SERIAL3_UNO_SENSOR, serial3LastUsed := 0,
                       serial3CooldownTime := 5 }
          unoStatusRequestState := UNO_WAITING, unoStatusRequestStartTime := 0 }
        10000 10000 [] (fun _ => true)
      = (true,
        { controlBusReady with
          arbiter := { serial3Owner := SERIAL3_UNO_SENSOR, serial3LastUsed := 0,
                       serial3CooldownTime := 5 }
          unoStatusRequestState := UNO_WAITING, unoStatusRequestStartTime := 0 }) := by
  decide

/-- Claim C13, amended. Session timeout: for a sensor session (fewer than 8
bytes received, in particular none) or a status session (fewer than 3 bytes
received, in particular none) in the waiting phase, a poll at
elapsed = now - startTime returns "pending" (true) with the whole state
unchanged when elapsed <= 10000 ms; when elapsed > 10000 ms it returns false,
marks the data invalid, sets the phase to Idle and releases the bus
(serial3Owner == Idle, serial3LastUsed == time of the release), so that a
request of any class r at a time t with t - release time >= cooldown is
granted. -/
theorem update_requests_timeout (g : SensorSession) (b : ControlBus) (now relTime t : Nat)
    (r : Serial3Owner) (arriving : List Nat) (jsonOk : List Nat → Bool) :
    (g.unoRequestState = UNO_WAITING → g.rx.length < 8 →
      (ulongSub now g.unoRequestStartTime ≤ 10000 →
        updateUnoSensorRequest g now relTime = (true, g)) ∧
      (ulongSub now g.unoRequestStartTime > 10000 →
        updateUnoSensorRequest g now relTime
          = (false,
            { g with unoRequestState := UNO_IDLE
                     arbiter := { serial3Owner := SERIAL3_IDLE, serial3LastUsed := relTime,
                                  serial3CooldownTime := g.arbiter.serial3CooldownTime }
                     unoSensorData := { g.unoSensorData with isValid := false } }) ∧
        (relTime ≤ t → t < 4294967296 → g.arbiter.serial3CooldownTime ≤ t - relTime →
          (requestSerial3Access (updateUnoSensorRequest g now relTime).2.arbiter r t).1 = true ∧
          (requestSerial3Access
            (updateUnoSensorRequest g now relTime).2.arbiter r t).2.serial3Owner = r))) ∧
    (b.unoStatusRequestState = UNO_WAITING → b.rx.length < 3 →
      (ulongSub now b.unoStatusRequestStartTime ≤ 10000 →
        updateUnoStatusRequest b now relTime arriving jsonOk = (true, b)) ∧
      (ulongSub now b.unoStatusRequestStartTime > 10000 →
        updateUnoStatusRequest b now relTime arriving jsonOk
          = (false,
            { b with unoStatusRequestState := UNO_IDLE
                     arbiter := { serial3Owner := SERIAL3_IDLE, serial3LastUsed := relTime,
                                  serial3CooldownTime := b.arbiter.serial3CooldownTime }
                     unoNutrientStatusValid := false }) ∧
        (relTime ≤ t → t < 4294967296 → b.arbiter.serial3CooldownTime ≤ t - relTime →
          (requestSerial3Access
            (updateUnoStatusRequest b now relTime arriving jsonOk).2.arbiter r t).1 = true ∧
          (requestSerial3Access
            (updateUnoStatusRequest b now relTime arriving jsonOk).2.arbiter r t).2.serial3Owner
              = r))) := by
  constructor
  · intro hs hrx
    have hrx8 : ¬ g.rx.length ≥ 8 := by omega
    constructor
    · intro hle
      have : ¬ ulongSub now g.unoRequestStartTime > 10000 := by omega
      simp [updateUnoSensorRequest, hs, hrx8, this]
    · intro hgt
      have e : updateUnoSensorRequest g now relTime
          = (false,
            { g with unoRequestState := UNO_IDLE
                     arbiter := { serial3Owner := SERIAL3_IDLE, serial3LastUsed := relTime,
                                  serial3CooldownTime := g.arbiter.serial3CooldownTime }
                     unoSensorData := { g.unoSensorData with isValid := false } }) := by
        simp [updateUnoSensorRequest, hs, hrx8, hgt, releaseSerial3Access]
      refine ⟨e, ?_⟩
      intro h1 h2 h3
      rw [e]
      have hsub : ulongSub t relTime = t - relTime := ulongSub_of_le t relTime h1 h2
      simp [requestSerial3Access, hsub, Nat.not_lt.mpr h3]
  · intro hs hrx
    have hrx3 : ¬ b.rx.length ≥ 3 := by omega
    constructor
    · intro hle
      have : ¬ ulongSub now b.unoStatusRequestStartTime > 10000 := by omega
      simp [updateUnoStatusRequest, hs, hrx3, this]
    · intro hgt
      have e : updateUnoStatusRequest b now relTime arriving jsonOk
          = (false,
            { b with unoStatusRequestState := UNO_IDLE
                     arbiter := { serial3Owner := SERIAL3_IDLE, serial3LastUsed := relTime,
                                  serial3CooldownTime := b.arbiter.serial3CooldownTime }
                     unoNutrientStatusValid := false }) := by
        simp [updateUnoStatusRequest, hs, hrx3, hgt, releaseSerial3Access]
      refine ⟨e, ?_⟩
      intro h1 h2 h3
      rw [e]
      have hsub : ulongSub t relTime = t - relTime := ulongSub_of_le t relTime h1 h2
      simp [requestSerial3Access, hsub, Nat.not_lt.mpr h3]

/-- Instance: a sensor session started at 0 ms waits with nothing received and
polls at 10001 ms; UNO_CONTROL asks at 10010 ms. -/
theorem update_requests_timeout_witness :
    (requestSerial3Access
      (updateUnoSensorRequest
        { arbiter := { serial3Owner := SERIAL3_UNO_SENSOR, serial3LastUsed := 0,
                       serial3CooldownTime := 5 }
          unoRequestState := UNO_WAITING, unoRequestStartTime := 0, rx := []
          unoSensorData := { ph_int := 0, ec_int := 0, temp_int := 0, isValid := true } }
        10001 10001).2.arbiter SERIAL3_UNO_CONTROL 10010).1 = true ∧
    (requestSerial3Access
      (updateUnoSensorRequest
        { arbiter := { serial3Owner := SERIAL3_UNO_SENSOR, serial3LastUsed := 0,
                       serial3CooldownTime := 5 }
          unoRequestState := UNO_WAITING, unoRequestStartTime := 0, rx := []
          unoSensorData := { ph_int := 0, ec_int := 0, temp_int := 0, isValid := true } }
        10001 10001).2.arbiter SERIAL3_UNO_CONTROL 10010).2.serial3Owner
      = SERIAL3_UNO_CONTROL :=
  (((update_requests_timeout
      { arbiter := { serial3Owner := SERIAL3_UNO_SENSOR, serial3LastUsed := 0,
                     serial3CooldownTime := 5 }
        unoRequestState := UNO_WAITING, unoRequestStartTime := 0, rx := []
        unoSensorData := { ph_int := 0, ec_int := 0, temp_int := 0, isValid := true } }
      controlBusReady 10001 10001 10010 SERIAL3_UNO_CONTROL [] (fun _ => true)).1
    (by decide) (by decide)).2 (by decide)).2 (by decide) (by decide) (by decide)

/-- Claim C14. Sensor snapshot decoding: when a waiting sensor session polls
and the transport holds the byte 0x82 followed by seven bytes b1..b7, the
session stores pH = (256*b1+b2)/100, EC = ((256*b3+b4)*10)/1000 dS/m and
temperature = (256*b5+b6)/10 degrees C as exact rationals, ignoring b7, marks
the data valid, sets the phase to Idle, releases the bus and returns false;
for the bytes 02 BC 00 96 00 F0 00 this gives pH = 7, EC = 3/2 and
temperature = 24. -/
theorem updateUnoSensorRequest_decodes (g : SensorSession) (now relTime : Nat)
    (b1 b2 b3 b4 b5 b6 b7 : Nat) (rest : List Nat)
    (hs : g.unoRequestState = UNO_WAITING)
    (hrx : g.rx = 0x82 :: b1 :: b2 :: b3 :: b4 :: b5 :: b6 :: b7 :: rest)
    (h1 : b1 < 256) (h2 : b2 < 256) (h3 : b3 < 256) (h4 : b4 < 256) (h5 : b5 < 256)
    (h6 : b6 < 256) :
    (updateUnoSensorRequest g now relTime).1 = false ∧
    (updateUnoSensorRequest g now relTime).2.unoSensorData.ph = ((256 * b1 + b2 : Nat) : ℚ) / 100 ∧
    (updateUnoSensorRequest g now relTime).2.unoSensorData.ec
      = (((256 * b3 + b4 : Nat) : ℚ) * 10) / 1000 ∧
    (updateUnoSensorRequest g now relTime).2.unoSensorData.waterTemp
      = ((256 * b5 + b6 : Nat) : ℚ) / 10 ∧
    (updateUnoSensorRequest g now relTime).2.unoSensorData.isValid = true ∧
    (updateUnoSensorRequest g now relTime).2.unoRequestState = UNO_IDLE ∧
    (updateUnoSensorRequest g now relTime).2.arbiter.serial3Owner = SERIAL3_IDLE ∧
    (updateUnoSensorRequest g now relTime).2.arbiter.serial3LastUsed = relTime ∧
    (updateUnoSensorRequest g now relTime).2.rx = rest ∧
    ((b1 = 0x02 ∧ b2 = 0xBC ∧ b3 = 0x00 ∧ b4 = 0x96 ∧ b5 = 0x00 ∧ b6 = 0xF0) →
      (updateUnoSensorRequest g now relTime).2.unoSensorData.ph = 7 ∧
      (updateUnoSensorRequest g now relTime).2.unoSensorData.ec = 3 / 2 ∧
      (updateUnoSensorRequest g now relTime).2.unoSensorData.waterTemp = 24) := by
  have hw : ∀ hi lo : Nat, hi < 256 → lo < 256 → ((hi <<< 8) ||| lo) % 65536 = 256 * hi + lo := by
    intro hi lo hhi hlo
    have hor : 2 ^ 8 * hi + lo = 2 ^ 8 * hi ||| lo := Nat.mul_add_lt_is_or (by omega) _
    rw [Nat.shiftLeft_eq, Nat.mul_comm, ← hor]
    omega
  have hlen : g.rx.length ≥ 8 := by rw [hrx]; simp
  have e : updateUnoSensorRequest g now relTime
      = (false,
          { g with
            rx := rest
            unoSensorData :=
              { ph_int := 256 * b1 + b2, ec_int := 256 * b3 + b4, temp_int := 256 * b5 + b6,
                isValid := true }
            unoRequestState := UNO_IDLE
            arbiter := releaseSerial3Access g.arbiter relTime }) := by
    unfold updateUnoSensorRequest
    simp only [hs, hlen, if_true]
    simp only [hrx, List.getD_cons_zero, List.getD_cons_succ, ACK_SENSOR_DATA, if_true,
      hw b1 b2 h1 h2, hw b3 b4 h3 h4, hw b5 b6 h5 h6, List.drop_succ_cons, List.drop_zero]
  rw [e]
  refine ⟨rfl, rfl, rfl, rfl, rfl, rfl, rfl, rfl, rfl, ?_⟩
  rintro ⟨rfl, rfl, rfl, rfl, rfl, rfl⟩
  simp only [UnoSensorRaw.ph, UnoSensorRaw.ec, UnoSensorRaw.waterTemp]
  norm_num

/-- Instance: the answer 82 02 BC 00 96 00 F0 00 of the specification. -/
theorem updateUnoSensorRequest_decodes_witness :
    (updateUnoSensorRequest preemptedSensorSession 200 200).2.unoSensorData.ph = 7 ∧
    (updateUnoSensorRequest preemptedSensorSession 200 200).2.unoSensorData.ec = 3 / 2 ∧
    (updateUnoSensorRequest preemptedSensorSession 200 200).2.unoSensorData.waterTemp = 24 :=
  (updateUnoSensorRequest_decodes preemptedSensorSession 200 200 0x02 0xBC 0x00 0x96 0x00 0xF0
    0x00 [] (by decide) (by decide) (by decide) (by decide) (by decide) (by decide)
    (by decide) (by decide)).2.2.2.2.2.2.2.2.2 (by decide)

/-! ## Actuator commands -/

/-- Counterexample to claim C18 as stated: while the waiting sensor session
holds the bus as UNO_SENSOR, `unoChannelOnImmediate(3)` writes its three bytes
at once; the owner is UNO_SENSOR before and after, never UNO_CONTROL, and the
sensor session is still in its waiting phase. -/
theorem unoChannelOnImmediate_without_grant :
    busHeldBySensor.arbiter.serial3Owner = SERIAL3_UNO_SENSOR ∧
    busHeldBySensor.unoRequestState = UNO_WAITING ∧
    (unoChannelOnImmediate busHeldBySensor 3 [0x80]).2.tx = busHeldBySensor.tx ++ [0x23, 3, 0x0A] ∧
    (unoChannelOnImmediate busHeldBySensor 3 [0x80]).2.arbiter.serial3Owner
      = SERIAL3_UNO_SENSOR ∧
    (unoChannelOnImmediate busHeldBySensor 3 [0x80]).2.unoRequestState = UNO_WAITING := by
  decide

theorem nutrientAttempts_arbiter (frame : List Nat) (isStop : Bool) (n : Nat) :
    ∀ (replies : List (List Nat)) (b : ControlBus),
      (nutrientAttempts frame isStop n replies b).2.arbiter = b.arbiter := by
  induction n with
  | zero => intro replies b; rfl
  | succ n ih =>
    intro replies b
    simp only [nutrientAttempts]
    cases (awaitAck (replies.headD [])).1 with
    | ok => rfl
    | error =>
      cases isStop with
      | true => simp only [if_true]; rw [ih]
      | false => simp
    | timeout => simp only []; rw [ih]

/-- Claim C18, amended. No actuator operation asks the arbiter: each of
unoChannelOnImmediate, unoChannelOffImmediate, togglePulseImmediate,
togglePulseFast, resetUnoImmediate, allOffUnoImmediate, toggleECPulseFast,
ecOffFast, bedOnFast, handleMultiRelayCommand and sendNutrientConfigToUno
leaves serial3Owner, serial3LastUsed and the cooldown as they were, whoever
owns the bus, so a sensor or status session holding the bus stays its owner;
and the single-command operations write their bytes in every such state. -/
theorem actuators_leave_arbiter (b : ControlBus) (channel bedMask : Nat) (pinIndex : Int)
    (arriving : List Nat) (action : MultiAction) (channels : List Nat)
    (jsonConfig : List Nat) (isStopCommand : Bool) (replies : List (List Nat)) :
    ((unoChannelOnImmediate b channel arriving).2.arbiter = b.arbiter ∧
     (unoChannelOffImmediate b channel arriving).2.arbiter = b.arbiter ∧
     (togglePulseImmediate b pinIndex).arbiter = b.arbiter ∧
     (togglePulseFast b pinIndex).arbiter = b.arbiter ∧
     (resetUnoImmediate b).arbiter = b.arbiter ∧
     (allOffUnoImmediate b).arbiter = b.arbiter ∧
     (toggleECPulseFast b).arbiter = b.arbiter ∧
     (ecOffFast b).arbiter = b.arbiter ∧
     (bedOnFast b bedMask).arbiter = b.arbiter ∧
     (handleMultiRelayCommand b action channels arriving).2.arbiter = b.arbiter ∧
     (sendNutrientConfigToUno b jsonConfig isStopCommand replies).2.arbiter = b.arbiter) ∧
    ((unoChannelOnImmediate b channel arriving).2.tx.length = b.tx.length + 3 ∧
     (unoChannelOffImmediate b channel arriving).2.tx.length = b.tx.length + 3 ∧
     (togglePulseImmediate b pinIndex).tx.length = b.tx.length + 2 ∧
     (togglePulseFast b pinIndex).tx.length = b.tx.length + 2 ∧
     (resetUnoImmediate b).tx.length = b.tx.length + 2 ∧
     (allOffUnoImmediate b).tx.length = b.tx.length + 2 ∧
     (toggleECPulseFast b).tx.length = b.tx.length + 2 ∧
     (ecOffFast b).tx.length = b.tx.length + 2 ∧
     (bedOnFast b bedMask).tx.length = b.tx.length + 2) := by
  refine ⟨⟨rfl, rfl, rfl, rfl, rfl, rfl, rfl, rfl, rfl, ?_, ?_⟩, ?_⟩
  · cases action <;> rfl
  · exact nutrientAttempts_arbiter _ _ _ _ _
  · simp [unoChannelOnImmediate, unoChannelOffImmediate, togglePulseImmediate, togglePulseFast,
      resetUnoImmediate, allOffUnoImmediate, toggleECPulseFast, ecOffFast, bedOnFast]

/-- Counterexample to claim C19 as stated: `togglePulseFast(5)` and
`togglePulseImmediate(5)` write the two bytes 0x22 0x05 and no terminator. -/
theorem togglePulse_two_bytes :
    (togglePulseFast controlBusReady 5).tx = [0x22, 0x05] ∧
    (togglePulseImmediate controlBusReady 5).tx = [0x22, 0x05] ∧
    (togglePulseFast controlBusReady 5).tx ≠ [0x22, 0x05, 0x0A] ∧
    (togglePulseImmediate controlBusReady 5).tx ≠ [0x22, 0x05, 0x0A] := by
  decide

/-- Claim C19, amended. Actuator wire format: unoChannelOnImmediate writes
exactly the three bytes 0x23, channel, 0x0A; unoChannelOffImmediate writes
0x24, channel, 0x0A; handleMultiRelayCommand writes 0x30, bitmask, 0x0A for ON
and 0x31, bitmask, 0x0A for OFF; togglePulseImmediate and togglePulseFast write
exactly the two bytes 0x22, pin with no terminator; the operations without a
channel write exactly two bytes opcode, 0x00 with RESET=0x20, ALL_OFF=0x21,
EC_PULSE=0x26, EC_OFF=0x28. -/
theorem actuator_wire_format (b : ControlBus) (channel : Nat) (pinIndex : Int)
    (arriving : List Nat) (channels : List Nat)
    (hch : channel < 256) (hpin : 0 ≤ pinIndex ∧ pinIndex < 256) :
    (unoChannelOnImmediate b channel arriving).2.tx = b.tx ++ [0x23, channel, 0x0A] ∧
    (unoChannelOffImmediate b channel arriving).2.tx = b.tx ++ [0x24, channel, 0x0A] ∧
    (handleMultiRelayCommand b MultiAction.ON channels arriving).2.tx
      = b.tx ++ [0x30, multiRelayBitmask channels, 0x0A] ∧
    (handleMultiRelayCommand b MultiAction.OFF channels arriving).2.tx
      = b.tx ++ [0x31, multiRelayBitmask channels, 0x0A] ∧
    (togglePulseImmediate b pinIndex).tx = b.tx ++ [0x22, pinIndex.toNat] ∧
    (togglePulseFast b pinIndex).tx = b.tx ++ [0x22, pinIndex.toNat] ∧
    (resetUnoImmediate b).tx = b.tx ++ [0x20, 0x00] ∧
    (allOffUnoImmediate b).tx = b.tx ++ [0x21, 0x00] ∧
    (toggleECPulseFast b).tx = b.tx ++ [0x26, 0x00] ∧
    (ecOffFast b).tx = b.tx ++ [0x28, 0x00] := by
  have hc : channel % 256 = channel := Nat.mod_eq_of_lt hch
  have hp : toUint8 pinIndex = pinIndex.toNat := by
    unfold toUint8
    rw [Int.emod_eq_of_lt hpin.1 hpin.2]
  refine ⟨?_, ?_, rfl, rfl, ?_, ?_, rfl, rfl, rfl, rfl⟩
  · simp [unoChannelOnImmediate, hc, CMD_ON]
  · simp [unoChannelOffImmediate, hc, CMD_OFF]
  · simp [togglePulseImmediate, hp, CMD_TOGGLE]
  · simp [togglePulseFast, hp, CMD_TOGGLE]

/-- Instance: channel 3 and pin 5 while the sensor session holds the bus. -/
theorem actuator_wire_format_witness :
    (unoChannelOnImmediate busHeldBySensor 3 [0x80]).2.tx = busHeldBySensor.tx ++ [0x23, 3, 0x0A] ∧
    (togglePulseFast busHeldBySensor 5).tx = busHeldBySensor.tx ++ [0x22, (5 : Int).toNat] :=
  ⟨(actuator_wire_format busHeldBySensor 3 5 [0x80] [] (by decide) (by decide)).1,
   (actuator_wire_format busHeldBySensor 3 5 [0x80] [] (by decide) (by decide)).2.2.2.2.2.1⟩

theorem nutrientAttempts_count (frame : List Nat) (isStop : Bool) (n : Nat) :
    ∀ (replies : List (List Nat)) (b : ControlBus),
      ∃ k, k ≤ n ∧
        (nutrientAttempts frame isStop n replies b).2.tx
          = b.tx ++ (List.replicate k frame).flatten := by
  induction n with
  | zero => intro replies b; exact ⟨0, le_refl _, by simp [nutrientAttempts]⟩
  | succ n ih =>
    intro replies b
    have hstep : ∀ b1 : ControlBus, b1.tx = b.tx ++ frame →
        ∃ k, k ≤ n + 1 ∧
          (nutrientAttempts frame isStop n replies.tail b1).2.tx
            = b.tx ++ (List.replicate k frame).flatten := by
      intro b1 hb1
      obtain ⟨k, hk, e⟩ := ih replies.tail b1
      refine ⟨k + 1, by omega, ?_⟩
      rw [e, hb1, List.replicate_succ, List.flatten_cons, List.append_assoc]
    have hone : ∃ k, k ≤ n + 1 ∧ b.tx ++ frame = b.tx ++ (List.replicate k frame).flatten :=
      ⟨1, by omega, by simp⟩
    simp only [nutrientAttempts]
    cases (awaitAck (replies.headD [])).1 with
    | ok => exact hone
    | error =>
      cases isStop with
      | true => exact hstep _ rfl
      | false => exact hone
    | timeout => exact hstep _ rfl

/-- The bytes of one transmission: the opcode 0x32, the length of the text
(cut at 256) high byte first, and the text (cut at 256 characters). -/
theorem nutrientFrame_bytes (jsonConfig : List Nat) :
    nutrientFrame jsonConfig
      = 0x32 :: (min jsonConfig.length 256 / 256) :: (min jsonConfig.length 256 % 256)
          :: jsonConfig.take 256 := by
  unfold nutrientFrame
  by_cases h : jsonConfig.length > 256
  · have hm : min jsonConfig.length 256 = 256 := by omega
    simp only [h, if_true, hm]
    rfl
  · have hm : min jsonConfig.length 256 = jsonConfig.length := by omega
    have hle : jsonConfig.length ≤ 256 := by omega
    simp only [h, if_false, hm]
    have e1 : (jsonConfig.length >>> 8) &&& 0xFF = jsonConfig.length / 256 := by
      rw [Nat.shiftRight_eq_div_pow, show (0xFF : Nat) = 2 ^ 8 - 1 from rfl,
        Nat.and_pow_two_sub_one_eq_mod]
      omega
    have e2 : jsonConfig.length &&& 0xFF = jsonConfig.length % 256 := by
      rw [show (0xFF : Nat) = 2 ^ 8 - 1 from rfl, Nat.and_pow_two_sub_one_eq_mod]
    have e3 : jsonConfig.take jsonConfig.length = jsonConfig.take 256 := by
      rw [List.take_length, List.take_of_length_le hle]
    rw [e1, e2, e3]
    rfl

/-- Claim C20. Stop-command retry outcome: for a configuration message whose
"cmd" is STOP, sendNutrientConfigToUno transmits the command at most 3 times,
whatever is received, each transmission being the bytes 0x32, length high,
length low and the text; when the first two attempts are answered with
ACK_ERROR (0x81) and the third with ACK_OK (0x80) it ends with success = true
after exactly 3 transmissions, and when all three attempts are answered with
ACK_ERROR it ends with success = false after exactly 3 transmissions. -/
theorem sendNutrientConfigToUno_stop_retry (b : ControlBus) (jsonConfig : List Nat)
    (replies : List (List Nat)) (r1 r2 r3 : List Nat) (more : List (List Nat)) :
    nutrientFrame jsonConfig
      = 0x32 :: (min jsonConfig.length 256 / 256) :: (min jsonConfig.length 256 % 256)
          :: jsonConfig.take 256 ∧
    (∃ k, k ≤ 3 ∧
      (sendNutrientConfigToUno b jsonConfig true replies).2.tx
        = b.tx ++ (List.replicate k (nutrientFrame jsonConfig)).flatten) ∧
    ((awaitAck r1).1 = AckOutcome.error → (awaitAck r2).1 = AckOutcome.error →
      ((awaitAck r3).1 = AckOutcome.ok →
        (sendNutrientConfigToUno b jsonConfig true (r1 :: r2 :: r3 :: more)).1 = true ∧
        (sendNutrientConfigToUno b jsonConfig true (r1 :: r2 :: r3 :: more)).2.tx
          = b.tx ++ nutrientFrame jsonConfig ++ nutrientFrame jsonConfig
              ++ nutrientFrame jsonConfig) ∧
      ((awaitAck r3).1 = AckOutcome.error →
        (sendNutrientConfigToUno b jsonConfig true (r1 :: r2 :: r3 :: more)).1 = false ∧
        (sendNutrientConfigToUno b jsonConfig true (r1 :: r2 :: r3 :: more)).2.tx
          = b.tx ++ nutrientFrame jsonConfig ++ nutrientFrame jsonConfig
              ++ nutrientFrame jsonConfig)) := by
  refine ⟨nutrientFrame_bytes jsonConfig, ?_, ?_⟩
  · exact nutrientAttempts_count _ _ _ _ _
  · intro h1 h2
    constructor
    · intro h3
      simp [sendNutrientConfigToUno, nutrientAttempts, h1, h2, h3]
    · intro h3
      simp [sendNutrientConfigToUno, nutrientAttempts, h1, h2, h3]

/-- Instance: the answers 0x81, 0x81, 0x80 to the STOP message of fourteen
characters, whose frame starts 32 00 0E. -/
theorem sendNutrientConfigToUno_stop_retry_witness :
    nutrientFrame stopJson = [0x32, 0x00, 0x0E] ++ stopJson ∧
    (sendNutrientConfigToUno controlBusReady stopJson true [[0x81], [0x81], [0x80]]).1
      = true ∧
    (sendNutrientConfigToUno controlBusReady stopJson true [[0x81], [0x81], [0x80]]).2.tx
      = controlBusReady.tx ++ nutrientFrame stopJson ++ nutrientFrame stopJson
          ++ nutrientFrame stopJson :=
  ⟨(sendNutrientConfigToUno_stop_retry controlBusReady stopJson [] [0x81] [0x81] [0x80] []).1,
   ((sendNutrientConfigToUno_stop_retry controlBusReady stopJson [] [0x81] [0x81] [0x80]
      []).2.2 (by decide) (by decide)).1 (by decide)⟩

/-! ## Push-frame ingester -/

theorem processFrames_short (fuel : Nat) (s : PushIngester) (now : Nat)
    (h : s.buf.length < 3) : processFrames fuel s now = s := by
  cases fuel with
  | zero => rfl
  | succ fuel =>
    have : ¬ s.buf.length ≥ 3 := by omega
    simp [processFrames, this]

theorem processFrames_incomplete (fuel : Nat) (s : PushIngester) (now : Nat)
    (h : s.buf.length < s.buf.getD 2 0 + 5) : processFrames fuel s now = s := by
  cases fuel with
  | zero => rfl
  | succ fuel =>
    by_cases h3 : s.buf.length ≥ 3
    · simp only [processFrames, h3, h, if_true]
    · simp only [processFrames, h3, if_false]

/-- One turn of the loop on a buffer that starts with a complete frame: the
registry is updated as the CRC and the function code tell, and the frame is
removed from the front of the buffer. -/
theorem processFrames_step (fuel : Nat) (s : PushIngester) (now : Nat)
    (h3 : 3 ≤ s.buf.length) (hfull : s.buf.getD 2 0 + 5 ≤ s.buf.length)
    (h255 : s.buf.length ≤ 255) :
    processFrames (fuel + 1) s now
      = processFrames fuel
          { s with
            reg :=
              if sendModbusRequestCheck s.buf (s.buf.getD 2 0 + 5) = true then
                (if s.buf.getD 1 0 = 0x03 then pushFrame s.reg s.buf (s.buf.getD 2 0) now
                 else s.reg)
              else s.reg
            buf := s.buf.drop (s.buf.getD 2 0 + 5) } now := by
  have hge : s.buf.length ≥ 3 := h3
  have hnlt : ¬ s.buf.length < s.buf.getD 2 0 + 5 := by omega
  have hngt : ¬ s.buf.getD 2 0 + 5 > s.buf.length := by omega
  have h5 : ¬ s.buf.getD 2 0 + 5 < 5 := by omega
  have hrem : (s.buf.length - (s.buf.getD 2 0 + 5)) % 256
      = (s.buf.drop (s.buf.getD 2 0 + 5)).length := by
    rw [List.length_drop]
    omega
  simp only [processFrames, hge, hnlt, hngt, if_true, if_false, hrem, List.take_length,
    sendModbusRequestCheck, h5, beq_iff_eq, ge_iff_le, Nat.le_add_left, and_true]

/-- Taking in bytes that leave the buffer without a complete frame only
lengthens the buffer. -/
theorem foldl_pushByte_incomplete (now : Nat) :
    ∀ (ys : List Nat) (s : PushIngester), (s.buf ++ ys).length ≤ 255 →
      ((s.buf ++ ys).length < 3 ∨ (s.buf ++ ys).length < (s.buf ++ ys).getD 2 0 + 5) →
      ys.foldl (fun st byte => pushByte st byte now) s
        = { s with buf := s.buf ++ ys, lastByte := if ys = [] then s.lastByte else now } := by
  intro ys
  induction ys with
  | nil => intro s _ _; simp
  | cons y ys ih =>
    intro s h255 hinc
    have hl : (s.buf ++ y :: ys).length = (s.buf ++ [y]).length + ys.length := by
      simp only [List.length_append, List.length_cons, List.length_nil]; omega
    have hl1 : (s.buf ++ [y]).length = s.buf.length + 1 := by
      simp only [List.length_append, List.length_cons, List.length_nil]
    have hsplit : s.buf ++ y :: ys = (s.buf ++ [y]) ++ ys := by simp
    have hstep : pushByte s y now = { s with buf := s.buf ++ [y], lastByte := now } := by
      have h256 : s.buf.length < 256 := by omega
      have hmod : (s.buf.length + 1) % 256 = (s.buf ++ [y]).length := by
        rw [hl1]; omega
      unfold pushByte
      simp only [h256, if_true, hmod, List.take_length]
      by_cases h3 : 2 < (s.buf ++ [y]).length
      · apply processFrames_incomplete
        show (s.buf ++ [y]).length < (s.buf ++ [y]).getD 2 0 + 5
        have hget : (s.buf ++ y :: ys).getD 2 0 = (s.buf ++ [y]).getD 2 0 := by
          rw [hsplit, List.getD_append _ _ _ _ h3]
        rw [← hget]
        omega
      · apply processFrames_short
        show (s.buf ++ [y]).length < 3
        omega
    simp only [List.foldl_cons, hstep]
    rw [ih { s with buf := s.buf ++ [y], lastByte := now }
      (by show ((s.buf ++ [y]) ++ ys).length ≤ 255; rw [← hsplit]; exact h255)
      (by show ((s.buf ++ [y]) ++ ys).length < 3 ∨ _; rw [← hsplit]; exact hinc)]
    simp [List.append_assoc]

/-- A complete CRC-valid frame fed to the ingester on an empty rolling buffer
is handed to the registry step once and leaves the buffer empty. -/
theorem pollUnoPushFrames_frame (s : PushIngester) (addr fc : Nat) (payload : List Nat)
    (now endNow : Nat) (hbuf : s.buf = [])
    (hn : payload.length ≤ 250) (ha : addr < 256) (hfc : fc < 256)
    (hp : ∀ p ∈ payload, p < 256) :
    pollUnoPushFrames s (pushFrameBytes addr fc payload) now endNow
      = { buf := [], lastByte := now,
          reg := if fc = 0x03 then
                   pushFrame s.reg (pushFrameBytes addr fc payload) payload.length now
                 else s.reg } := by
  let body := addr :: fc :: payload.length :: payload
  let crc := calcCRC16 body body.length
  have hbodylen : body.length = payload.length + 3 := by simp [body]
  have hbytes : ∀ x ∈ body, x < 256 := by
    intro x hx
    simp only [body, List.mem_cons] at hx
    rcases hx with h | h | h | h
    · omega
    · omega
    · omega
    · exact hp x h
  have hcrc : crc < 65536 := calcCRC16_lt body _ hbytes
  have hFdef : pushFrameBytes addr fc payload = body ++ [lowByte crc, highByte crc] := rfl
  have hFinit : pushFrameBytes addr fc payload = (body ++ [lowByte crc]) ++ [highByte crc] := by
    rw [hFdef]; simp
  have hFlen : (pushFrameBytes addr fc payload).length = payload.length + 5 := by
    rw [hFdef, List.length_append, hbodylen]; rfl
  have hF2 : (pushFrameBytes addr fc payload).getD 2 0 = payload.length := rfl
  have hF1 : (pushFrameBytes addr fc payload).getD 1 0 = fc := rfl
  have hcheck : sendModbusRequestCheck (pushFrameBytes addr fc payload) (payload.length + 5)
      = true := by
    have h := check_append_crc body crc (by omega) (by omega) hcrc
    rw [hbodylen] at h
    rw [hFdef, h]
    simp [crc, hbodylen]
  have hinitlen : (s.buf ++ (body ++ [lowByte crc])).length = payload.length + 4 := by
    rw [hbuf, List.nil_append, List.length_append, hbodylen]; rfl
  have hinit2 : (s.buf ++ (body ++ [lowByte crc])).getD 2 0 = payload.length := by
    rw [hbuf]; rfl
  have hpre := foldl_pushByte_incomplete now (body ++ [lowByte crc]) s
    (by rw [hinitlen]; omega) (Or.inr (by rw [hinitlen, hinit2]; omega))
  have hlast : pushByte { s with buf := body ++ [lowByte crc], lastByte := now } (highByte crc) now
      = { buf := [], lastByte := now,
          reg := if fc = 0x03 then
                   pushFrame s.reg (pushFrameBytes addr fc payload) payload.length now
                 else s.reg } := by
    have hl : (body ++ [lowByte crc]).length = payload.length + 4 := by
      rw [List.length_append, hbodylen]; rfl
    have h256 : (body ++ [lowByte crc]).length < 256 := by omega
    have hmod : ((body ++ [lowByte crc]).length + 1) % 256
        = ((body ++ [lowByte crc]) ++ [highByte crc]).length := by
      have hl2 := hl
      simp only [List.length_append, List.length_singleton] at hl2 ⊢
      omega
    unfold pushByte
    simp only [h256, if_true, hmod, List.take_length]
    rw [← hFinit, hFlen]
    rw [show payload.length + 5 = (payload.length + 4) + 1 from rfl]
    rw [processFrames_step _ _ _ (by simp only [hFlen]; omega)
      (by simp only [hF2, hFlen]; omega) (by simp only [hFlen]; omega)]
    simp only [hF2, hF1, hcheck, if_true]
    rw [processFrames_short _ _ _ (by simp [hFlen])]
    congr 1
    rw [List.drop_eq_nil_iff]
    omega
  unfold pollUnoPushFrames
  have hfold : (pushFrameBytes addr fc payload).foldl (fun st byte => pushByte st byte now) s
      = { buf := [], lastByte := now,
          reg := if fc = 0x03 then
                   pushFrame s.reg (pushFrameBytes addr fc payload) payload.length now
                 else s.reg } := by
    conv_lhs => rw [hFinit, List.foldl_append, hpre]
    simp only [hbuf, List.nil_append, List.foldl_cons, List.foldl_nil]
    have hne : ¬ (body ++ [lowByte crc] = []) := by simp
    simp only [hne, if_false]
    exact hlast
  rw [hfold]
  simp

/-- A frame announcing 251 payload bytes is 256 bytes long: the 8-bit counter
wraps on its last byte and the frame is lost without a trace. -/
theorem pollUnoPushFrames_oversize (s : PushIngester) (addr fc : Nat) (payload : List Nat)
    (now endNow : Nat) (hbuf : s.buf = []) (hn : payload.length = 251) :
    pollUnoPushFrames s (pushFrameBytes addr fc payload) now endNow
      = { buf := [], lastByte := now, reg := s.reg } := by
  let body := addr :: fc :: payload.length :: payload
  let crc := calcCRC16 body body.length
  have hbodylen : body.length = payload.length + 3 := by simp [body]
  have hFinit : pushFrameBytes addr fc payload = (body ++ [lowByte crc]) ++ [highByte crc] := by
    show body ++ [lowByte crc, highByte crc] = _
    simp
  have hinitlen : (s.buf ++ (body ++ [lowByte crc])).length = 255 := by
    rw [hbuf, List.nil_append, List.length_append, hbodylen, hn]; rfl
  have hinit2 : (s.buf ++ (body ++ [lowByte crc])).getD 2 0 = payload.length := by
    rw [hbuf]; rfl
  have hpre := foldl_pushByte_incomplete now (body ++ [lowByte crc]) s
    (by rw [hinitlen]) (Or.inr (by rw [hinitlen, hinit2, hn]; decide))
  have hlast : pushByte { s with buf := body ++ [lowByte crc], lastByte := now } (highByte crc) now
      = { buf := [], lastByte := now, reg := s.reg } := by
    have hl : (body ++ [lowByte crc]).length = 255 := by
      rw [hbuf, List.nil_append] at hinitlen; exact hinitlen
    unfold pushByte
    simp only [hl, show (255 : Nat) < 256 by decide, if_true, show (255 + 1) % 256 = 0 by decide,
      List.take_zero, List.length_nil, processFrames]
  unfold pollUnoPushFrames
  have hfold : (pushFrameBytes addr fc payload).foldl (fun st byte => pushByte st byte now) s
      = { buf := [], lastByte := now, reg := s.reg } := by
    conv_lhs => rw [hFinit, List.foldl_append, hpre]
    simp only [hbuf, List.nil_append, List.foldl_cons, List.foldl_nil]
    have hne : ¬ (body ++ [lowByte crc] = []) := by simp
    simp only [hne, if_false]
    exact hlast
  rw [hfold]
  simp

/-- The loop never uses up its iterations: one more than `len` changes
nothing. -/
theorem processFrames_fuel_succ (now : Nat) : ∀ (fuel : Nat) (s : PushIngester),
    s.buf.length ≤ fuel → s.buf.length ≤ 255 →
    processFrames (fuel + 1) s now = processFrames fuel s now := by
  intro fuel
  induction fuel with
  | zero =>
    intro s h _
    rw [processFrames_short _ s now (by omega), processFrames_short _ s now (by omega)]
  | succ fuel ih =>
    intro s h h255
    by_cases h3 : 3 ≤ s.buf.length
    · by_cases hfull : s.buf.getD 2 0 + 5 ≤ s.buf.length
      · rw [processFrames_step (fuel + 1) s now h3 hfull h255,
          processFrames_step fuel s now h3 hfull h255]
        apply ih
        · show (s.buf.drop (s.buf.getD 2 0 + 5)).length ≤ fuel
          rw [List.length_drop]; omega
        · show (s.buf.drop (s.buf.getD 2 0 + 5)).length ≤ 255
          rw [List.length_drop]; omega
      · rw [processFrames_incomplete _ s now (by omega),
          processFrames_incomplete _ s now (by omega)]
    · rw [processFrames_short _ s now (by omega), processFrames_short _ s now (by omega)]

/-- Enough fuel: every bound of at least `len` iterations gives the result of
`len` iterations, the bound used by `pushByte`. -/
theorem processFrames_enough_fuel (now : Nat) (s : PushIngester) (h255 : s.buf.length ≤ 255) :
    ∀ extra : Nat, processFrames (s.buf.length + extra) s now
      = processFrames s.buf.length s now := by
  intro extra
  induction extra with
  | zero => rfl
  | succ extra ih =>
    rw [← ih]
    exact processFrames_fuel_succ now (s.buf.length + extra) s (by omega) h255

/-! ## Registry lemmas -/

theorem getD_set_self {α : Type} (l : List α) (i : Nat) (v d : α) (h : i < l.length) :
    (l.set i v).getD i d = v := by
  simp [List.getD_eq_getElem?_getD, List.getElem?_set, h]

theorem getD_set_other {α : Type} (l : List α) (i j : Nat) (v d : α) (h : i ≠ j) :
    (l.set i v).getD j d = l.getD j d := by
  simp [List.getD_eq_getElem?_getD, List.getElem?_set_ne h]

theorem getD_mem {α : Type} (l : List α) (i : Nat) (d : α) (h : i < l.length) :
    l.getD i d ∈ l := by
  rw [List.getD_eq_getElem _ _ h]
  exact List.getElem_mem h

theorem findSlave_some (r : Registry) (id i : Nat) (h : findSlave r id = some i) :
    i < r.modbusSlaveCount ∧ (r.modbusSensors.getD i ModbusSlave.zero).slaveId = id := by
  unfold findSlave at h
  have hm := List.mem_of_find?_eq_some h
  have hp := List.find?_some h
  exact ⟨List.mem_range.mp hm, by simpa using hp⟩

theorem findSlave_none (r : Registry) (id : Nat) (h : findSlave r id = none) :
    ∀ j, j < r.modbusSlaveCount → (r.modbusSensors.getD j ModbusSlave.zero).slaveId ≠ id := by
  unfold findSlave at h
  rw [List.find?_eq_none] at h
  intro j hj
  have := h j (List.mem_range.mpr hj)
  simpa using this

theorem word_of_two_bytes (hi lo : Nat) (hhi : hi < 256) (hlo : lo < 256) :
    ((hi <<< 8) ||| lo) % 65536 = 256 * hi + lo := by
  have hor : 2 ^ 8 * hi + lo = 2 ^ 8 * hi ||| lo := Nat.mul_add_lt_is_or (by omega) _
  rw [Nat.shiftLeft_eq, Nat.mul_comm, ← hor]
  omega

/-- The register loop writes the first `c` registers and leaves the others. -/
theorem foldl_set_range (w : Nat → Nat) (regs : List Nat) (c : Nat) (hc : c ≤ regs.length) :
    ((List.range c).foldl (fun rs k => rs.set k (w k)) regs).length = regs.length ∧
    ∀ k, ((List.range c).foldl (fun rs k => rs.set k (w k)) regs).getD k 0
      = if k < c then w k else regs.getD k 0 := by
  induction c with
  | zero => simp
  | succ c ih =>
    obtain ⟨hl, hg⟩ := ih (by omega)
    rw [List.range_succ, List.foldl_append]
    simp only [List.foldl_cons, List.foldl_nil]
    refine ⟨by rw [List.length_set, hl], ?_⟩
    intro k
    by_cases hkc : c = k
    · subst hkc
      rw [getD_set_self _ _ _ _ (by rw [hl]; omega)]
      simp
    · rw [getD_set_other _ _ _ _ _ hkc, hg k]
      by_cases h1 : k < c
      · simp [h1, Nat.lt_succ_of_lt h1]
      · have : ¬ k < c + 1 := by omega
        simp [h1, this]

theorem copyRegisters_spec (regs buf : List Nat) (m : Nat) (hregs : regs.length = 10) :
    (copyRegisters regs buf m).length = 10 ∧
    ∀ k, (copyRegisters regs buf m).getD k 0
      = if k < min m 10 then
          ((buf.getD (3 + k * 2) 0 <<< 8) ||| buf.getD (4 + k * 2) 0) % 65536
        else regs.getD k 0 := by
  have h := foldl_set_range
    (fun k => ((buf.getD (3 + k * 2) 0 <<< 8) ||| buf.getD (4 + k * 2) 0) % 65536)
    regs (min m 10) (by rw [hregs]; exact Nat.min_le_right _ _)
  unfold copyRegisters
  exact ⟨by rw [h.1, hregs], h.2⟩

/-- The bytes of a push frame behind its three header bytes. -/
theorem pushFrameBytes_payload (addr fc : Nat) (payload : List Nat) (j : Nat)
    (hj : j < payload.length) :
    (pushFrameBytes addr fc payload).getD (3 + j) 0 = payload.getD j 0 := by
  unfold pushFrameBytes
  simp only [List.cons_append]
  rw [show 3 + j = j + 1 + 1 + 1 by omega]
  simp only [List.getD_cons_succ]
  exact List.getD_append _ _ _ _ hj

theorem pushFrame_found (r : Registry) (buf : List Nat) (byteCount now i : Nat)
    (h : findSlave r (buf.getD 0 0) = some i) :
    pushFrame r buf byteCount now
      = { r with
          modbusSensors := r.modbusSensors.set i
            { r.modbusSensors.getD i ModbusSlave.zero with
              registers := copyRegisters (r.modbusSensors.getD i ModbusSlave.zero).registers buf
                ((byteCount / 2) % 256)
              isOnline := true
              lastResponse := now }
          modbusSensorsReady := decide (r.modbusSlaveCount > 0) } := by
  unfold pushFrame
  simp only [h, reduceCtorEq, false_and, if_false]

theorem pushFrame_new (r : Registry) (buf : List Nat) (byteCount now : Nat)
    (h : findSlave r (buf.getD 0 0) = none) (hroom : r.modbusSlaveCount < 10)
    (hlen : r.modbusSensors.length = 10) :
    pushFrame r buf byteCount now
      = { modbusSensors := r.modbusSensors.set r.modbusSlaveCount
            { r.modbusSensors.getD r.modbusSlaveCount ModbusSlave.zero with
              slaveId := buf.getD 0 0
              type := (pushTypeOf (splitCombinedId (buf.getD 0 0)).1).1
              active := true
              lastRead := 0
              name := SensorName.typed (pushTypeOf (splitCombinedId (buf.getD 0 0)).1).2
                (splitCombinedId (buf.getD 0 0)).1 (splitCombinedId (buf.getD 0 0)).2
              consecutiveFailures := 0
              registers := copyRegisters
                (r.modbusSensors.getD r.modbusSlaveCount ModbusSlave.zero).registers buf
                ((byteCount / 2) % 256)
              isOnline := true
              lastResponse := now }
          modbusSlaveCount := r.modbusSlaveCount + 1
          modbusSensorsReady := true } := by
  have hc : ¬ r.modbusSlaveCount ≥ MAX_MODBUS_SLAVES := by unfold MAX_MODBUS_SLAVES; omega
  have hc2 : r.modbusSlaveCount < MAX_MODBUS_SLAVES := by unfold MAX_MODBUS_SLAVES; omega
  have hidx : r.modbusSlaveCount < r.modbusSensors.length := by omega
  unfold pushFrame
  simp only [h, hc2, and_self, if_true, addDiscoveredSensor, hc, if_false, Option.isSome_none,
    Bool.false_eq_true, Nat.add_sub_cancel, getD_set_self _ _ _ _ hidx, List.set_set]
  simp

theorem pushFrame_full (r : Registry) (buf : List Nat) (byteCount now : Nat)
    (h : findSlave r (buf.getD 0 0) = none) (hfull : ¬ r.modbusSlaveCount < 10) :
    pushFrame r buf byteCount now = r := by
  have hc2 : ¬ r.modbusSlaveCount < MAX_MODBUS_SLAVES := by unfold MAX_MODBUS_SLAVES; omega
  unfold pushFrame
  simp only [h, hc2, and_false, if_false]

/-- `addDiscoveredSensor` keeps the count within the ten slots and the keys
pairwise distinct. -/
theorem addDiscoveredSensor_keeps_distinctKeys (r : Registry) (combinedId type : Nat)
    (typeName : String) (now : Nat) (hlen : r.modbusSensors.length = 10)
    (hcount : r.modbusSlaveCount ≤ 10) (hkeys : r.distinctKeys) :
    (addDiscoveredSensor r combinedId type typeName now).modbusSlaveCount ≤ 10 ∧
    (addDiscoveredSensor r combinedId type typeName now).distinctKeys := by
  unfold addDiscoveredSensor
  by_cases hfull : r.modbusSlaveCount ≥ MAX_MODBUS_SLAVES
  · simp only [hfull, if_true]
    exact ⟨hcount, hkeys⟩
  · cases hfind : findSlave r combinedId with
    | some i =>
      simp only [hfull, if_false, Option.isSome_some, if_true]
      exact ⟨hcount, hkeys⟩
    | none =>
      have hnone := findSlave_none r combinedId hfind
      have hlt : r.modbusSlaveCount < 10 := by
        unfold MAX_MODBUS_SLAVES at hfull; omega
      have hcl : r.modbusSlaveCount < r.modbusSensors.length := by omega
      simp only [hfull, if_false, Option.isSome_none, Bool.false_eq_true]
      refine ⟨by show r.modbusSlaveCount + 1 ≤ 10; omega, ?_⟩
      intro i j hi hj hij
      have hi2 : i < r.modbusSlaveCount + 1 := hi
      have hj2 : j < r.modbusSlaveCount + 1 := hj
      simp only at hij
      by_cases hic : r.modbusSlaveCount = i
      · by_cases hjc : r.modbusSlaveCount = j
        · omega
        · rw [← hic, getD_set_self _ _ _ _ hcl, getD_set_other _ _ _ _ _ hjc] at hij
          exact absurd hij.symm (hnone j (by omega))
      · by_cases hjc : r.modbusSlaveCount = j
        · rw [← hjc, getD_set_self _ _ _ _ hcl, getD_set_other _ _ _ _ _ hic] at hij
          exact absurd hij (hnone i (by omega))
        · rw [getD_set_other _ _ _ _ _ hic, getD_set_other _ _ _ _ _ hjc] at hij
          exact hkeys i j (by omega) (by omega) hij

/-! ## Push frames and the registry -/

theorem pushFrame_word (addr fc : Nat) (payload : List Nat) (k : Nat)
    (hp : ∀ p ∈ payload, p < 256) (hk : 2 * k + 1 < payload.length) :
    (((pushFrameBytes addr fc payload).getD (3 + k * 2) 0 <<< 8)
        ||| (pushFrameBytes addr fc payload).getD (4 + k * 2) 0) % 65536
      = 256 * payload.getD (2 * k) 0 + payload.getD (2 * k + 1) 0 := by
  have e1 : (pushFrameBytes addr fc payload).getD (3 + k * 2) 0 = payload.getD (2 * k) 0 := by
    rw [show k * 2 = 2 * k by omega]
    exact pushFrameBytes_payload addr fc payload (2 * k) (by omega)
  have e2 : (pushFrameBytes addr fc payload).getD (4 + k * 2) 0 = payload.getD (2 * k + 1) 0 := by
    rw [show 4 + k * 2 = 3 + (2 * k + 1) by omega]
    exact pushFrameBytes_payload addr fc payload (2 * k + 1) hk
  rw [e1, e2]
  exact word_of_two_bytes _ _ (hp _ (getD_mem _ _ _ (by omega))) (hp _ (getD_mem _ _ _ hk))

/-- The registers of a record after a push frame was copied into it. -/
theorem copyRegisters_pushFrame (regs : List Nat) (addr fc : Nat) (payload : List Nat)
    (hregs : regs.length = 10) (hn : payload.length ≤ 250) (hp : ∀ p ∈ payload, p < 256) :
    (∀ k, k < min (payload.length / 2) 10 →
      (copyRegisters regs (pushFrameBytes addr fc payload) ((payload.length / 2) % 256)).getD k 0
        = 256 * payload.getD (2 * k) 0 + payload.getD (2 * k + 1) 0) ∧
    (∀ k, min (payload.length / 2) 10 ≤ k →
      (copyRegisters regs (pushFrameBytes addr fc payload) ((payload.length / 2) % 256)).getD k 0
        = regs.getD k 0) := by
  have hm : (payload.length / 2) % 256 = payload.length / 2 := by omega
  have h := (copyRegisters_spec regs (pushFrameBytes addr fc payload) (payload.length / 2) hregs).2
  rw [hm]
  constructor
  · intro k hk
    rw [h k]
    simp only [hk, if_true]
    have hk2 : k < payload.length / 2 := lt_of_lt_of_le hk (Nat.min_le_left _ _)
    exact pushFrame_word addr fc payload k hp (by omega)
  · intro k hk
    rw [h k]
    have : ¬ k < min (payload.length / 2) 10 := by omega
    simp only [this, if_false]

/-- Counterexample to claim C15 as stated, in three parts. (1) Address 51 was
registered as MODBUS_SHT20 (the scan range of SHT20 is 51..55); a valid push
frame from address 51, whose type code is 19 (soil), updates that record and
leaves its type MODBUS_SHT20. (2) A valid frame from address 21 announcing 251
payload bytes leaves the empty registry empty. (3) In a registry that holds
the key 22 twice, a valid frame from address 22 leaves two records with key
22. -/
theorem pollUnoPushFrames_not_as_claimed :
    ((splitCombinedId 51).1 = 19 ∧
     findSlave (addDiscoveredSensor Registry.empty 51 MODBUS_SHT20 "SHT20" 0) 51 = some 0 ∧
     ((pollUnoPushFrames
        { buf := [], lastByte := 0,
          reg := addDiscoveredSensor Registry.empty 51 MODBUS_SHT20 "SHT20" 0 }
        (pushFrameBytes 51 0x03 [0x01, 0x02]) 100 100).reg.modbusSensors.getD 0
          ModbusSlave.zero).type = MODBUS_SHT20 ∧
     MODBUS_SHT20 ≠ MODBUS_SOIL_SENSOR) ∧
    ((splitCombinedId 21).1 = 21 ∧
     (pollUnoPushFrames ingesterEmpty (pushFrameBytes 21 0x03 (List.replicate 251 0)) 100
        100).reg = Registry.empty ∧
     Registry.empty.modbusSlaveCount = 0) ∧
    (registryAfterDebugPoll.modbusSlaveCount = 2 ∧
     ((pollUnoPushFrames { buf := [], lastByte := 0, reg := registryAfterDebugPoll }
        (pushFrameBytes 22 0x03 [0x01, 0x02]) 7000 7000).reg.modbusSensors.getD 0
          ModbusSlave.zero).slaveId = 22 ∧
     ((pollUnoPushFrames { buf := [], lastByte := 0, reg := registryAfterDebugPoll }
        (pushFrameBytes 22 0x03 [0x01, 0x02]) 7000 7000).reg.modbusSensors.getD 1
          ModbusSlave.zero).slaveId = 22) := by
  refine ⟨by decide, ⟨by decide, ?_, rfl⟩, by decide⟩
  rw [pollUnoPushFrames_oversize ingesterEmpty 21 0x03 (List.replicate 251 0) 100 100 rfl
    (List.length_replicate _ _)]
  rfl

/-- Claim C15, amended. Push-frame ingestion: let a frame addr, 0x03, n,
p_0..p_(n-1), crcLo, crcHi with n <= 250, a matching CRC and a type code
(addr & 0x1F) among 16, 17, 18, 19, 21..26 be fed to pollUnoPushFrames on an
empty rolling buffer, the registry having its declared sizes and pairwise
distinct keys, and containing addr or holding fewer than 10 records. Then the
rolling buffer is empty afterwards and the registry holds exactly one record
with key addr, at an index idx: when the record existed its type is left as
it was, when the frame created it its type is the table entry for the type
code (21 SHT20, 22 SCD41, 23 TSL2591, 24 BH1750, 25 ADS1115, 26 DS18B20,
19 soil, 16 wind direction, 17 wind speed, 18 rain/snow) and the count grew by
one; registers[k] = 256*p_(2k) + p_(2k+1) for every
k < min(n/2, 10) and the other registers are those the slot held; the record
is online with lastResponse = now; every other slot is unchanged. -/
theorem pollUnoPushFrames_ingests (s : PushIngester) (addr : Nat) (payload : List Nat)
    (now endNow : Nat) (hbuf : s.buf = []) (hsized : s.reg.sized) (hkeys : s.reg.distinctKeys)
    (hn : payload.length ≤ 250) (ha : addr < 256) (hp : ∀ p ∈ payload, p < 256)
    (htype : (splitCombinedId addr).1 ∈ [16, 17, 18, 19, 21, 22, 23, 24, 25, 26])
    (hroom : (findSlave s.reg addr).isSome ∨ s.reg.modbusSlaveCount < 10) :
    (pollUnoPushFrames s (pushFrameBytes addr 0x03 payload) now endNow).buf = [] ∧
    ∃ idx,
      idx < (pollUnoPushFrames s (pushFrameBytes addr 0x03 payload) now endNow).reg.modbusSlaveCount ∧
      (∀ j, j < (pollUnoPushFrames s (pushFrameBytes addr 0x03 payload) now
            endNow).reg.modbusSlaveCount →
        (((pollUnoPushFrames s (pushFrameBytes addr 0x03 payload) now
            endNow).reg.modbusSensors.getD j ModbusSlave.zero).slaveId = addr ↔ j = idx)) ∧
      ((idx < s.reg.modbusSlaveCount ∧
          (pollUnoPushFrames s (pushFrameBytes addr 0x03 payload) now
            endNow).reg.modbusSlaveCount = s.reg.modbusSlaveCount ∧
          ((pollUnoPushFrames s (pushFrameBytes addr 0x03 payload) now
            endNow).reg.modbusSensors.getD idx ModbusSlave.zero).type
            = (s.reg.modbusSensors.getD idx ModbusSlave.zero).type) ∨
       (idx = s.reg.modbusSlaveCount ∧
          (pollUnoPushFrames s (pushFrameBytes addr 0x03 payload) now
            endNow).reg.modbusSlaveCount = s.reg.modbusSlaveCount + 1 ∧
          ((pollUnoPushFrames s (pushFrameBytes addr 0x03 payload) now
            endNow).reg.modbusSensors.getD idx ModbusSlave.zero).type
            = (pushTypeOf (splitCombinedId addr).1).1 ∧
          (pushTypeOf (splitCombinedId addr).1).2 ≠ "UNKNOWN")) ∧
      (∀ k, k < min (payload.length / 2) 10 →
        ((pollUnoPushFrames s (pushFrameBytes addr 0x03 payload) now
            endNow).reg.modbusSensors.getD idx ModbusSlave.zero).registers.getD k 0
          = 256 * payload.getD (2 * k) 0 + payload.getD (2 * k + 1) 0) ∧
      (∀ k, min (payload.length / 2) 10 ≤ k →
        ((pollUnoPushFrames s (pushFrameBytes addr 0x03 payload) now
            endNow).reg.modbusSensors.getD idx ModbusSlave.zero).registers.getD k 0
          = (s.reg.modbusSensors.getD idx ModbusSlave.zero).registers.getD k 0) ∧
      ((pollUnoPushFrames s (pushFrameBytes addr 0x03 payload) now
            endNow).reg.modbusSensors.getD idx ModbusSlave.zero).isOnline = true ∧
      ((pollUnoPushFrames s (pushFrameBytes addr 0x03 payload) now
            endNow).reg.modbusSensors.getD idx ModbusSlave.zero).lastResponse = now ∧
      (∀ j, j ≠ idx →
        (pollUnoPushFrames s (pushFrameBytes addr 0x03 payload) now
            endNow).reg.modbusSensors.getD j ModbusSlave.zero
          = s.reg.modbusSensors.getD j ModbusSlave.zero) ∧
      ((pushTypeOf 21).1 = MODBUS_SHT20 ∧ (pushTypeOf 22).1 = MODBUS_SCD41 ∧
       (pushTypeOf 23).1 = MODBUS_TSL2591 ∧ (pushTypeOf 24).1 = MODBUS_BH1750 ∧
       (pushTypeOf 25).1 = MODBUS_ADS1115 ∧ (pushTypeOf 26).1 = MODBUS_DS18B20 ∧
       (pushTypeOf 19).1 = MODBUS_SOIL_SENSOR ∧ (pushTypeOf 16).1 = MODBUS_WIND_DIRECTION ∧
       (pushTypeOf 17).1 = MODBUS_WIND_SPEED ∧ (pushTypeOf 18).1 = MODBUS_RAIN_SNOW) := by
  have htable : (pushTypeOf 21).1 = MODBUS_SHT20 ∧ (pushTypeOf 22).1 = MODBUS_SCD41 ∧
       (pushTypeOf 23).1 = MODBUS_TSL2591 ∧ (pushTypeOf 24).1 = MODBUS_BH1750 ∧
       (pushTypeOf 25).1 = MODBUS_ADS1115 ∧ (pushTypeOf 26).1 = MODBUS_DS18B20 ∧
       (pushTypeOf 19).1 = MODBUS_SOIL_SENSOR ∧ (pushTypeOf 16).1 = MODBUS_WIND_DIRECTION ∧
       (pushTypeOf 17).1 = MODBUS_WIND_SPEED ∧ (pushTypeOf 18).1 = MODBUS_RAIN_SNOW := by
    decide
  obtain ⟨hlen, hregs, hcount⟩ := hsized
  have hpoll := pollUnoPushFrames_frame s addr 0x03 payload now endNow hbuf hn ha (by decide) hp
  simp only [if_true] at hpoll
  rw [hpoll]
  have haddr : (pushFrameBytes addr 0x03 payload).getD 0 0 = addr := rfl
  have hslotregs : ∀ i, i < 10 →
      (s.reg.modbusSensors.getD i ModbusSlave.zero).registers.length = 10 := by
    intro i hi
    exact hregs _ (getD_mem _ _ _ (by omega))
  refine ⟨rfl, ?_⟩
  cases hfind : findSlave s.reg addr with
  | some i =>
    obtain ⟨hi, hkey⟩ := findSlave_some s.reg addr i hfind
    have hil : i < s.reg.modbusSensors.length := by omega
    have hcr := copyRegisters_pushFrame
      (s.reg.modbusSensors.getD i ModbusSlave.zero).registers addr 0x03 payload
      (hslotregs i (by omega)) hn hp
    rw [pushFrame_found _ _ _ _ i (by rw [haddr]; exact hfind)]
    refine ⟨i, hi, ?_, Or.inl ⟨hi, rfl, ?_⟩, ?_, ?_, ?_, ?_, ?_, htable⟩
    · intro j hj
      by_cases hji : i = j
      · subst hji
        rw [getD_set_self _ _ _ _ hil]
        exact ⟨fun _ => rfl, fun _ => hkey⟩
      · simp only [getD_set_other _ _ _ _ _ hji]
        constructor
        · intro h
          exact hkeys j i hj hi (by rw [h, hkey])
        · intro h
          exact absurd h.symm hji
    · simp only [getD_set_self _ _ _ _ hil]
    · intro k hk
      simp only [getD_set_self _ _ _ _ hil]
      exact hcr.1 k hk
    · intro k hk
      simp only [getD_set_self _ _ _ _ hil]
      exact hcr.2 k hk
    · simp only [getD_set_self _ _ _ _ hil]
    · simp only [getD_set_self _ _ _ _ hil]
    · intro j hj
      simp only [getD_set_other _ _ _ _ _ (Ne.symm hj)]
  | none =>
    have hroom2 : s.reg.modbusSlaveCount < 10 := by
      rcases hroom with h | h
      · rw [hfind] at h; simp at h
      · exact h
    have hcl : s.reg.modbusSlaveCount < s.reg.modbusSensors.length := by omega
    have hnone := findSlave_none s.reg addr hfind
    have hcr := copyRegisters_pushFrame
      (s.reg.modbusSensors.getD s.reg.modbusSlaveCount ModbusSlave.zero).registers addr 0x03
      payload (hslotregs _ hroom2) hn hp
    have htab : (pushTypeOf (splitCombinedId addr).1).2 ≠ "UNKNOWN" := by
      simp only [List.mem_cons, List.mem_singleton, List.not_mem_nil, or_false] at htype
      rcases htype with h | h | h | h | h | h | h | h | h | h <;> rw [h] <;> decide
    rw [pushFrame_new _ _ _ _ (by rw [haddr]; exact hfind) hroom2 hlen]
    refine ⟨s.reg.modbusSlaveCount, Nat.lt_succ_self _, ?_, Or.inr ⟨rfl, rfl, ?_, htab⟩,
      ?_, ?_, ?_, ?_, ?_, htable⟩
    · intro j hj
      by_cases hjc : s.reg.modbusSlaveCount = j
      · subst hjc
        rw [getD_set_self _ _ _ _ hcl]
        exact ⟨fun _ => rfl, fun _ => haddr⟩
      · have hj2 : j < s.reg.modbusSlaveCount + 1 := hj
        simp only [getD_set_other _ _ _ _ _ hjc]
        constructor
        · intro h
          exact absurd h (hnone j (by omega))
        · intro h
          exact absurd h.symm hjc
    · simp only [getD_set_self _ _ _ _ hcl, haddr]
    · intro k hk
      simp only [getD_set_self _ _ _ _ hcl]
      exact hcr.1 k hk
    · intro k hk
      simp only [getD_set_self _ _ _ _ hcl]
      exact hcr.2 k hk
    · simp only [getD_set_self _ _ _ _ hcl]
    · simp only [getD_set_self _ _ _ _ hcl]
    · intro j hj
      simp only [getD_set_other _ _ _ _ _ (Ne.symm hj)]

theorem Registry.empty_sized : Registry.empty.sized := by
  refine ⟨rfl, ?_, by decide⟩
  intro s hs
  rw [Registry.empty, List.mem_replicate] at hs
  rw [hs.2]
  rfl

theorem Registry.empty_distinctKeys : Registry.empty.distinctKeys := by
  intro i j hi _ _
  exact absurd hi (Nat.not_lt_zero i)

/-- Instance of the ingestion: the frame 16 03 04 01 02 03 04 crc on the
empty registry. -/
theorem pollUnoPushFrames_ingests_witness :
    (pollUnoPushFrames ingesterEmpty (pushFrameBytes 22 0x03 [0x01, 0x02, 0x03, 0x04]) 100
        100).buf = [] ∧
    ∃ idx,
      idx < (pollUnoPushFrames ingesterEmpty (pushFrameBytes 22 0x03 [0x01, 0x02, 0x03, 0x04])
        100 100).reg.modbusSlaveCount ∧
      ((pollUnoPushFrames ingesterEmpty (pushFrameBytes 22 0x03 [0x01, 0x02, 0x03, 0x04]) 100
        100).reg.modbusSensors.getD idx ModbusSlave.zero).registers.getD 1 0 = 256 * 3 + 4 ∧
      ((pollUnoPushFrames ingesterEmpty (pushFrameBytes 22 0x03 [0x01, 0x02, 0x03, 0x04]) 100
        100).reg.modbusSensors.getD idx ModbusSlave.zero).lastResponse = 100 := by
  have h := pollUnoPushFrames_ingests ingesterEmpty 22 [0x01, 0x02, 0x03, 0x04] 100 100 rfl
    Registry.empty_sized Registry.empty_distinctKeys (by decide) (by decide) (by decide)
    (by decide) (Or.inr (by decide))
  obtain ⟨h1, idx, h2, _, _, h5, _, _, h8, _, _⟩ := h
  exact ⟨h1, idx, h2, h5 1 (by decide), h8⟩

/-- Counterexample to claim C16 as stated: the CRC-valid frame
05 03 02 01 02 crc (type code 5, not in the table) fed to the ingester with an
empty registry creates a record with key 5, type MODBUS_SHT20 and name
UNKNOWN_T5_U0; the count goes from 0 to 1. -/
theorem pollUnoPushFrames_unknown_type_registers :
    (splitCombinedId 5).1 = 5 ∧
    ingesterEmpty.reg.modbusSlaveCount = 0 ∧
    (pollUnoPushFrames ingesterEmpty (pushFrameBytes 5 0x03 [0x01, 0x02]) 100
      100).reg.modbusSlaveCount = 1 ∧
    ((pollUnoPushFrames ingesterEmpty (pushFrameBytes 5 0x03 [0x01, 0x02]) 100
      100).reg.modbusSensors.getD 0 ModbusSlave.zero).slaveId = 5 ∧
    ((pollUnoPushFrames ingesterEmpty (pushFrameBytes 5 0x03 [0x01, 0x02]) 100
      100).reg.modbusSensors.getD 0 ModbusSlave.zero).type = MODBUS_SHT20 ∧
    ((pollUnoPushFrames ingesterEmpty (pushFrameBytes 5 0x03 [0x01, 0x02]) 100
      100).reg.modbusSensors.getD 0 ModbusSlave.zero).name = SensorName.typed "UNKNOWN" 5 0 ∧
    (pollUnoPushFrames ingesterEmpty (pushFrameBytes 5 0x03 [0x01, 0x02]) 100
      100).reg ≠ ingesterEmpty.reg := by
  decide

/-- Claim C16, amended. An unknown type code is not rejected: for every
CRC-valid push frame with function code 0x03 and at most 250 payload bytes
whose type code (addr & 0x1F) is not in the table, fed on an empty rolling
buffer, pollUnoPushFrames consumes the frame and treats it like any other.
When addr keys no record and fewer than 10 records exist, a record is created
in the next free slot with key addr, type MODBUS_SHT20 and name
UNKNOWN_T(type code)_U(instance), and modbusSlaveCount grows by one; when addr
keys a record, that record gets the registers of the frame and is stamped
online, the count staying the same; when addr keys no record and 10 records
exist, the registry is unchanged. -/
theorem pollUnoPushFrames_unknown_type (s : PushIngester) (addr : Nat) (payload : List Nat)
    (now endNow : Nat) (hbuf : s.buf = []) (hlen : s.reg.modbusSensors.length = 10)
    (hn : payload.length ≤ 250) (ha : addr < 256) (hp : ∀ p ∈ payload, p < 256)
    (htype : (splitCombinedId addr).1 ∉ [16, 17, 18, 19, 21, 22, 23, 24, 25, 26]) :
    (pollUnoPushFrames s (pushFrameBytes addr 0x03 payload) now endNow).buf = [] ∧
    (findSlave s.reg addr = none → s.reg.modbusSlaveCount < 10 →
      (pollUnoPushFrames s (pushFrameBytes addr 0x03 payload) now endNow).reg.modbusSlaveCount
        = s.reg.modbusSlaveCount + 1 ∧
      ((pollUnoPushFrames s (pushFrameBytes addr 0x03 payload) now
        endNow).reg.modbusSensors.getD s.reg.modbusSlaveCount ModbusSlave.zero).slaveId = addr ∧
      ((pollUnoPushFrames s (pushFrameBytes addr 0x03 payload) now
        endNow).reg.modbusSensors.getD s.reg.modbusSlaveCount ModbusSlave.zero).type
        = MODBUS_SHT20 ∧
      ((pollUnoPushFrames s (pushFrameBytes addr 0x03 payload) now
        endNow).reg.modbusSensors.getD s.reg.modbusSlaveCount ModbusSlave.zero).name
        = SensorName.typed "UNKNOWN" (splitCombinedId addr).1 (splitCombinedId addr).2) ∧
    (∀ i, findSlave s.reg addr = some i →
      (pollUnoPushFrames s (pushFrameBytes addr 0x03 payload) now endNow).reg
        = { s.reg with
            modbusSensors := s.reg.modbusSensors.set i
              { s.reg.modbusSensors.getD i ModbusSlave.zero with
                registers := copyRegisters (s.reg.modbusSensors.getD i ModbusSlave.zero).registers
                  (pushFrameBytes addr 0x03 payload) ((payload.length / 2) % 256)
                isOnline := true
                lastResponse := now }
            modbusSensorsReady := decide (s.reg.modbusSlaveCount > 0) }) ∧
    (findSlave s.reg addr = none → ¬ s.reg.modbusSlaveCount < 10 →
      (pollUnoPushFrames s (pushFrameBytes addr 0x03 payload) now endNow).reg = s.reg) := by
  have hpoll := pollUnoPushFrames_frame s addr 0x03 payload now endNow hbuf hn ha (by decide) hp
  simp only [if_true] at hpoll
  rw [hpoll]
  have haddr : (pushFrameBytes addr 0x03 payload).getD 0 0 = addr := rfl
  have hunk : pushTypeOf (splitCombinedId addr).1 = (MODBUS_SHT20, "UNKNOWN") := by
    simp only [List.mem_cons, List.mem_singleton, List.not_mem_nil, or_false, not_or] at htype
    obtain ⟨h16, h17, h18, h19, h21, h22, h23, h24, h25, h26⟩ := htype
    simp only [pushTypeOf, h16, h17, h18, h19, h21, h22, h23, h24, h25, h26, if_false]
  refine ⟨rfl, ?_, ?_, ?_⟩
  · intro hnone hroom
    have hcl : s.reg.modbusSlaveCount < s.reg.modbusSensors.length := by omega
    rw [pushFrame_new _ _ _ _ (by rw [haddr]; exact hnone) hroom hlen]
    simp only [getD_set_self _ _ _ _ hcl, haddr, hunk, and_self]
  · intro i hsome
    rw [pushFrame_found _ _ _ _ i (by rw [haddr]; exact hsome)]
  · intro hnone hfull
    rw [pushFrame_full _ _ _ _ (by rw [haddr]; exact hnone) hfull]

/-- Instance: the frame 05 03 02 01 02 crc on the empty registry. -/
theorem pollUnoPushFrames_unknown_type_witness :
    (pollUnoPushFrames ingesterEmpty (pushFrameBytes 5 0x03 [0x01, 0x02]) 100
        100).reg.modbusSlaveCount = ingesterEmpty.reg.modbusSlaveCount + 1 ∧
    ((pollUnoPushFrames ingesterEmpty (pushFrameBytes 5 0x03 [0x01, 0x02]) 100
        100).reg.modbusSensors.getD ingesterEmpty.reg.modbusSlaveCount ModbusSlave.zero).slaveId
      = 5 ∧
    ((pollUnoPushFrames ingesterEmpty (pushFrameBytes 5 0x03 [0x01, 0x02]) 100
        100).reg.modbusSensors.getD ingesterEmpty.reg.modbusSlaveCount ModbusSlave.zero).type
      = MODBUS_SHT20 ∧
    ((pollUnoPushFrames ingesterEmpty (pushFrameBytes 5 0x03 [0x01, 0x02]) 100
        100).reg.modbusSensors.getD ingesterEmpty.reg.modbusSlaveCount ModbusSlave.zero).name
      = SensorName.typed "UNKNOWN" (splitCombinedId 5).1 (splitCombinedId 5).2 :=
  (pollUnoPushFrames_unknown_type ingesterEmpty 5 [0x01, 0x02] 100 100 rfl rfl (by decide)
    (by decide) (by decide) (by decide)).2.1 (by decide) (by decide)

/-- Claim C17 at its failing input. The registry holding the single record
with key 22 and type MODBUS_SCD41 is well formed; `debugPollSHT20FromUno(22)`
with a successful read looks for key 22 with type MODBUS_SHT20, finds none and
appends: afterwards the records 0 and 1 both have key 22. -/
theorem debugPollSHT20FromUno_duplicates_key :
    registryWithScd41.modbusSlaveCount = 1 ∧
    (registryWithScd41.modbusSensors.getD 0 ModbusSlave.zero).slaveId = 22 ∧
    (registryWithScd41.modbusSensors.getD 0 ModbusSlave.zero).type = MODBUS_SCD41 ∧
    registryWithScd41.modbusSlaveCount ≤ 10 ∧
    registryWithScd41.distinctKeys ∧
    registryAfterDebugPoll.modbusSlaveCount = 2 ∧
    (registryAfterDebugPoll.modbusSensors.getD 0 ModbusSlave.zero).slaveId = 22 ∧
    (registryAfterDebugPoll.modbusSensors.getD 1 ModbusSlave.zero).slaveId = 22 ∧
    ¬ registryAfterDebugPoll.distinctKeys := by
  have hc1 : registryWithScd41.modbusSlaveCount = 1 := by decide
  have hc2 : registryAfterDebugPoll.modbusSlaveCount = 2 := by decide
  have hk0 : (registryAfterDebugPoll.modbusSensors.getD 0 ModbusSlave.zero).slaveId = 22 := by
    decide
  have hk1 : (registryAfterDebugPoll.modbusSensors.getD 1 ModbusSlave.zero).slaveId = 22 := by
    decide
  refine ⟨hc1, by decide, by decide, by decide, ?_, hc2, hk0, hk1, ?_⟩
  · intro i j hi hj _
    rw [hc1] at hi hj
    omega
  · intro h
    have := h 0 1 (by rw [hc2]; decide) (by rw [hc2]; decide) (by rw [hk0, hk1])
    exact absurd this (by decide)

/-! ## Retransmission of the STOP command -/

/-- Counterexample to claim C21 as stated: the STOP message whose first
attempt hears nothing in its 500 ms window (a timeout) is transmitted a second
time, and the second transmission is acknowledged. -/
theorem sendNutrientConfigToUno_stop_resent_after_timeout :
    (awaitAck []).1 = AckOutcome.timeout ∧
    (sendNutrientConfigToUno controlBusReady stopJson true [[], [0x80]]).1 = true ∧
    (sendNutrientConfigToUno controlBusReady stopJson true [[], [0x80]]).2.tx
      = nutrientFrame stopJson ++ nutrientFrame stopJson := by
  decide

/-- Claim C21, amended. A STOP command is retransmitted after a timeout as
after an ACK_ERROR: for a STOP configuration message, if the first attempt ends
without ACK_OK (by timeout, no ACK_OK and no ACK_ERROR byte within the window,
or by ACK_ERROR), sendNutrientConfigToUno transmits the command a second time;
if the second attempt ends without ACK_OK too, it transmits it a third and last
time; an attempt answered with ACK_OK is the last one. Every transmission is
the bytes 0x32, length high, length low and the text. -/
theorem sendNutrientConfigToUno_stop_retransmission (b : ControlBus) (jsonConfig : List Nat)
    (r1 r2 r3 : List Nat) (more : List (List Nat)) :
    nutrientFrame jsonConfig
      = 0x32 :: (min jsonConfig.length 256 / 256) :: (min jsonConfig.length 256 % 256)
          :: jsonConfig.take 256 ∧
    ((awaitAck r1).1 = AckOutcome.ok →
      sendNutrientConfigToUno b jsonConfig true (r1 :: r2 :: r3 :: more)
        = (true, { b with rx := (awaitAck r1).2, tx := b.tx ++ nutrientFrame jsonConfig })) ∧
    ((awaitAck r1).1 ≠ AckOutcome.ok → (awaitAck r2).1 = AckOutcome.ok →
      sendNutrientConfigToUno b jsonConfig true (r1 :: r2 :: r3 :: more)
        = (true, { b with rx := (awaitAck r2).2,
                          tx := b.tx ++ nutrientFrame jsonConfig ++ nutrientFrame jsonConfig })) ∧
    ((awaitAck r1).1 ≠ AckOutcome.ok → (awaitAck r2).1 ≠ AckOutcome.ok →
      sendNutrientConfigToUno b jsonConfig true (r1 :: r2 :: r3 :: more)
        = (decide ((awaitAck r3).1 = AckOutcome.ok),
           { b with rx := (awaitAck r3).2,
                    tx := b.tx ++ nutrientFrame jsonConfig ++ nutrientFrame jsonConfig
                      ++ nutrientFrame jsonConfig })) := by
  refine ⟨nutrientFrame_bytes jsonConfig, ?_, ?_, ?_⟩
  · intro h1
    simp [sendNutrientConfigToUno, nutrientAttempts, h1]
  · intro h1 h2
    cases h : (awaitAck r1).1 with
    | ok => exact absurd h h1
    | error => simp [sendNutrientConfigToUno, nutrientAttempts, h, h2]
    | timeout => simp [sendNutrientConfigToUno, nutrientAttempts, h, h2]
  · intro h1 h2
    cases h : (awaitAck r1).1 with
    | ok => exact absurd h h1
    | error =>
      cases hr2 : (awaitAck r2).1 with
      | ok => exact absurd hr2 h2
      | error =>
        cases h3 : (awaitAck r3).1 <;>
          simp [sendNutrientConfigToUno, nutrientAttempts, h, hr2, h3]
      | timeout =>
        cases h3 : (awaitAck r3).1 <;>
          simp [sendNutrientConfigToUno, nutrientAttempts, h, hr2, h3]
    | timeout =>
      cases hr2 : (awaitAck r2).1 with
      | ok => exact absurd hr2 h2
      | error =>
        cases h3 : (awaitAck r3).1 <;>
          simp [sendNutrientConfigToUno, nutrientAttempts, h, hr2, h3]
      | timeout =>
        cases h3 : (awaitAck r3).1 <;>
          simp [sendNutrientConfigToUno, nutrientAttempts, h, hr2, h3]

/-- Instance: silence, silence, then ACK_OK: three transmissions of the frame
32 00 0E and the fourteen characters, and success. -/
theorem sendNutrientConfigToUno_stop_retransmission_witness :
    nutrientFrame stopJson = [0x32, 0x00, 0x0E] ++ stopJson ∧
    sendNutrientConfigToUno controlBusReady stopJson true [[], [], [0x80]]
      = (true, { controlBusReady with
                 rx := []
                 tx := controlBusReady.tx ++ nutrientFrame stopJson ++ nutrientFrame stopJson
                   ++ nutrientFrame stopJson }) :=
  ⟨(sendNutrientConfigToUno_stop_retransmission controlBusReady stopJson [] [] [0x80] []).1,
   (sendNutrientConfigToUno_stop_retransmission controlBusReady stopJson [] [] [0x80] []).2.2.2
     (by decide) (by decide)⟩

/-! ## Identity pulses -/

theorem sendPulsesLoop_eq (pin : Nat) : ∀ n : Nat,
    sendPulsesLoop pin n = (List.replicate n (pulseOn pin)).flatten := by
  intro n
  induction n with
  | zero => rfl
  | succ n ih =>
    rw [sendPulsesLoop, ih, List.replicate_succ, List.flatten_cons]
    rfl

theorem enrollPinsLoop_done (n pin : Nat) (h : ENROLL_PIN_43 < pin) : enrollPinsLoop n pin = [] := by
  cases n with
  | zero => rfl
  | succ n =>
    have : ¬ pin ≤ ENROLL_PIN_43 := by omega
    simp only [enrollPinsLoop, this, if_false]

/-- Enough fuel for the loop over the lines: six iterations reach D43, a
larger bound adds nothing. -/
theorem enrollPinsLoop_enough_fuel (extra : Nat) :
    enrollPinsLoop (ENROLL_PIN_43 + 1 - ENROLL_PIN_38 + extra) ENROLL_PIN_38
      = enrollPinsLoop (ENROLL_PIN_43 + 1 - ENROLL_PIN_38) ENROLL_PIN_38 := by
  have h44 : ∀ n, enrollPinsLoop n 44 = [] := fun n => enrollPinsLoop_done n 44 (by decide)
  have e : ENROLL_PIN_43 + 1 - ENROLL_PIN_38 + extra = extra + 1 + 1 + 1 + 1 + 1 + 1 := by
    unfold ENROLL_PIN_43 ENROLL_PIN_38
    omega
  have e0 : ENROLL_PIN_43 + 1 - ENROLL_PIN_38 = 0 + 1 + 1 + 1 + 1 + 1 + 1 := by decide
  rw [e, e0]
  simp only [enrollPinsLoop, ENROLL_PIN_38, ENROLL_PIN_43, h44]

/-- Enough fuel for the loop over the rounds. -/
theorem enrollRoundsLoop_enough_fuel (extra : Nat) :
    enrollRoundsLoop (ROUNDS + extra) 0 = enrollRoundsLoop ROUNDS 0 := by
  have h1 : ∀ n, enrollRoundsLoop n 1 = [] := by
    intro n
    cases n with
    | zero => rfl
    | succ n => simp [enrollRoundsLoop, ROUNDS]
  have e : ROUNDS + extra = extra + 1 := by unfold ROUNDS; omega
  have e0 : ROUNDS = 0 + 1 := rfl
  rw [e]
  conv_rhs => rw [e0]
  simp only [enrollRoundsLoop, h1]

/-- Claim C22. Bootstrap pulse trace: assignUnoIdsByPulses first drives all six
lines D38..D43 as outputs low, then for k = 1..6 in order emits exactly k
pulses on line D(37+k), each pulse being HIGH for 150 ms followed by LOW for
150 ms, writes no other line while a line is being pulsed, and finally sets all
six lines to INPUT; the total number of pulses is 21. Between the parts the
trace holds only waits (100 ms after the preparation, 500 ms between lines). -/
theorem assignUnoIdsByPulses_trace :
    assignUnoIdsByPulses
      = [ PinEvent.pinMode 38 PinDirection.OUTPUT, PinEvent.pinMode 39 PinDirection.OUTPUT,
          PinEvent.pinMode 40 PinDirection.OUTPUT, PinEvent.pinMode 41 PinDirection.OUTPUT,
          PinEvent.pinMode 42 PinDirection.OUTPUT, PinEvent.pinMode 43 PinDirection.OUTPUT,
          PinEvent.digitalWrite 38 PinLevel.LOW, PinEvent.digitalWrite 39 PinLevel.LOW,
          PinEvent.digitalWrite 40 PinLevel.LOW, PinEvent.digitalWrite 41 PinLevel.LOW,
          PinEvent.digitalWrite 42 PinLevel.LOW, PinEvent.digitalWrite 43 PinLevel.LOW ]
        ++ [PinEvent.delay 100]
        ++ pulseTrain 1 ++ [PinEvent.delay 500]
        ++ pulseTrain 2 ++ [PinEvent.delay 500]
        ++ pulseTrain 3 ++ [PinEvent.delay 500]
        ++ pulseTrain 4 ++ [PinEvent.delay 500]
        ++ pulseTrain 5 ++ [PinEvent.delay 500]
        ++ pulseTrain 6
        ++ [ PinEvent.pinMode 38 PinDirection.INPUT, PinEvent.pinMode 39 PinDirection.INPUT,
             PinEvent.pinMode 40 PinDirection.INPUT, PinEvent.pinMode 41 PinDirection.INPUT,
             PinEvent.pinMode 42 PinDirection.INPUT, PinEvent.pinMode 43 PinDirection.INPUT ] ∧
    (∀ pin unoId : Nat,
      sendPulsesToPin pin unoId = (List.replicate unoId (pulseOn pin)).flatten ∧
      countPulses (sendPulsesToPin pin unoId) = unoId ∧
      ∀ e ∈ sendPulsesToPin pin unoId, e.line = some pin ∨ e.line = none) ∧
    countPulses assignUnoIdsByPulses = 21 := by
  refine ⟨by decide, ?_, by decide⟩
  intro pin unoId
  refine ⟨sendPulsesLoop_eq pin unoId, ?_, ?_⟩
  · unfold sendPulsesToPin
    induction unoId with
    | zero => rfl
    | succ n ih =>
      rw [sendPulsesLoop]
      unfold countPulses at ih ⊢
      rw [List.countP_append, ih]
      simp [List.countP_cons]
      omega
  · unfold sendPulsesToPin
    induction unoId with
    | zero => intro e he; simp [sendPulsesLoop] at he
    | succ n ih =>
      intro e he
      rw [sendPulsesLoop, List.mem_append] at he
      rcases he with he | he
      · simp only [List.mem_cons, List.mem_singleton, List.not_mem_nil, or_false] at he
        rcases he with h | h | h | h <;> subst h <;> simp [PinEvent.line]
      · exact ih e he

/-- Instance: three pulses on D40, all of whose writes are on line 40. -/
theorem assignUnoIdsByPulses_trace_witness :
    countPulses (sendPulsesToPin 40 3) = 3 ∧
    ((PinEvent.digitalWrite 40 PinLevel.HIGH).line = some 40 ∨
      (PinEvent.digitalWrite 40 PinLevel.HIGH).line = none) :=
  ⟨(assignUnoIdsByPulses_trace.2.1 40 3).2.1,
   (assignUnoIdsByPulses_trace.2.1 40 3).2.2 (PinEvent.digitalWrite 40 PinLevel.HIGH)
     (by decide)⟩

/-! ## A start that is denied -/

/-- Claim C23. Start on denial does nothing: when the control UNO is present,
the session is Idle and requestSerial3Access denies the sensor requester at the
current time, with a cooldown of at most 5000 ms and the same clock value
throughout the call, startUnoSensorRequest (resp. startUnoStatusRequest) writes
no byte, leaves the phase Idle and leaves serial3Owner and serial3LastUsed
unchanged (the whole state is unchanged); the fallback is not taken. -/
theorem start_denied_does_nothing (b : ControlBus) (t : Nat)
    (hpresent : b.unoControlPresent = true)
    (hcool : b.arbiter.serial3CooldownTime ≤ 5000)
    (hdenied : (requestSerial3Access b.arbiter SERIAL3_UNO_SENSOR t).1 = false) :
    startAcquire b.arbiter (StartClock.const t) = (false, b.arbiter) ∧
    (b.unoRequestState = UNO_IDLE → startUnoSensorRequest b (StartClock.const t) = b) ∧
    (b.unoStatusRequestState = UNO_IDLE → startUnoStatusRequest b (StartClock.const t) = b) := by
  have hreq : requestSerial3Access b.arbiter SERIAL3_UNO_SENSOR t = (false, b.arbiter) ∧
      ¬ (b.arbiter.serial3Owner = SERIAL3_IDLE ∧
          ulongSub t b.arbiter.serial3LastUsed > 5000) := by
    unfold requestSerial3Access at hdenied ⊢
    by_cases hc : ulongSub t b.arbiter.serial3LastUsed < b.arbiter.serial3CooldownTime
    · simp only [hc, if_true, true_and]
      intro h
      omega
    · simp only [hc, if_false] at hdenied ⊢
      by_cases hw : b.arbiter.serial3Owner ≠ SERIAL3_IDLE ∧
          ulongSub t b.arbiter.serial3LastUsed > 5000
      · simp [hw] at hdenied
      · simp only [hw, if_false] at hdenied ⊢
        by_cases hi : b.arbiter.serial3Owner ≠ SERIAL3_IDLE
        · simp only [hi, not_false_eq_true, if_true] at hdenied ⊢
          by_cases ho : b.arbiter.serial3Owner = SERIAL3_UNO_SENSOR
          · simp [ho] at hdenied
          · simp only [ho, if_false] at hdenied ⊢
            by_cases hp : getPriority SERIAL3_UNO_SENSOR ≥ getPriority b.arbiter.serial3Owner
            · simp only [hp, if_true]
              rw [if_pos hi]
              exact ⟨rfl, fun h => h.1⟩
            · simp [hp] at hdenied
        · simp [hi] at hdenied
  have hacq : startAcquire b.arbiter (StartClock.const t) = (false, b.arbiter) := by
    unfold startAcquire
    simp only [StartClock.const, hreq.1, hreq.2, if_false, Bool.false_eq_true]
  refine ⟨hacq, ?_, ?_⟩
  · intro hidle
    unfold startUnoSensorRequest
    simp only [hpresent, hidle, hacq, ne_eq, not_true_eq_false, false_and, if_false,
      Bool.true_eq_false, Bool.false_eq_true]
    clear hacq hreq hdenied hcool
    cases b
    simp_all
  · intro hidle
    unfold startUnoStatusRequest
    simp only [hpresent, hidle, hacq, ne_eq, not_true_eq_false, false_and, if_false,
      Bool.true_eq_false, Bool.false_eq_true]
    clear hacq hreq hdenied hcool
    cases b
    simp_all

/-- Instance: the control requester holds the bus since 100 ms; a start at
200 ms is denied by priority and changes nothing. -/
theorem start_denied_does_nothing_witness :
    startUnoSensorRequest busHeldByControl (StartClock.const 200) = busHeldByControl ∧
    startUnoStatusRequest busHeldByControl (StartClock.const 200) = busHeldByControl :=
  ⟨(start_denied_does_nothing busHeldByControl 200 (by decide) (by decide) (by decide)).2.1
      (by decide),
   (start_denied_does_nothing busHeldByControl 200 (by decide) (by decide) (by decide)).2.2
      (by decide)⟩

/-! ## An unexpected response code -/

/-- Counterexample to claim C24 as stated: a single ACK_ERROR byte (0x81) in
the receive buffer, 100 ms after the start, leaves both polls pending: they
return true and change nothing. -/
theorem update_requests_one_error_byte_pending :
    updateUnoSensorRequest sensorSessionOneErrorByte 200 200
      = (true, sensorSessionOneErrorByte) ∧
    updateUnoStatusRequest statusSessionOneErrorByte 200 200 [] (fun _ => true)
      = (true, statusSessionOneErrorByte) := by
  decide

/-- Claim C24, amended. An unexpected response code is a protocol error once
the awaited number of bytes is there: whenever at least 8 bytes (sensor poll;
resp. at least 3 bytes, status poll) are available to a session in flight and
the leading byte is not 0x82 (resp. 0x83), the poll ends the session: it takes
that one byte, marks the data invalid, returns the session to Idle and releases
the bus, whatever the further bytes are. -/
theorem update_requests_unexpected_code (g : SensorSession) (b : ControlBus)
    (now relTime : Nat) (arriving : List Nat) (jsonOk : List Nat → Bool) :
    (g.unoRequestState ≠ UNO_IDLE → g.unoRequestState ≠ UNO_SENDING →
      8 ≤ g.rx.length → g.rx.getD 0 0 ≠ 0x82 →
      updateUnoSensorRequest g now relTime
        = (false, { g with
                    rx := g.rx.drop 1
                    unoRequestState := UNO_IDLE
                    arbiter := { g.arbiter with serial3Owner := SERIAL3_IDLE,
                                                serial3LastUsed := relTime }
                    unoSensorData := { g.unoSensorData with isValid := false } })) ∧
    (b.unoStatusRequestState ≠ UNO_IDLE → b.unoStatusRequestState ≠ UNO_SENDING →
      3 ≤ b.rx.length → b.rx.getD 0 0 ≠ 0x83 →
      updateUnoStatusRequest b now relTime arriving jsonOk
        = (false, { b with
                    rx := b.rx.drop 1
                    unoStatusRequestState := UNO_IDLE
                    arbiter := { b.arbiter with serial3Owner := SERIAL3_IDLE,
                                                serial3LastUsed := relTime }
                    unoNutrientStatusValid := false })) := by
  constructor
  · intro h1 h2 h8 hcode
    have h8' : g.rx.length ≥ 8 := h8
    have hc : ¬ (g.rx.getD 0 0 = ACK_SENSOR_DATA) := hcode
    unfold updateUnoSensorRequest
    cases hs : g.unoRequestState with
    | UNO_IDLE => exact absurd hs h1
    | UNO_SENDING => exact absurd hs h2
    | UNO_WAITING => simp only [h8', hc, if_true, if_false, releaseSerial3Access]
    | UNO_RECEIVING => simp only [h8', hc, if_true, if_false, releaseSerial3Access]
  · intro h1 h2 h3 hcode
    have h3' : b.rx.length ≥ 3 := h3
    have hc : ¬ (b.rx.getD 0 0 = ACK_STATUS_DATA) := hcode
    unfold updateUnoStatusRequest
    cases hs : b.unoStatusRequestState with
    | UNO_IDLE => exact absurd hs h1
    | UNO_SENDING => exact absurd hs h2
    | UNO_WAITING => simp only [h3', hc, if_true, if_false, releaseSerial3Access]
    | UNO_RECEIVING => simp only [h3', hc, if_true, if_false, releaseSerial3Access]

/-- Instance: eight bytes led by 0x81 for the sensor poll, three bytes led by
0x81 for the status poll. -/
theorem update_requests_unexpected_code_witness :
    updateUnoSensorRequest sensorSessionErrorFrame 200 200
      = (false, { sensorSessionErrorFrame with
                  rx := sensorSessionErrorFrame.rx.drop 1
                  unoRequestState := UNO_IDLE
                  arbiter := { sensorSessionErrorFrame.arbiter with
                               serial3Owner := SERIAL3_IDLE, serial3LastUsed := 200 }
                  unoSensorData := { sensorSessionErrorFrame.unoSensorData with
                                     isValid := false } }) ∧
    updateUnoStatusRequest statusSessionErrorFrame 200 200 [] (fun _ => true)
      = (false, { statusSessionErrorFrame with
                  rx := statusSessionErrorFrame.rx.drop 1
                  unoStatusRequestState := UNO_IDLE
                  arbiter := { statusSessionErrorFrame.arbiter with
                               serial3Owner := SERIAL3_IDLE, serial3LastUsed := 200 }
                  unoNutrientStatusValid := false }) :=
  ⟨(update_requests_unexpected_code sensorSessionErrorFrame statusSessionErrorFrame 200 200 []
      (fun _ => true)).1 (by decide) (by decide) (by decide) (by decide),
   (update_requests_unexpected_code sensorSessionErrorFrame statusSessionErrorFrame 200 200 []
      (fun _ => true)).2 (by decide) (by decide) (by decide) (by decide)⟩

/-! ## Frames back to back -/

theorem ulongSub_self (a : Nat) : ulongSub a a = 0 := by
  unfold ulongSub
  omega

/-- The intake loop on a complete CRC-valid frame, from an empty rolling
buffer: the frame is handed to the registry step and the buffer is empty
again. -/
theorem foldl_pushByte_frame (s : PushIngester) (addr fc : Nat) (payload : List Nat)
    (now : Nat) (hbuf : s.buf = [])
    (hn : payload.length ≤ 250) (ha : addr < 256) (hfc : fc < 256)
    (hp : ∀ p ∈ payload, p < 256) :
    (pushFrameBytes addr fc payload).foldl (fun st byte => pushByte st byte now) s
      = { buf := [], lastByte := now,
          reg := if fc = 0x03 then
                   pushFrame s.reg (pushFrameBytes addr fc payload) payload.length now
                 else s.reg } := by
  have key : pollUnoPushFrames s (pushFrameBytes addr fc payload) now
      ((pushFrameBytes addr fc payload).foldl (fun st byte => pushByte st byte now) s).lastByte
      = (pushFrameBytes addr fc payload).foldl (fun st byte => pushByte st byte now) s := by
    unfold pollUnoPushFrames
    simp only [ulongSub_self, gt_iff_lt, Nat.not_lt_zero, and_false, if_false]
  rw [← key]
  exact pollUnoPushFrames_frame s addr fc payload now _ hbuf hn ha hfc hp

/-- A call of the ingester on an empty buffer whose intake ends with an empty
buffer returns what the intake loop left. -/
theorem pollUnoPushFrames_of_foldl (s t : PushIngester) (input : List Nat) (now endNow : Nat)
    (h : input.foldl (fun st byte => pushByte st byte now) s = t) (ht : t.buf = []) :
    pollUnoPushFrames s input now endNow = t := by
  unfold pollUnoPushFrames
  simp only [h, ht, List.length_nil, gt_iff_lt, Nat.lt_irrefl, false_and, if_false]

theorem pushFrame_count_le (r : Registry) (buf : List Nat) (byteCount now : Nat) :
    (pushFrame r buf byteCount now).modbusSlaveCount ≤ r.modbusSlaveCount + 1 ∧
    (findSlave r (buf.getD 0 0) ≠ none →
      (pushFrame r buf byteCount now).modbusSlaveCount = r.modbusSlaveCount) := by
  cases hf : findSlave r (buf.getD 0 0) with
  | some i =>
    rw [pushFrame_found r buf byteCount now i hf]
    exact ⟨Nat.le_succ _, fun _ => rfl⟩
  | none =>
    refine ⟨?_, fun h => absurd rfl h⟩
    by_cases hroom : r.modbusSlaveCount < 10
    · have hc : ¬ r.modbusSlaveCount ≥ MAX_MODBUS_SLAVES := by unfold MAX_MODBUS_SLAVES; omega
      have hc2 : r.modbusSlaveCount < MAX_MODBUS_SLAVES := by unfold MAX_MODBUS_SLAVES; omega
      unfold pushFrame
      simp only [hf, hc2, and_self, if_true, addDiscoveredSensor, hc, if_false,
        Option.isSome_none, Bool.false_eq_true]
      exact Nat.le_refl _
    · rw [pushFrame_full r buf byteCount now hf hroom]
      exact Nat.le_succ _

/-- After a push frame was handed to the registry step, its address is found
unless the registry was full without it. -/
theorem findSlave_pushFrame (r : Registry) (buf : List Nat) (byteCount now : Nat)
    (hlen : r.modbusSensors.length = 10) (hcount : r.modbusSlaveCount ≤ 10)
    (h : findSlave r (buf.getD 0 0) ≠ none ∨ r.modbusSlaveCount < 10) :
    findSlave (pushFrame r buf byteCount now) (buf.getD 0 0) ≠ none := by
  intro hnone
  have hall := findSlave_none _ _ hnone
  cases hf : findSlave r (buf.getD 0 0) with
  | some i =>
    have hi := findSlave_some r _ i hf
    rw [pushFrame_found r buf byteCount now i hf] at hall
    have := hall i hi.1
    simp only [getD_set_self _ _ _ _ (show i < r.modbusSensors.length by omega)] at this
    exact this hi.2
  | none =>
    have hroom : r.modbusSlaveCount < 10 := by
      rcases h with h | h
      · exact absurd hf h
      · exact h
    rw [pushFrame_new r buf byteCount now hf hroom hlen] at hall
    have := hall r.modbusSlaveCount (Nat.lt_succ_self _)
    simp only [getD_set_self _ _ _ _ (show r.modbusSlaveCount < r.modbusSensors.length by omega)]
      at this
    exact this rfl

/-- Claim C25. Back-to-back frames are both processed: for all CRC-valid push
frames f1 and f2 (total length at most 255 bytes), feeding f1 ++ f2 in a single
call of pollUnoPushFrames on an empty buffer yields the same registry and the
same empty buffer as feeding f1 in one call and f2 in the next at the same
times; in particular with f1 = f2 (function code 3) the registry step is run
twice on that frame and the registry gains at most one record. -/
theorem pollUnoPushFrames_back_to_back (s : PushIngester) (addr1 fc1 addr2 fc2 : Nat)
    (p1 p2 : List Nat) (now endNow : Nat) (hbuf : s.buf = [])
    (htotal : (pushFrameBytes addr1 fc1 p1 ++ pushFrameBytes addr2 fc2 p2).length ≤ 255)
    (ha1 : addr1 < 256) (hfc1 : fc1 < 256) (hp1 : ∀ p ∈ p1, p < 256)
    (ha2 : addr2 < 256) (hfc2 : fc2 < 256) (hp2 : ∀ p ∈ p2, p < 256) :
    pollUnoPushFrames s (pushFrameBytes addr1 fc1 p1 ++ pushFrameBytes addr2 fc2 p2) now endNow
      = pollUnoPushFrames (pollUnoPushFrames s (pushFrameBytes addr1 fc1 p1) now endNow)
          (pushFrameBytes addr2 fc2 p2) now endNow ∧
    (pollUnoPushFrames s (pushFrameBytes addr1 fc1 p1 ++ pushFrameBytes addr2 fc2 p2)
      now endNow).buf = [] ∧
    (addr2 = addr1 → fc1 = 0x03 → fc2 = 0x03 → p2 = p1 →
      s.reg.modbusSensors.length = 10 → s.reg.modbusSlaveCount ≤ 10 →
      (pollUnoPushFrames s (pushFrameBytes addr1 fc1 p1 ++ pushFrameBytes addr2 fc2 p2)
        now endNow).reg
        = pushFrame (pushFrame s.reg (pushFrameBytes addr1 0x03 p1) p1.length now)
            (pushFrameBytes addr1 0x03 p1) p1.length now ∧
      (pollUnoPushFrames s (pushFrameBytes addr1 fc1 p1 ++ pushFrameBytes addr2 fc2 p2)
        now endNow).reg.modbusSlaveCount ≤ s.reg.modbusSlaveCount + 1) := by
  have hl1 : (pushFrameBytes addr1 fc1 p1).length = p1.length + 5 := by
    simp [pushFrameBytes]
  have hl2 : (pushFrameBytes addr2 fc2 p2).length = p2.length + 5 := by
    simp [pushFrameBytes]
  rw [List.length_append, hl1, hl2] at htotal
  have hn1 : p1.length ≤ 250 := by omega
  have hn2 : p2.length ≤ 250 := by omega
  have hcall1 := pollUnoPushFrames_frame s addr1 fc1 p1 now endNow hbuf hn1 ha1 hfc1 hp1
  have hfold1 := foldl_pushByte_frame s addr1 fc1 p1 now hbuf hn1 ha1 hfc1 hp1
  have hboth : pollUnoPushFrames s (pushFrameBytes addr1 fc1 p1 ++ pushFrameBytes addr2 fc2 p2)
      now endNow
      = { buf := [], lastByte := now,
          reg := if fc2 = 0x03 then
                   pushFrame (if fc1 = 0x03 then
                       pushFrame s.reg (pushFrameBytes addr1 fc1 p1) p1.length now
                     else s.reg) (pushFrameBytes addr2 fc2 p2) p2.length now
                 else (if fc1 = 0x03 then
                       pushFrame s.reg (pushFrameBytes addr1 fc1 p1) p1.length now
                     else s.reg) } := by
    apply pollUnoPushFrames_of_foldl _ _ _ _ _ _ rfl
    rw [List.foldl_append, hfold1]
    exact foldl_pushByte_frame _ addr2 fc2 p2 now rfl hn2 ha2 hfc2 hp2
  refine ⟨?_, ?_, ?_⟩
  · rw [hboth, hcall1]
    rw [pollUnoPushFrames_frame
      { buf := [], lastByte := now,
        reg := if fc1 = 0x03 then pushFrame s.reg (pushFrameBytes addr1 fc1 p1) p1.length now
               else s.reg }
      addr2 fc2 p2 now endNow rfl hn2 ha2 hfc2 hp2]
  · rw [hboth]
  · intro haddr h1 h2 hpay hlen hcount
    subst haddr hpay h1 h2
    rw [hboth]
    simp only [if_true]
    refine ⟨trivial, ?_⟩
    have h0 : (pushFrameBytes addr2 0x03 p2).getD 0 0 = addr2 := rfl
    have hfirst := pushFrame_count_le s.reg (pushFrameBytes addr2 0x03 p2) p2.length now
    have hsecond := pushFrame_count_le
      (pushFrame s.reg (pushFrameBytes addr2 0x03 p2) p2.length now)
      (pushFrameBytes addr2 0x03 p2) p2.length now
    by_cases hroom : findSlave s.reg ((pushFrameBytes addr2 0x03 p2).getD 0 0) ≠ none
        ∨ s.reg.modbusSlaveCount < 10
    · have hfound := findSlave_pushFrame s.reg (pushFrameBytes addr2 0x03 p2) p2.length now
        hlen hcount hroom
      have := hsecond.2 hfound
      show (pushFrame (pushFrame s.reg (pushFrameBytes addr2 0x03 p2) p2.length now)
        (pushFrameBytes addr2 0x03 p2) p2.length now).modbusSlaveCount ≤ _
      omega
    · have hnone : findSlave s.reg ((pushFrameBytes addr2 0x03 p2).getD 0 0) = none := by
        by_contra hx
        exact hroom (Or.inl hx)
      have hfull : ¬ s.reg.modbusSlaveCount < 10 := fun hx => hroom (Or.inr hx)
      show (pushFrame (pushFrame s.reg (pushFrameBytes addr2 0x03 p2) p2.length now)
        (pushFrameBytes addr2 0x03 p2) p2.length now).modbusSlaveCount ≤ _
      rw [pushFrame_full s.reg _ _ _ hnone hfull, pushFrame_full s.reg _ _ _ hnone hfull]
      exact Nat.le_succ _

/-- Instance: the frame from address 22 twice in one call at start-up; the
registry ends with one record. -/
theorem pollUnoPushFrames_back_to_back_witness :
    pollUnoPushFrames ingesterEmpty (scd41Frame ++ scd41Frame) 100 100
      = pollUnoPushFrames (pollUnoPushFrames ingesterEmpty scd41Frame 100 100) scd41Frame
          100 100 ∧
    (pollUnoPushFrames ingesterEmpty (scd41Frame ++ scd41Frame) 100 100).reg.modbusSlaveCount
      ≤ ingesterEmpty.reg.modbusSlaveCount + 1 :=
  ⟨(pollUnoPushFrames_back_to_back ingesterEmpty 22 0x03 22 0x03 [0x00, 0x05, 0x00, 0x06]
      [0x00, 0x05, 0x00, 0x06] 100 100 rfl (by decide) (by decide) (by decide) (by decide)
      (by decide) (by decide) (by decide)).1,
   ((pollUnoPushFrames_back_to_back ingesterEmpty 22 0x03 22 0x03 [0x00, 0x05, 0x00, 0x06]
      [0x00, 0x05, 0x00, 0x06] 100 100 rfl (by decide) (by decide) (by decide) (by decide)
      (by decide) (by decide) (by decide)).2.2 rfl rfl rfl rfl (by decide) (by decide)).2⟩

/-! ## A truncated frame -/

/-- Counterexample to claim C26 as stated: the first two bytes of a frame are
buffered at 0 ms; a call at 10 ms with nothing to read keeps them (not yet
stale); no byte arrives until 1000 ms, when the complete CRC-valid frame
arrives and the next call takes it in: its bytes are appended to the stale
prefix, the registry stays empty and eleven bytes stay buffered, whereas on an
empty buffer the same call registers the sensor. -/
theorem pollUnoPushFrames_appends_to_stale_bytes :
    ingesterWithTwoBytes.buf = [22, 0x03] ∧ ingesterWithTwoBytes.lastByte = 0 ∧
    pollUnoPushFrames ingesterWithTwoBytes [] 10 10 = ingesterWithTwoBytes ∧
    (pollUnoPushFrames ingesterWithTwoBytes scd41Frame 1000 1000).reg = Registry.empty ∧
    (pollUnoPushFrames ingesterWithTwoBytes scd41Frame 1000 1000).buf
      = [22, 0x03] ++ scd41Frame ∧
    (pollUnoPushFrames ingesterEmpty scd41Frame 1000 1000).reg.modbusSlaveCount = 1 ∧
    (pollUnoPushFrames ingesterEmpty scd41Frame 1000 1000).buf = [] := by
  decide

/-- Claim C26, amended. Ingester resilience to truncation: if a proper prefix
of a frame has been buffered and no further byte arrives for more than 20 ms,
then a call of pollUnoPushFrames that finds no byte to read and ends more than
20 ms after the last byte discards the stale prefix (registry and time stamp
unchanged), and the next CRC-valid frame that arrives after that call is
decoded exactly as it would be on an empty buffer. -/
theorem pollUnoPushFrames_discards_stale_bytes (s : PushIngester) (addr fc : Nat)
    (payload : List Nat) (idleNow idleEnd now endNow : Nat)
    (hstale : ulongSub idleEnd s.lastByte > 20)
    (hn : payload.length ≤ 250) (ha : addr < 256) (hfc : fc < 256)
    (hp : ∀ p ∈ payload, p < 256) :
    pollUnoPushFrames s [] idleNow idleEnd = { s with buf := [] } ∧
    pollUnoPushFrames (pollUnoPushFrames s [] idleNow idleEnd)
        (pushFrameBytes addr fc payload) now endNow
      = pollUnoPushFrames { s with buf := [] } (pushFrameBytes addr fc payload) now endNow ∧
    pollUnoPushFrames (pollUnoPushFrames s [] idleNow idleEnd)
        (pushFrameBytes addr fc payload) now endNow
      = { buf := [], lastByte := now,
          reg := if fc = 0x03 then
                   pushFrame s.reg (pushFrameBytes addr fc payload) payload.length now
                 else s.reg } := by
  have hidle : pollUnoPushFrames s [] idleNow idleEnd = { s with buf := [] } := by
    unfold pollUnoPushFrames
    simp only [List.foldl_nil, hstale, and_true]
    by_cases hb : s.buf.length > 0
    · simp only [hb, if_true]
    · have : s.buf = [] := List.length_eq_zero.mp (by omega)
      simp only [hb, if_false]
      cases s
      simp_all
  refine ⟨hidle, by rw [hidle], ?_⟩
  rw [hidle]
  exact pollUnoPushFrames_frame { s with buf := [] } addr fc payload now endNow rfl hn ha hfc hp

/-- Instance: the two buffered bytes, an idle call at 30 ms, the frame at
1000 ms. -/
theorem pollUnoPushFrames_discards_stale_bytes_witness :
    (pollUnoPushFrames (pollUnoPushFrames ingesterWithTwoBytes [] 30 30) scd41Frame 1000 1000)
      = { buf := [], lastByte := 1000,
          reg := if 0x03 = 0x03 then
                   pushFrame ingesterWithTwoBytes.reg scd41Frame [0x00, 0x05, 0x00, 0x06].length 1000
                 else ingesterWithTwoBytes.reg } :=
  (pollUnoPushFrames_discards_stale_bytes ingesterWithTwoBytes 22 0x03 [0x00, 0x05, 0x00, 0x06]
    30 30 1000 1000 (by decide) (by decide) (by decide) (by decide) (by decide)).2.2

/-! ## The bitmask of the multi-relay command -/

theorem multiRelayBitmask_foldl_testBit (c : Nat) (hc : c < 8) :
    ∀ (channels : List Nat) (acc : Nat),
      (channels.foldl
        (fun bitmask channel =>
          if channel < 10 then (bitmask ||| (1 <<< channel)) % 256 else bitmask) acc).testBit c
        = (acc.testBit c || decide (c ∈ channels)) := by
  intro channels
  induction channels with
  | nil => intro acc; simp
  | cons ch rest ih =>
    intro acc
    rw [List.foldl_cons, ih]
    by_cases h10 : ch < 10
    · simp only [h10, if_true]
      rw [show (256 : Nat) = 2 ^ 8 from rfl, Nat.testBit_mod_two_pow, Nat.testBit_or,
        Nat.one_shiftLeft, Nat.testBit_two_pow]
      by_cases hcc : ch = c
      · subst hcc; simp [hc]
      · have hcc2 : ¬ c = ch := fun h => hcc h.symm
        simp [hc, hcc, hcc2]
    · simp only [h10, if_false]
      have hcc2 : ¬ c = ch := by omega
      simp [hcc2]

/-- For the channels 0..7 the bitmask byte is what the specification says: bit
`c` is set exactly when `c` is listed. -/
theorem multiRelayBitmask_testBit (channels : List Nat) (c : Nat) (hc : c < 8) :
    (multiRelayBitmask channels).testBit c = decide (c ∈ channels) := by
  unfold multiRelayBitmask
  rw [multiRelayBitmask_foldl_testBit c hc]
  simp

/-- The bitmask is one byte: no bit from 8 on is ever set. -/
theorem multiRelayBitmask_high_bits (channels : List Nat) (c : Nat) (hc : 8 ≤ c) :
    (multiRelayBitmask channels).testBit c = false := by
  have hlt : ∀ (l : List Nat) (acc : Nat), acc < 256 →
      l.foldl (fun bitmask channel =>
        if channel < 10 then (bitmask ||| (1 <<< channel)) % 256 else bitmask) acc < 256 := by
    intro l
    induction l with
    | nil => intro acc h; exact h
    | cons ch rest ih =>
      intro acc h
      rw [List.foldl_cons]
      apply ih
      split_ifs
      · exact Nat.mod_lt _ (by decide)
      · exact h
  have h256 : multiRelayBitmask channels < 2 ^ 8 := hlt channels 0 (by decide)
  exact Nat.testBit_lt_two_pow (lt_of_lt_of_le h256 (Nat.pow_le_pow_right (by decide) hc))

/-- Claim C28 at the input that shows the defect: for the channel list [8] the
bitmask byte built by handleMultiRelayCommand is 0, the frame sent for "ON" is
0x30 0x00 0x0A, and no bit of the transmitted byte stands for channel 8; the
same holds for channel 9, while channel 7 sets bit 7. -/
theorem handleMultiRelayCommand_drops_channel_8 :
    multiRelayBitmask [8] = 0 ∧
    (handleMultiRelayCommand controlBusReady MultiAction.ON [8] [0x80]).2.tx = [0x30, 0x00, 0x0A] ∧
    (multiRelayBitmask [8]).testBit 8 = false ∧
    multiRelayBitmask [9] = 0 ∧
    multiRelayBitmask [0, 8, 9] = 1 ∧
    multiRelayBitmask [7] = 128 := by
  decide

/-! ## Reading registers as a master -/

/-- What a true result of `readModbusRegisters` does guarantee: at least five
bytes were received, their CRC matches, the first is the slave address and the
function code carries no exception bit. -/
theorem readModbusRegisters_true (slaveAddr startAddr count : Nat)
    (data stale incoming : List Nat)
    (h : (readModbusRegisters slaveAddr startAddr count data stale incoming).1 = true) :
    5 ≤ (receiveResponse incoming [] 0).length ∧
    sendModbusRequestCheck (receiveResponse incoming [] 0) (receiveResponse incoming [] 0).length
      = true ∧
    (receiveResponse incoming [] 0).getD 0 0 = slaveAddr ∧
    (receiveResponse incoming [] 0).getD 1 0 &&& 0x80 = 0 := by
  unfold readModbusRegisters sendModbusRequest at h
  simp only at h
  split_ifs at h with hchk hshort haddr hexc
  · have h5 : 5 ≤ (receiveResponse incoming [] 0).length := by omega
    have g0 : ((receiveResponse incoming [] 0)
        ++ stale.drop (receiveResponse incoming [] 0).length).getD 0 0
        = (receiveResponse incoming [] 0).getD 0 0 :=
      List.getD_append _ _ _ _ (by omega)
    have g1 : ((receiveResponse incoming [] 0)
        ++ stale.drop (receiveResponse incoming [] 0).length).getD 1 0
        = (receiveResponse incoming [] 0).getD 1 0 :=
      List.getD_append _ _ _ _ (by omega)
    rw [g0] at haddr
    rw [g1] at hexc
    exact ⟨h5, hchk, not_not.mp haddr, not_not.mp hexc⟩

/-- Claim C29 at the input that shows the defect: three registers are asked of
slave 1 and the answer `01 03 02 12 34 B5 33` carries one; the CRC matches, so
sendModbusRequest returns true with respLen = 7 and readModbusRegisters returns
true; data[0] = 0x1234 comes from the payload, data[1] = 0xB533 is made of the
two CRC bytes (4 + 2*1 = 6 is not below respLen - 2 = 5) and data[2] = 0xAAAA
is made of response[7] and response[8], which were never received and hold
what the array held before the call. -/
theorem readModbusRegisters_reads_past_payload :
    oneRegisterAnswer = [1, 0x03, 2, 0x12, 0x34, 0xB5, 0x33] ∧
    (sendModbusRequest 1 0x03 0 3 oneRegisterAnswer).2
      = (true, [1, 0x03, 2, 0x12, 0x34, 0xB5, 0x33]) ∧
    readModbusRegisters 1 0 3 [0, 0, 0] (List.replicate 50 0xAA) oneRegisterAnswer
      = (true, [0x1234, 0xB533, 0xAAAA]) ∧
    ¬ (4 + 2 * 1 < (sendModbusRequest 1 0x03 0 3 oneRegisterAnswer).2.2.length - 2) := by
  decide

/-! ## Array accesses of the ingester -/

theorem all_inBounds_append (xs ys : List Access)
    (hx : ∀ a ∈ xs, a.inBounds = true) (hy : ∀ a ∈ ys, a.inBounds = true) :
    ∀ a ∈ xs ++ ys, a.inBounds = true := by
  intro a ha
  rcases List.mem_append.mp ha with h | h
  · exact hx a h
  · exact hy a h

theorem calcCRC16Accesses_inBounds (len n : Nat) (h : n ≤ len) :
    ∀ a ∈ calcCRC16Accesses len n, a.inBounds = true := by
  intro a ha
  simp only [calcCRC16Accesses, List.mem_map, List.mem_range] at ha
  obtain ⟨i, hi, rfl⟩ := ha
  simp only [Access.inBounds, decide_eq_true_eq]
  omega

theorem rawDumpAccesses_inBounds (len frameLen : Nat) (h : frameLen ≤ len) :
    ∀ a ∈ rawDumpAccesses len frameLen, a.inBounds = true := by
  intro a ha
  simp only [rawDumpAccesses, List.mem_map, List.mem_range] at ha
  obtain ⟨i, hi, rfl⟩ := ha
  simp only [Access.inBounds, decide_eq_true_eq]
  omega

theorem findSlaveAccesses_inBounds (r : Registry) (id : Nat) (hcount : r.modbusSlaveCount ≤ 10) :
    ∀ a ∈ findSlaveAccesses r id, a.inBounds = true := by
  intro a ha
  unfold findSlaveAccesses at ha
  cases hf : findSlave r id with
  | some i =>
    have hi := (findSlave_some r id i hf).1
    simp only [hf, List.mem_map, List.mem_range] at ha
    obtain ⟨j, hj, rfl⟩ := ha
    simp only [Access.inBounds, decide_eq_true_eq]
    omega
  | none =>
    simp only [hf, List.mem_map, List.mem_range] at ha
    obtain ⟨j, hj, rfl⟩ := ha
    simp only [Access.inBounds, decide_eq_true_eq]
    omega

theorem addDiscoveredSensorAccesses_inBounds (r : Registry) (id : Nat)
    (hcount : r.modbusSlaveCount ≤ 10) :
    ∀ a ∈ addDiscoveredSensorAccesses r id, a.inBounds = true := by
  unfold addDiscoveredSensorAccesses
  by_cases hfull : r.modbusSlaveCount ≥ MAX_MODBUS_SLAVES
  · simp only [hfull, if_true]
    intro a ha
    simp at ha
  · simp only [hfull, if_false]
    apply all_inBounds_append _ _ (findSlaveAccesses_inBounds r id hcount)
    intro a ha
    by_cases hs : (findSlave r id).isSome = true
    · simp [hs] at ha
    · simp only [hs, if_false, List.mem_singleton, Bool.false_eq_true] at ha
      subst ha
      unfold MAX_MODBUS_SLAVES at hfull
      simp only [Access.inBounds, decide_eq_true_eq]
      omega

theorem copyRegistersAccesses_inBounds (len idx count regCount : Nat)
    (hlen : 2 * min regCount 10 + 3 ≤ len) (hidx : idx < count) (hcount : count ≤ 10) :
    ∀ a ∈ copyRegistersAccesses len idx count regCount, a.inBounds = true := by
  intro a ha
  simp only [copyRegistersAccesses, List.mem_flatten, List.mem_map, List.mem_range] at ha
  obtain ⟨l, ⟨k, hk, rfl⟩, hal⟩ := ha
  simp only [List.mem_cons, List.mem_singleton, List.not_mem_nil, or_false] at hal
  rcases hal with h | h | h | h <;> subst h <;>
    simp only [Access.inBounds, decide_eq_true_eq] <;> omega

theorem printedRegisters_lt (t regCount : Nat) : ∀ k ∈ printedRegisters t regCount, k < 10 := by
  intro k hk
  unfold printedRegisters at hk
  split_ifs at hk <;> simp at hk <;> omega

theorem addDiscoveredSensor_count (r : Registry) (id type : Nat) (typeName : String) (now : Nat)
    (hnone : findSlave r id = none) (hroom : r.modbusSlaveCount < MAX_MODBUS_SLAVES) :
    (addDiscoveredSensor r id type typeName now).modbusSlaveCount = r.modbusSlaveCount + 1 := by
  have hc : ¬ r.modbusSlaveCount ≥ MAX_MODBUS_SLAVES := by omega
  unfold addDiscoveredSensor
  simp only [hc, if_false, hnone, Option.isSome_none, Bool.false_eq_true]

theorem pushFrameAccesses_inBounds (r : Registry) (buf : List Nat) (byteCount now : Nat)
    (hcount : r.modbusSlaveCount ≤ 10) (hframe : byteCount + 5 ≤ buf.length) :
    ∀ a ∈ pushFrameAccesses r buf byteCount now, a.inBounds = true := by
  have hcopy : ∀ idx count, idx < count → count ≤ 10 →
      ∀ a ∈ copyRegistersAccesses buf.length idx count ((byteCount / 2) % 256)
            ++ [Access.registryIndex idx count, Access.registryIndex idx count]
            ++ rawDumpAccesses buf.length (byteCount + 5)
            ++ ((printedRegisters ((pushTypeOf (splitCombinedId (buf.getD 0 0)).1).1)
                  ((byteCount / 2) % 256)).map (fun k =>
                  [Access.registryIndex idx count, Access.regsIndex k])).flatten,
        a.inBounds = true := by
    intro idx count hidx hc
    apply all_inBounds_append
    · apply all_inBounds_append
      · apply all_inBounds_append
        · apply copyRegistersAccesses_inBounds _ _ _ _ _ hidx hc
          have : byteCount / 2 % 256 ≤ byteCount / 2 := Nat.mod_le _ _
          omega
        · intro a ha
          simp only [List.mem_cons, List.mem_singleton, List.not_mem_nil, or_false, or_self] at ha
          subst ha
          simp only [Access.inBounds, decide_eq_true_eq]
          omega
      · exact rawDumpAccesses_inBounds _ _ hframe
    · intro a ha
      simp only [List.mem_flatten, List.mem_map] at ha
      obtain ⟨l, ⟨k, hk, rfl⟩, hal⟩ := ha
      have hk10 := printedRegisters_lt _ _ k hk
      simp only [List.mem_cons, List.mem_singleton, List.not_mem_nil, or_false] at hal
      rcases hal with h | h <;> subst h <;>
        simp only [Access.inBounds, decide_eq_true_eq] <;> omega
  unfold pushFrameAccesses
  cases hf : findSlave r (buf.getD 0 0) with
  | some i =>
    have hi := (findSlave_some r _ i hf).1
    simp only [hf, reduceCtorEq, false_and, if_false, List.append_nil]
    apply all_inBounds_append _ _ (findSlaveAccesses_inBounds r _ hcount)
    exact hcopy i r.modbusSlaveCount hi hcount
  | none =>
    by_cases hroom : r.modbusSlaveCount < MAX_MODBUS_SLAVES
    · have hc1 := addDiscoveredSensor_count r (buf.getD 0 0)
        (pushTypeOf (splitCombinedId (buf.getD 0 0)).1).1
        (pushTypeOf (splitCombinedId (buf.getD 0 0)).1).2 now hf hroom
      simp only [hf, hroom, and_self, if_true, hc1, Nat.add_sub_cancel]
      apply all_inBounds_append
      · exact all_inBounds_append _ _ (findSlaveAccesses_inBounds r _ hcount)
          (addDiscoveredSensorAccesses_inBounds r _ hcount)
      · unfold MAX_MODBUS_SLAVES at hroom
        exact hcopy r.modbusSlaveCount (r.modbusSlaveCount + 1) (Nat.lt_succ_self _) (by omega)
    · simp only [hf, hroom, and_false, if_false, List.append_nil]
      exact findSlaveAccesses_inBounds r _ hcount

theorem pushFrame_count_le_ten (r : Registry) (buf : List Nat) (byteCount now : Nat)
    (hcount : r.modbusSlaveCount ≤ 10) :
    (pushFrame r buf byteCount now).modbusSlaveCount ≤ 10 := by
  cases hf : findSlave r (buf.getD 0 0) with
  | some i =>
    rw [pushFrame_found r buf byteCount now i hf]
    exact hcount
  | none =>
    by_cases hroom : r.modbusSlaveCount < 10
    · have hroom2 : r.modbusSlaveCount < MAX_MODBUS_SLAVES := by unfold MAX_MODBUS_SLAVES; omega
      have hc1 := addDiscoveredSensor_count r (buf.getD 0 0)
        (pushTypeOf (splitCombinedId (buf.getD 0 0)).1).1
        (pushTypeOf (splitCombinedId (buf.getD 0 0)).1).2 now hf hroom2
      unfold pushFrame
      simp only [hf, hroom2, and_self, if_true, hc1]
      show r.modbusSlaveCount + 1 ≤ 10
      omega
    · rw [pushFrame_full r buf byteCount now hf hroom]
      exact hcount

theorem processFramesAccesses_short (fuel : Nat) (s : PushIngester) (now : Nat)
    (h : s.buf.length < 3) : processFramesAccesses fuel s now = [] := by
  cases fuel with
  | zero => rfl
  | succ fuel =>
    have : ¬ s.buf.length ≥ 3 := by omega
    simp only [processFramesAccesses, this, if_false]

theorem processFramesAccesses_incomplete (fuel : Nat) (s : PushIngester) (now : Nat)
    (h3 : 3 ≤ s.buf.length) (h : s.buf.length < s.buf.getD 2 0 + 5) :
    processFramesAccesses (fuel + 1) s now = [Access.bufRead 2 s.buf.length] := by
  have hge : s.buf.length ≥ 3 := h3
  simp only [processFramesAccesses, hge, h, if_true]

/-- The subscripts of one turn of the loop on a buffer that starts with a
complete frame, followed by those of the turns on the rest. -/
theorem processFramesAccesses_step (fuel : Nat) (s : PushIngester) (now : Nat)
    (h3 : 3 ≤ s.buf.length) (hfull : s.buf.getD 2 0 + 5 ≤ s.buf.length)
    (h255 : s.buf.length ≤ 255) :
    processFramesAccesses (fuel + 1) s now
      = [Access.bufRead 2 s.buf.length,
          Access.bufRead (s.buf.getD 2 0 + 5 - 1) s.buf.length,
          Access.bufRead (s.buf.getD 2 0 + 5 - 2) s.buf.length]
        ++ calcCRC16Accesses s.buf.length ((s.buf.getD 2 0 + 5 - 2) % 256)
        ++ (if sendModbusRequestCheck s.buf (s.buf.getD 2 0 + 5) = true then
              [Access.bufRead 0 s.buf.length, Access.bufRead 1 s.buf.length]
                ++ (if s.buf.getD 1 0 = 0x03 then
                      pushFrameAccesses s.reg s.buf (s.buf.getD 2 0) now
                    else [])
            else Access.bufRead 0 s.buf.length
              :: rawDumpAccesses s.buf.length (s.buf.getD 2 0 + 5))
        ++ ((List.range ((s.buf.length - (s.buf.getD 2 0 + 5)) % 256)).map (fun j =>
              [Access.bufRead (s.buf.getD 2 0 + 5 + j) s.buf.length,
               Access.bufWrite j])).flatten
        ++ processFramesAccesses fuel
            { s with
              reg :=
                if sendModbusRequestCheck s.buf (s.buf.getD 2 0 + 5) = true then
                  (if s.buf.getD 1 0 = 0x03 then
                     pushFrame s.reg s.buf (s.buf.getD 2 0) now
                   else s.reg)
                else s.reg
              buf := s.buf.drop (s.buf.getD 2 0 + 5) } now := by
  have hge : s.buf.length ≥ 3 := h3
  have hnlt : ¬ s.buf.length < s.buf.getD 2 0 + 5 := by omega
  have hngt : ¬ s.buf.getD 2 0 + 5 > s.buf.length := by omega
  have hrem : (s.buf.length - (s.buf.getD 2 0 + 5)) % 256
      = (s.buf.drop (s.buf.getD 2 0 + 5)).length := by
    rw [List.length_drop]
    omega
  have h5 : ¬ s.buf.getD 2 0 + 5 < 5 := by omega
  simp only [processFramesAccesses, hge, hnlt, hngt, if_true, if_false, hrem,
    List.take_length, sendModbusRequestCheck, h5, beq_iff_eq, ge_iff_le,
    Nat.le_add_left, and_true]

/-- The list of subscripts does not depend on the bound of the loop once the
bound is at least `len`: the bound used by `pushByteAccesses` cuts nothing
off. -/
theorem processFramesAccesses_fuel_succ (now : Nat) : ∀ (fuel : Nat) (s : PushIngester),
    s.buf.length ≤ fuel → 3 ≤ s.buf.length → s.buf.length ≤ 255 →
    processFramesAccesses (fuel + 1) s now = processFramesAccesses fuel s now := by
  intro fuel
  induction fuel with
  | zero => intro s h h3 _; omega
  | succ fuel ih =>
    intro s h h3 h255
    by_cases hfull : s.buf.getD 2 0 + 5 ≤ s.buf.length
    · rw [processFramesAccesses_step (fuel + 1) s now h3 hfull h255,
        processFramesAccesses_step fuel s now h3 hfull h255]
      congr 1
      by_cases hrest : 3 ≤ (s.buf.drop (s.buf.getD 2 0 + 5)).length
      · apply ih
        · show (s.buf.drop (s.buf.getD 2 0 + 5)).length ≤ fuel
          rw [List.length_drop]; omega
        · exact hrest
        · show (s.buf.drop (s.buf.getD 2 0 + 5)).length ≤ 255
          rw [List.length_drop]; omega
      · rw [processFramesAccesses_short _ _ now (by
            show (s.buf.drop (s.buf.getD 2 0 + 5)).length < 3
            omega),
          processFramesAccesses_short _ _ now (by
            show (s.buf.drop (s.buf.getD 2 0 + 5)).length < 3
            omega)]
    · rw [processFramesAccesses_incomplete _ s now h3 (by omega),
        processFramesAccesses_incomplete _ s now h3 (by omega)]

/-- Enough fuel for the list of subscripts: every bound of at least `len`
gives the list of the bound `len`. -/
theorem processFramesAccesses_enough_fuel (now : Nat) (s : PushIngester)
    (h255 : s.buf.length ≤ 255) :
    ∀ extra : Nat, processFramesAccesses (s.buf.length + extra) s now
      = processFramesAccesses s.buf.length s now := by
  intro extra
  induction extra with
  | zero => rfl
  | succ extra ih =>
    rw [← ih]
    by_cases h3 : 3 ≤ s.buf.length
    · exact processFramesAccesses_fuel_succ now (s.buf.length + extra) s (by omega) h3 h255
    · rw [processFramesAccesses_short _ s now (by omega),
        processFramesAccesses_short _ s now (by omega)]

/-- The loop over the complete frames keeps the buffer within 255 bytes and
the count within the ten slots, and every subscript it evaluates is inside. -/
theorem processFrames_inBounds (now : Nat) : ∀ (fuel : Nat) (s : PushIngester),
    s.buf.length ≤ 255 → s.reg.modbusSlaveCount ≤ 10 →
    (∀ a ∈ processFramesAccesses fuel s now, a.inBounds = true) ∧
    (processFrames fuel s now).buf.length ≤ 255 ∧
    (processFrames fuel s now).reg.modbusSlaveCount ≤ 10 := by
  intro fuel
  induction fuel with
  | zero =>
    intro s h255 hcount
    refine ⟨?_, h255, hcount⟩
    intro a ha
    simp [processFramesAccesses] at ha
  | succ fuel ih =>
    intro s h255 hcount
    by_cases h3 : 3 ≤ s.buf.length
    · by_cases hfull : s.buf.getD 2 0 + 5 ≤ s.buf.length
      · have hge : s.buf.length ≥ 3 := h3
        have hnlt : ¬ s.buf.length < s.buf.getD 2 0 + 5 := by omega
        have hngt : ¬ s.buf.getD 2 0 + 5 > s.buf.length := by omega
        have hreg : (if sendModbusRequestCheck s.buf (s.buf.getD 2 0 + 5) = true then
              (if s.buf.getD 1 0 = 0x03 then pushFrame s.reg s.buf (s.buf.getD 2 0) now
               else s.reg)
            else s.reg).modbusSlaveCount ≤ 10 := by
          split_ifs
          · exact pushFrame_count_le_ten _ _ _ _ hcount
          · exact hcount
          · exact hcount
        have hnext := ih
          { s with
            reg :=
              if sendModbusRequestCheck s.buf (s.buf.getD 2 0 + 5) = true then
                (if s.buf.getD 1 0 = 0x03 then pushFrame s.reg s.buf (s.buf.getD 2 0) now
                 else s.reg)
              else s.reg
            buf := s.buf.drop (s.buf.getD 2 0 + 5) }
          (by show (s.buf.drop (s.buf.getD 2 0 + 5)).length ≤ 255
              rw [List.length_drop]; omega)
          hreg
        rw [processFrames_step fuel s now h3 hfull h255]
        refine ⟨?_, hnext.2.1, hnext.2.2⟩
        have hacc := processFramesAccesses_step fuel s now h3 hfull h255
        rw [hacc]
        apply all_inBounds_append _ _ _ hnext.1
        apply all_inBounds_append
        · apply all_inBounds_append
          · apply all_inBounds_append
            · intro a ha
              simp only [List.mem_cons, List.mem_singleton, List.not_mem_nil, or_false] at ha
              rcases ha with h | h | h <;> subst h <;>
                simp only [Access.inBounds, decide_eq_true_eq] <;> omega
            · apply calcCRC16Accesses_inBounds
              have : (s.buf.getD 2 0 + 5 - 2) % 256 ≤ s.buf.getD 2 0 + 5 - 2 := Nat.mod_le _ _
              omega
          · split_ifs
            · apply all_inBounds_append
              · intro a ha
                simp only [List.mem_cons, List.mem_singleton, List.not_mem_nil, or_false] at ha
                rcases ha with h | h <;> subst h <;>
                  simp only [Access.inBounds, decide_eq_true_eq] <;> omega
              · exact pushFrameAccesses_inBounds _ _ _ _ hcount hfull
            · apply all_inBounds_append
              · intro a ha
                simp only [List.mem_cons, List.mem_singleton, List.not_mem_nil, or_false] at ha
                rcases ha with h | h <;> subst h <;>
                  simp only [Access.inBounds, decide_eq_true_eq] <;> omega
              · intro a ha
                simp at ha
            · intro a ha
              rcases List.mem_cons.mp ha with h | h
              · subst h
                simp only [Access.inBounds, decide_eq_true_eq]
                omega
              · exact rawDumpAccesses_inBounds _ _ hfull a h
        · intro a ha
          simp only [List.mem_flatten, List.mem_map, List.mem_range] at ha
          obtain ⟨l, ⟨j, hj, rfl⟩, hal⟩ := ha
          simp only [List.mem_cons, List.mem_singleton, List.not_mem_nil, or_false] at hal
          rcases hal with h | h <;> subst h <;>
            simp only [Access.inBounds, decide_eq_true_eq] <;> omega
      · rw [processFrames_incomplete _ s now (by omega)]
        refine ⟨?_, h255, hcount⟩
        have hge : s.buf.length ≥ 3 := h3
        have hlt : s.buf.length < s.buf.getD 2 0 + 5 := by omega
        intro a ha
        simp only [processFramesAccesses, hge, hlt, if_true, List.mem_singleton] at ha
        subst ha
        simp only [Access.inBounds, decide_eq_true_eq]
        omega
    · rw [processFrames_short _ s now (by omega)]
      refine ⟨?_, h255, hcount⟩
      have hge : ¬ s.buf.length ≥ 3 := by omega
      intro a ha
      simp [processFramesAccesses, hge] at ha

/-- One byte taken in: the subscripts are inside and the two bounds hold
afterwards. -/
theorem pushByte_inBounds (s : PushIngester) (byte now : Nat)
    (h255 : s.buf.length ≤ 255) (hcount : s.reg.modbusSlaveCount ≤ 10) :
    (∀ a ∈ pushByteAccesses s byte now, a.inBounds = true) ∧
    (pushByte s byte now).buf.length ≤ 255 ∧
    (pushByte s byte now).reg.modbusSlaveCount ≤ 10 := by
  have h256 : s.buf.length < 256 := by omega
  have hlen1 : ((s.buf ++ [byte]).take ((s.buf.length + 1) % 256)).length ≤ 255 := by
    rw [List.length_take]
    omega
  have h := processFrames_inBounds now
    ((s.buf ++ [byte]).take ((s.buf.length + 1) % 256)).length
    { s with buf := (s.buf ++ [byte]).take ((s.buf.length + 1) % 256), lastByte := now }
    hlen1 hcount
  unfold pushByte pushByteAccesses
  simp only [h256, if_true]
  refine ⟨?_, h.2.1, h.2.2⟩
  intro a ha
  rcases List.mem_cons.mp ha with e | e
  · subst e
    simp only [Access.inBounds, decide_eq_true_eq]
    exact h256
  · exact h.1 a e

theorem foldl_pushByte_inBounds (now : Nat) : ∀ (input : List Nat) (s : PushIngester),
    s.buf.length ≤ 255 → s.reg.modbusSlaveCount ≤ 10 →
    (∀ a ∈ pollUnoPushFramesAccesses s input now, a.inBounds = true) ∧
    (input.foldl (fun st byte => pushByte st byte now) s).buf.length ≤ 255 ∧
    (input.foldl (fun st byte => pushByte st byte now) s).reg.modbusSlaveCount ≤ 10 := by
  intro input
  induction input with
  | nil =>
    intro s h255 hcount
    refine ⟨?_, h255, hcount⟩
    intro a ha
    simp [pollUnoPushFramesAccesses] at ha
  | cons byte rest ih =>
    intro s h255 hcount
    have h1 := pushByte_inBounds s byte now h255 hcount
    have h2 := ih (pushByte s byte now) h1.2.1 h1.2.2
    refine ⟨?_, h2.2.1, h2.2.2⟩
    rw [pollUnoPushFramesAccesses]
    exact all_inBounds_append _ _ h1.1 h2.1

/-- Claim C30. Ingester buffer accesses are in bounds for every input: for
every byte sequence fed to pollUnoPushFrames, from a state whose len is at most
255 (its type) and whose modbusSlaveCount is at most 10, every buffer index
read is smaller than the current buffered length, every buffer index written
is smaller than 256, every index into registers is below 10 and every registry
index is below modbusSlaveCount <= 10 (the slot filled by addDiscoveredSensor
is the one at modbusSlaveCount < 10, counted from then on); the two bounds on
the state hold again after the call, so the same is true of any number of
calls. -/
theorem pollUnoPushFrames_accesses_in_bounds (s : PushIngester) (input : List Nat)
    (now endNow : Nat) (hlen : s.buf.length ≤ 255) (hcount : s.reg.modbusSlaveCount ≤ 10) :
    (pollUnoPushFramesAccesses s input now).all Access.inBounds = true ∧
    (pollUnoPushFrames s input now endNow).buf.length ≤ 255 ∧
    (pollUnoPushFrames s input now endNow).reg.modbusSlaveCount ≤ 10 := by
  have h := foldl_pushByte_inBounds now input s hlen hcount
  refine ⟨List.all_eq_true.mpr h.1, ?_, ?_⟩
  · unfold pollUnoPushFrames
    simp only
    split_ifs
    · exact Nat.zero_le _
    · exact h.2.1
  · unfold pollUnoPushFrames
    simp only
    split_ifs
    · exact h.2.2
    · exact h.2.2

/-- Instance: a frame that fails the CRC followed by a valid frame, at
start-up. -/
theorem pollUnoPushFrames_accesses_in_bounds_witness :
    (pollUnoPushFramesAccesses ingesterEmpty ([1, 3, 0, 9, 9, 7] ++ scd41Frame) 100).all
      Access.inBounds = true :=
  (pollUnoPushFrames_accesses_in_bounds ingesterEmpty ([1, 3, 0, 9, 9, 7] ++ scd41Frame) 100 100
    (by decide) (by decide)).1

/-! ## The failure counter of a record updated in place -/

/-- The update in place does not write the failure counter: the record gets
its stamps and keeps the value of consecutiveFailures it had. -/
theorem pollUnoPushFrames_update_keeps_failures (s : PushIngester) (addr i : Nat)
    (payload : List Nat) (now endNow : Nat)
    (hbuf : s.buf = []) (hn : payload.length ≤ 250) (ha : addr < 256)
    (hp : ∀ p ∈ payload, p < 256) (hslots : s.reg.modbusSensors.length = 10)
    (hcount : s.reg.modbusSlaveCount ≤ 10) (hfound : findSlave s.reg addr = some i) :
    ((pollUnoPushFrames s (pushFrameBytes addr 0x03 payload) now endNow).reg.modbusSensors.getD i
        ModbusSlave.zero).consecutiveFailures
      = (s.reg.modbusSensors.getD i ModbusSlave.zero).consecutiveFailures ∧
    ((pollUnoPushFrames s (pushFrameBytes addr 0x03 payload) now endNow).reg.modbusSensors.getD i
        ModbusSlave.zero).isOnline = true ∧
    ((pollUnoPushFrames s (pushFrameBytes addr 0x03 payload) now endNow).reg.modbusSensors.getD i
        ModbusSlave.zero).lastResponse = now := by
  have hi : i < s.reg.modbusSensors.length := by
    have := (findSlave_some s.reg addr i hfound).1
    omega
  have h0 : (pushFrameBytes addr 0x03 payload).getD 0 0 = addr := rfl
  rw [pollUnoPushFrames_frame s addr 0x03 payload now endNow hbuf hn ha (by decide) hp]
  simp only [if_true]
  rw [pushFrame_found s.reg _ _ _ i (by rw [h0]; exact hfound)]
  simp only [getD_set_self _ _ _ _ hi, and_self]

end AppSerial
